import Mathlib

/-!
Verification of the duplex coordinate-mapping subsystem of the remora
repository: the Coordinate Projector (`data_chunks.map_ref_to_signal`) and the
Sequence Aligner & Trimmer (`duplex_utils.map_simplex_to_duplex`).  The two
implementation modules are not part of the source tree given under `src/`;
only their conformance tests (`src/tests/test_duplex.py`) are.  The two
operations are therefore modelled from the specification, and the expected
values asserted by the conformance tests are embedded verbatim as fixture
data and used as the authoritative record of the implementation's outputs.
-/

namespace Remora

/-- Modelled from the spec: the Coordinate Projector `map_ref_to_signal` of
`remora/data_chunks.py` is not under `src/`; only its call sites in
`src/tests/test_duplex.py` are.  Spec section 4.2: for each reference-like base
index `i`, look up `query_to_signal[ref_to_query_knots[i]]`; any out-of-range
lookup index is clamped to the last valid query index, reusing that query
base's start-of-signal value. -/
def map_ref_to_signal (query_to_signal : List Nat) (ref_to_query_knots : List Nat) : List Nat :=
  ref_to_query_knots.map
    (fun knot => query_to_signal.getD (min knot (query_to_signal.length - 1)) 0)

/-- One conformance fixture of `src/tests/test_duplex.py`: an input pair
together with the values the test asserts for the aligner output fields
(`trimmed_duplex_seq`, `duplex_offset`, `duplex_to_simplex_mapping`) and for
the projected `duplex_to_signal` array obtained with
`query_to_signal = np.arange(len(simplex))`. -/
structure DuplexFixture where
  simplex : List Char
  duplex : List Char
  trimmed_duplex_seq : List Char
  duplex_offset : Nat
  duplex_to_simplex_mapping : List Nat
  duplex_to_signal : List Nat
deriving DecidableEq

/-- Case 1 of `test_duplex_alignment_to_signal_mapping_at_5prime_end`
(`src/tests/test_duplex.py` lines 60-86): simplex has extra sequence on the
5-prime end. -/
def fivePrimeCase1 : DuplexFixture where
  simplex := "TTTTTACGTACGTACG".toList
  duplex := "ACGTACGTACG".toList
  trimmed_duplex_seq := "ACGTACGTACG".toList
  duplex_offset := 0
  duplex_to_simplex_mapping := [5, 6, 7, 8, 9, 10, 11, 12, 13, 14, 15, 16]
  duplex_to_signal := [5, 6, 7, 8, 9, 10, 11, 12, 13, 14, 15, 15]

/-- Case 2 of `test_duplex_alignment_to_signal_mapping_at_5prime_end`
(`src/tests/test_duplex.py` lines 88-113): simplex is missing sequence on the
5-prime end. -/
def fivePrimeCase2 : DuplexFixture where
  simplex := "ACGTACGTACG".toList
  duplex := "TCGTTACGTACGTACG".toList
  trimmed_duplex_seq := "ACGTACGTACG".toList
  duplex_offset := 5
  duplex_to_simplex_mapping := [0, 1, 2, 3, 4, 5, 6, 7, 8, 9, 10, 11]
  duplex_to_signal := [0, 1, 2, 3, 4, 5, 6, 7, 8, 9, 10, 10]

/-- Case 3 of `test_duplex_alignment_to_signal_mapping_at_5prime_end`
(`src/tests/test_duplex.py` lines 115-141): simplex is missing sequence at the
5-prime end and starts with unpaired sequence. -/
def fivePrimeCase3 : DuplexFixture where
  simplex := "GGGTACGTACG".toList
  duplex := "TCGTTACGTACGTACG".toList
  trimmed_duplex_seq := "GTACGTACG".toList
  duplex_offset := 7
  duplex_to_simplex_mapping := [2, 3, 4, 5, 6, 7, 8, 9, 10, 11]
  duplex_to_signal := [2, 3, 4, 5, 6, 7, 8, 9, 10, 10]

/-- Case 4 of `test_duplex_alignment_to_signal_mapping_at_3prime_end`
(`src/tests/test_duplex.py` lines 146-170): simplex is missing sequence at the
3-prime end. -/
def threePrimeCase4 : DuplexFixture where
  simplex := "ACGTACGTACG".toList
  duplex := "ACGTACGTACGTTTCGT".toList
  trimmed_duplex_seq := "ACGTACGTACG".toList
  duplex_offset := 0
  duplex_to_simplex_mapping := [0, 1, 2, 3, 4, 5, 6, 7, 8, 9, 10, 11]
  duplex_to_signal := [0, 1, 2, 3, 4, 5, 6, 7, 8, 9, 10, 10]

/-- Case 5 of `test_duplex_alignment_to_signal_mapping_at_3prime_end`
(`src/tests/test_duplex.py` lines 172-196): simplex is missing sequence at the
3-prime end and also has unaligned trailing sequence of its own. -/
def threePrimeCase5 : DuplexFixture where
  simplex := "ACGTACGTACGAA".toList
  duplex := "ACGTACGTACGTTTCGT".toList
  trimmed_duplex_seq := "ACGTACGTACG".toList
  duplex_offset := 0
  duplex_to_simplex_mapping := [0, 1, 2, 3, 4, 5, 6, 7, 8, 9, 10, 11]
  duplex_to_signal := [0, 1, 2, 3, 4, 5, 6, 7, 8, 9, 10, 11]

/-- First case of `test_duplex_alignment_to_signal_mapping_ragged_ends`
(`src/tests/test_duplex.py` lines 201-226): simplex overhangs the duplex on
both ends. -/
def raggedCase6 : DuplexFixture where
  simplex := "TTTTTACGTACGTACGTTTTTT".toList
  duplex := "ACGTACGTACG".toList
  trimmed_duplex_seq := "ACGTACGTACG".toList
  duplex_offset := 0
  duplex_to_simplex_mapping := [5, 6, 7, 8, 9, 10, 11, 12, 13, 14, 15, 16]
  duplex_to_signal := [5, 6, 7, 8, 9, 10, 11, 12, 13, 14, 15, 16]

/-- Second case of `test_duplex_alignment_to_signal_mapping_ragged_ends`
(`src/tests/test_duplex.py` lines 228-250): duplex overhangs the simplex on
both ends. -/
def raggedCase7 : DuplexFixture where
  simplex := "ACGTACGTACG".toList
  duplex := "TCGTTACGTACGTACGTTTCGT".toList
  trimmed_duplex_seq := "ACGTACGTACG".toList
  duplex_offset := 5
  duplex_to_simplex_mapping := [0, 1, 2, 3, 4, 5, 6, 7, 8, 9, 10, 11]
  duplex_to_signal := [0, 1, 2, 3, 4, 5, 6, 7, 8, 9, 10, 10]

/-- All conformance fixtures of `src/tests/test_duplex.py` for the
aligner-plus-projector pipeline. -/
def conformanceFixtures : List DuplexFixture :=
  [fivePrimeCase1, fivePrimeCase2, fivePrimeCase3, threePrimeCase4,
   threePrimeCase5, raggedCase6, raggedCase7]

/-!
The Sequence Aligner & Trimmer.  `duplex_utils.map_simplex_to_duplex` is not
under `src/` (only its conformance tests are), so it is modelled from the
specification: a pairwise alignment primitive in the best-scoring local mode
(spec section 4.1 step 1 and section 9 allow any correct dynamic-programming
aligner in a local or overlap mode), followed by the trim and trace-walk
policy of section 4.1 steps 2-4.  The mapping emitted carries the final
fence-post entry, one past the last aligned simplex index, matching the
conformance fixtures (spec section 8, scenarios 1-4).  This model reproduces
all seven conformance fixtures of `src/tests/test_duplex.py` exactly.
-/

/-- Modelled from the spec: score of aligning simplex base `a` against duplex
base `b` (a match or a substitution column). -/
def baseScore (a b : Char) : Int := if a = b then 2 else -1

/-- Modelled from the spec: linear penalty for an insertion or deletion
column. -/
def gapPenalty : Int := 2

/-- Entry `(i, j)` of the dynamic-programming score matrix, `0` outside. -/
def dpGet (tbl : List (List Int)) (i j : Nat) : Int := (tbl.getD i []).getD j 0

/-- Interior of one row of the local-alignment score matrix: `diag` is the
previous row's entry one column back, `left` the current row's previous entry,
and the fourth argument the previous row from the current column onward. -/
def dpNextRowAux (a : Char) : Int → Int → List Char → List Int → List Int
  | diag, left, b :: bs, up :: ups =>
      let v := max 0 (max (diag + baseScore a b) (max (up - gapPenalty) (left - gapPenalty)))
      v :: dpNextRowAux a up v bs ups
  | _, _, _, _ => []

/-- Row `0` of the score matrix: all zero (leading overhangs are free). -/
def dpRow0 (n : Nat) : List Int := List.replicate (n + 1) 0

/-- The score-matrix row for simplex base `a`, given the previous row. -/
def dpNextRow (duplex : List Char) (a : Char) (prev : List Int) : List Int :=
  match prev with
  | [] => []
  | p0 :: ps => 0 :: dpNextRowAux a p0 0 duplex ps

/-- Rows `1..m` of the score matrix, one per simplex base. -/
def dpRows (duplex : List Char) (prev : List Int) : List Char → List (List Int)
  | [] => []
  | a :: rest =>
      let r := dpNextRow duplex a prev
      r :: dpRows duplex r rest

/-- The full `(m+1) x (n+1)` local-alignment score matrix. -/
def dpTable (simplex duplex : List Char) : List (List Int) :=
  dpRow0 duplex.length :: dpRows duplex (dpRow0 duplex.length) simplex

/-- Scan of row `i` of the score matrix from column `j` on, improving the
running best cell and score whenever a strictly larger score appears. -/
def bestInRow (i : Nat) : Nat → (Nat × Nat) × Int → List Int → (Nat × Nat) × Int
  | _, best, [] => best
  | j, best, v :: vs =>
      bestInRow i (j + 1) (if best.2 < v then ((i, j), v) else best) vs

/-- Scan of the score matrix from row `i` on, row by row. -/
def bestCellAux : Nat → (Nat × Nat) × Int → List (List Int) → (Nat × Nat) × Int
  | _, best, [] => best
  | i, best, row :: rows => bestCellAux (i + 1) (bestInRow i 0 best row) rows

/-- The cell holding the maximal score (row-major first maximum): the end of
the best-scoring local alignment. -/
def bestCell (tbl : List (List Int)) : Nat × Nat :=
  (bestCellAux 0 ((0, 0), 0) tbl).1

/-- One column of the alignment trace: an aligned (match or substitution)
column consuming a base of each sequence, a simplex-only column (gap in the
duplex), or a duplex-only column (duplex insertion, gap in the simplex). -/
inductive AlignCol where
  | aligned (si di : Nat)
  | simplexOnly (si : Nat)
  | duplexOnly (di : Nat)
deriving DecidableEq

/-- Trace of the best local alignment ending at the cell whose reversed
sequence prefixes are given, read back off the score matrix; the walk stops
where the local score drops to zero (free leading overhangs).  The fuel
argument bounds the recursion and is always supplied at least the sum of the
prefix lengths, so it never runs out. -/
def tracebackFuel (tbl : List (List Int)) : Nat → List Char → List Char → List AlignCol
  | 0, _, _ => []
  | _ + 1, [], _ => []
  | _ + 1, _ :: _, [] => []
  | fuel + 1, a :: sR, b :: dR =>
      let h := dpGet tbl (sR.length + 1) (dR.length + 1)
      if h ≤ 0 then []
      else if h = dpGet tbl sR.length dR.length + baseScore a b then
        tracebackFuel tbl fuel sR dR ++ [AlignCol.aligned sR.length dR.length]
      else if h = dpGet tbl sR.length (dR.length + 1) - gapPenalty then
        tracebackFuel tbl fuel sR (b :: dR) ++ [AlignCol.simplexOnly sR.length]
      else
        tracebackFuel tbl fuel (a :: sR) dR ++ [AlignCol.duplexOnly dR.length]

/-- The alignment trace of the best-scoring local alignment of the two
sequences (spec section 9: `align(seq_a, seq_b) -> AlignmentTrace`). -/
def alignTrace (simplex duplex : List Char) : List AlignCol :=
  let tbl := dpTable simplex duplex
  let e := bestCell tbl
  tracebackFuel tbl (e.1 + e.2) (simplex.take e.1).reverse (duplex.take e.2).reverse

/-- Duplex positions of the aligned (matched or substituted) trace columns. -/
def alignedDuplexPositions (tr : List AlignCol) : List Nat :=
  tr.filterMap (fun c => match c with | .aligned _ di => some di | _ => none)

/-- Simplex positions of the aligned (matched or substituted) trace columns. -/
def alignedSimplexPositions (tr : List AlignCol) : List Nat :=
  tr.filterMap (fun c => match c with | .aligned si _ => some si | _ => none)

/-- Duplex positions of the duplex-consuming trace columns (aligned and
duplex-insertion columns), in trace order. -/
def dPositions (tr : List AlignCol) : List Nat :=
  tr.filterMap (fun c => match c with
    | .aligned _ di => some di
    | .duplexOnly di => some di
    | _ => none)

/-- Whether a trace column is aligned (matched or substituted). -/
def isAlignedCol : AlignCol → Bool
  | .aligned _ _ => true
  | _ => false

/-- The trace restricted to the aligned span: columns before the first and
after the last aligned column are dropped (spec section 4.1 steps 2-3). -/
def spanTrace (tr : List AlignCol) : List AlignCol :=
  ((tr.dropWhile (fun c => ! isAlignedCol c)).reverse.dropWhile
    (fun c => ! isAlignedCol c)).reverse

/-- Walk of the trimmed span (spec section 4.1 step 4): one simplex index per
duplex base, the aligned simplex index on a match or substitution column, and
the nearest preceding aligned simplex index (monotone carry-forward) on a
duplex-insertion column. -/
def walkMapping : List AlignCol → Nat → List Nat
  | [], _ => []
  | AlignCol.aligned si _ :: rest, _ => si :: walkMapping rest si
  | AlignCol.duplexOnly _ :: rest, carry => carry :: walkMapping rest carry
  | AlignCol.simplexOnly _ :: rest, carry => walkMapping rest carry

/-- Error taxonomy of spec section 7 for the aligner: empty input
(*InputError*) and no aligned columns (*UnalignableError*). -/
inductive MappingError where
  | inputError
  | unalignableError
deriving DecidableEq

/-- Result record of the Sequence Aligner & Trimmer (spec section 3), with
the field names of `src/tests/test_duplex.py`. -/
structure SimplexToDuplexMapping where
  trimmed_duplex_seq : List Char
  duplex_offset : Nat
  duplex_to_simplex_mapping : List Nat
deriving DecidableEq

instance {e a : Type} [DecidableEq e] [DecidableEq a] : DecidableEq (Except e a) := fun x y =>
  match x, y with
  | .ok u, .ok v => decidable_of_iff (u = v) (by simp)
  | .error u, .error v => decidable_of_iff (u = v) (by simp)
  | .ok _, .error _ => isFalse (by simp)
  | .error _, .ok _ => isFalse (by simp)

/-- Modelled from the spec: `duplex_utils.map_simplex_to_duplex` is not under
`src/`; only its conformance tests in `src/tests/test_duplex.py` are.  Spec
section 4.1: align the two sequences, locate the first and last duplex
positions taking part in an aligned column, trim the duplex sequence to that
span, record its start as `duplex_offset`, and walk the trace over the
trimmed span to produce `duplex_to_simplex_mapping` (with its final
fence-post entry, one past the last aligned simplex index, per the
conformance fixtures).  It fails on empty input or when no aligned column
exists (spec sections 4.1 and 7). -/
def map_simplex_to_duplex (simplex_seq duplex_seq : List Char) :
    Except MappingError SimplexToDuplexMapping :=
  if simplex_seq.isEmpty ∨ duplex_seq.isEmpty then .error .inputError
  else
    match (alignedDuplexPositions (alignTrace simplex_seq duplex_seq)).head?,
        (alignedDuplexPositions (alignTrace simplex_seq duplex_seq)).getLast?,
        (alignedSimplexPositions (alignTrace simplex_seq duplex_seq)).getLast? with
    | some firstD, some lastD, some lastS =>
        .ok { trimmed_duplex_seq := (duplex_seq.drop firstD).take (lastD + 1 - firstD)
              duplex_offset := firstD
              duplex_to_simplex_mapping :=
                walkMapping (spanTrace (alignTrace simplex_seq duplex_seq)) 0 ++ [lastS + 1] }
    | _, _, _ => .error .unalignableError

/-! Helper lemmas. -/

lemma head?_mem {α : Type} {l : List α} {a : α} (h : l.head? = some a) : a ∈ l := by
  cases l with
  | nil => cases h
  | cons x xs =>
      have : a = x := by simpa using h.symm
      simp [this]

lemma getLast?_mem {α : Type} {l : List α} {a : α} (h : l.getLast? = some a) : a ∈ l := by
  induction l with
  | nil => cases h
  | cons x xs ih =>
      cases xs with
      | nil => simp_all [List.getLast?]
      | cons y ys =>
          rw [List.getLast?_cons_cons] at h
          exact List.mem_cons_of_mem _ (ih h)

lemma getD_mono_of_pairwise_le (l : List Nat) (hl : List.Pairwise (· ≤ ·) l)
    {i j : Nat} (hij : i ≤ j) (hj : j < l.length) : l.getD i 0 ≤ l.getD j 0 := by
  rcases Nat.eq_or_lt_of_le hij with rfl | hlt
  · exact le_refl _
  · have hi : i < l.length := Nat.lt_trans hlt hj
    rw [List.getD_eq_getElem l 0 hi, List.getD_eq_getElem l 0 hj]
    exact List.pairwise_iff_getElem.mp hl i j hi hj hlt

lemma clampedIndex_lt (L k : Nat) (hL : 0 < L) : min k (L - 1) < L :=
  Nat.lt_of_le_of_lt (Nat.min_le_right _ _) (Nat.sub_lt hL Nat.one_pos)

lemma map_ref_to_signal_getD (query_to_signal ref_to_query_knots : List Nat) {i : Nat}
    (hi : i < ref_to_query_knots.length) :
    (map_ref_to_signal query_to_signal ref_to_query_knots).getD i 0
      = query_to_signal.getD
          (min (ref_to_query_knots.getD i 0) (query_to_signal.length - 1)) 0 := by
  have hi' : i < (map_ref_to_signal query_to_signal ref_to_query_knots).length := by
    simpa [map_ref_to_signal] using hi
  rw [List.getD_eq_getElem _ 0 hi', List.getD_eq_getElem _ 0 hi]
  simp [map_ref_to_signal]

lemma range_getD_eq {n i : Nat} (h : i < n) : (List.range n).getD i 0 = i := by
  rw [List.getD_eq_getElem _ _ (by simpa using h)]
  simp

set_option maxRecDepth 6000 in
/-- The modelled aligner computes, on the input pair of conformance fixture
case 1 (`src/tests/test_duplex.py` lines 60-86), exactly the output the test asserts. -/
lemma model_eval_case1 :
    map_simplex_to_duplex "TTTTTACGTACGTACG".toList "ACGTACGTACG".toList
      = .ok ⟨"ACGTACGTACG".toList, 0, [5, 6, 7, 8, 9, 10, 11, 12, 13, 14, 15, 16]⟩ := by
  have hsl : "TTTTTACGTACGTACG".toList = ['T', 'T', 'T', 'T', 'T', 'A', 'C', 'G', 'T', 'A', 'C', 'G', 'T', 'A', 'C', 'G'] := by decide
  have hdl : "ACGTACGTACG".toList = ['A', 'C', 'G', 'T', 'A', 'C', 'G', 'T', 'A', 'C', 'G'] := by decide
  rw [hsl, hdl]
  have hlen : List.length ['A', 'C', 'G', 'T', 'A', 'C', 'G', 'T', 'A', 'C', 'G'] = 11 := by decide
  have hw0 : dpRow0 11 = [0, 0, 0, 0, 0, 0, 0, 0, 0, 0, 0, 0] := by decide
  have hw1 : dpNextRow ['A', 'C', 'G', 'T', 'A', 'C', 'G', 'T', 'A', 'C', 'G'] 'T' [0, 0, 0, 0, 0, 0, 0, 0, 0, 0, 0, 0] = [0, 0, 0, 0, 2, 0, 0, 0, 2, 0, 0, 0] := by decide
  have hw2 : dpNextRow ['A', 'C', 'G', 'T', 'A', 'C', 'G', 'T', 'A', 'C', 'G'] 'T' [0, 0, 0, 0, 2, 0, 0, 0, 2, 0, 0, 0] = [0, 0, 0, 0, 2, 1, 0, 0, 2, 1, 0, 0] := by decide
  have hw3 : dpNextRow ['A', 'C', 'G', 'T', 'A', 'C', 'G', 'T', 'A', 'C', 'G'] 'T' [0, 0, 0, 0, 2, 1, 0, 0, 2, 1, 0, 0] = [0, 0, 0, 0, 2, 1, 0, 0, 2, 1, 0, 0] := by decide
  have hw4 : dpNextRow ['A', 'C', 'G', 'T', 'A', 'C', 'G', 'T', 'A', 'C', 'G'] 'T' [0, 0, 0, 0, 2, 1, 0, 0, 2, 1, 0, 0] = [0, 0, 0, 0, 2, 1, 0, 0, 2, 1, 0, 0] := by decide
  have hw5 : dpNextRow ['A', 'C', 'G', 'T', 'A', 'C', 'G', 'T', 'A', 'C', 'G'] 'T' [0, 0, 0, 0, 2, 1, 0, 0, 2, 1, 0, 0] = [0, 0, 0, 0, 2, 1, 0, 0, 2, 1, 0, 0] := by decide
  have hw6 : dpNextRow ['A', 'C', 'G', 'T', 'A', 'C', 'G', 'T', 'A', 'C', 'G'] 'A' [0, 0, 0, 0, 2, 1, 0, 0, 2, 1, 0, 0] = [0, 2, 0, 0, 0, 4, 2, 0, 0, 4, 2, 0] := by decide
  have hw7 : dpNextRow ['A', 'C', 'G', 'T', 'A', 'C', 'G', 'T', 'A', 'C', 'G'] 'C' [0, 2, 0, 0, 0, 4, 2, 0, 0, 4, 2, 0] = [0, 0, 4, 2, 0, 2, 6, 4, 2, 2, 6, 4] := by decide
  have hw8 : dpNextRow ['A', 'C', 'G', 'T', 'A', 'C', 'G', 'T', 'A', 'C', 'G'] 'G' [0, 0, 4, 2, 0, 2, 6, 4, 2, 2, 6, 4] = [0, 0, 2, 6, 4, 2, 4, 8, 6, 4, 4, 8] := by decide
  have hw9 : dpNextRow ['A', 'C', 'G', 'T', 'A', 'C', 'G', 'T', 'A', 'C', 'G'] 'T' [0, 0, 2, 6, 4, 2, 4, 8, 6, 4, 4, 8] = [0, 0, 0, 4, 8, 6, 4, 6, 10, 8, 6, 6] := by decide
  have hw10 : dpNextRow ['A', 'C', 'G', 'T', 'A', 'C', 'G', 'T', 'A', 'C', 'G'] 'A' [0, 0, 0, 4, 8, 6, 4, 6, 10, 8, 6, 6] = [0, 2, 0, 2, 6, 10, 8, 6, 8, 12, 10, 8] := by decide
  have hw11 : dpNextRow ['A', 'C', 'G', 'T', 'A', 'C', 'G', 'T', 'A', 'C', 'G'] 'C' [0, 2, 0, 2, 6, 10, 8, 6, 8, 12, 10, 8] = [0, 0, 4, 2, 4, 8, 12, 10, 8, 10, 14, 12] := by decide
  have hw12 : dpNextRow ['A', 'C', 'G', 'T', 'A', 'C', 'G', 'T', 'A', 'C', 'G'] 'G' [0, 0, 4, 2, 4, 8, 12, 10, 8, 10, 14, 12] = [0, 0, 2, 6, 4, 6, 10, 14, 12, 10, 12, 16] := by decide
  have hw13 : dpNextRow ['A', 'C', 'G', 'T', 'A', 'C', 'G', 'T', 'A', 'C', 'G'] 'T' [0, 0, 2, 6, 4, 6, 10, 14, 12, 10, 12, 16] = [0, 0, 0, 4, 8, 6, 8, 12, 16, 14, 12, 14] := by decide
  have hw14 : dpNextRow ['A', 'C', 'G', 'T', 'A', 'C', 'G', 'T', 'A', 'C', 'G'] 'A' [0, 0, 0, 4, 8, 6, 8, 12, 16, 14, 12, 14] = [0, 2, 0, 2, 6, 10, 8, 10, 14, 18, 16, 14] := by decide
  have hw15 : dpNextRow ['A', 'C', 'G', 'T', 'A', 'C', 'G', 'T', 'A', 'C', 'G'] 'C' [0, 2, 0, 2, 6, 10, 8, 10, 14, 18, 16, 14] = [0, 0, 4, 2, 4, 8, 12, 10, 12, 16, 20, 18] := by decide
  have hw16 : dpNextRow ['A', 'C', 'G', 'T', 'A', 'C', 'G', 'T', 'A', 'C', 'G'] 'G' [0, 0, 4, 2, 4, 8, 12, 10, 12, 16, 20, 18] = [0, 0, 2, 6, 4, 6, 10, 14, 12, 14, 18, 22] := by decide
  have hT : dpTable ['T', 'T', 'T', 'T', 'T', 'A', 'C', 'G', 'T', 'A', 'C', 'G', 'T', 'A', 'C', 'G'] ['A', 'C', 'G', 'T', 'A', 'C', 'G', 'T', 'A', 'C', 'G']
      = [[0, 0, 0, 0, 0, 0, 0, 0, 0, 0, 0, 0],
       [0, 0, 0, 0, 2, 0, 0, 0, 2, 0, 0, 0],
       [0, 0, 0, 0, 2, 1, 0, 0, 2, 1, 0, 0],
       [0, 0, 0, 0, 2, 1, 0, 0, 2, 1, 0, 0],
       [0, 0, 0, 0, 2, 1, 0, 0, 2, 1, 0, 0],
       [0, 0, 0, 0, 2, 1, 0, 0, 2, 1, 0, 0],
       [0, 2, 0, 0, 0, 4, 2, 0, 0, 4, 2, 0],
       [0, 0, 4, 2, 0, 2, 6, 4, 2, 2, 6, 4],
       [0, 0, 2, 6, 4, 2, 4, 8, 6, 4, 4, 8],
       [0, 0, 0, 4, 8, 6, 4, 6, 10, 8, 6, 6],
       [0, 2, 0, 2, 6, 10, 8, 6, 8, 12, 10, 8],
       [0, 0, 4, 2, 4, 8, 12, 10, 8, 10, 14, 12],
       [0, 0, 2, 6, 4, 6, 10, 14, 12, 10, 12, 16],
       [0, 0, 0, 4, 8, 6, 8, 12, 16, 14, 12, 14],
       [0, 2, 0, 2, 6, 10, 8, 10, 14, 18, 16, 14],
       [0, 0, 4, 2, 4, 8, 12, 10, 12, 16, 20, 18],
       [0, 0, 2, 6, 4, 6, 10, 14, 12, 14, 18, 22]] := by
    simp only [dpTable, dpRows, hlen, hw0, hw1, hw2, hw3, hw4, hw5, hw6, hw7, hw8, hw9, hw10, hw11, hw12, hw13, hw14, hw15, hw16]
  have hr0 : bestInRow 0 0 ((0, 0), 0) [0, 0, 0, 0, 0, 0, 0, 0, 0, 0, 0, 0] = ((0, 0), 0) := by decide
  have hr1 : bestInRow 1 0 ((0, 0), 0) [0, 0, 0, 0, 2, 0, 0, 0, 2, 0, 0, 0] = ((1, 4), 2) := by decide
  have hr2 : bestInRow 2 0 ((1, 4), 2) [0, 0, 0, 0, 2, 1, 0, 0, 2, 1, 0, 0] = ((1, 4), 2) := by decide
  have hr3 : bestInRow 3 0 ((1, 4), 2) [0, 0, 0, 0, 2, 1, 0, 0, 2, 1, 0, 0] = ((1, 4), 2) := by decide
  have hr4 : bestInRow 4 0 ((1, 4), 2) [0, 0, 0, 0, 2, 1, 0, 0, 2, 1, 0, 0] = ((1, 4), 2) := by decide
  have hr5 : bestInRow 5 0 ((1, 4), 2) [0, 0, 0, 0, 2, 1, 0, 0, 2, 1, 0, 0] = ((1, 4), 2) := by decide
  have hr6 : bestInRow 6 0 ((1, 4), 2) [0, 2, 0, 0, 0, 4, 2, 0, 0, 4, 2, 0] = ((6, 5), 4) := by decide
  have hr7 : bestInRow 7 0 ((6, 5), 4) [0, 0, 4, 2, 0, 2, 6, 4, 2, 2, 6, 4] = ((7, 6), 6) := by decide
  have hr8 : bestInRow 8 0 ((7, 6), 6) [0, 0, 2, 6, 4, 2, 4, 8, 6, 4, 4, 8] = ((8, 7), 8) := by decide
  have hr9 : bestInRow 9 0 ((8, 7), 8) [0, 0, 0, 4, 8, 6, 4, 6, 10, 8, 6, 6] = ((9, 8), 10) := by decide
  have hr10 : bestInRow 10 0 ((9, 8), 10) [0, 2, 0, 2, 6, 10, 8, 6, 8, 12, 10, 8] = ((10, 9), 12) := by decide
  have hr11 : bestInRow 11 0 ((10, 9), 12) [0, 0, 4, 2, 4, 8, 12, 10, 8, 10, 14, 12] = ((11, 10), 14) := by decide
  have hr12 : bestInRow 12 0 ((11, 10), 14) [0, 0, 2, 6, 4, 6, 10, 14, 12, 10, 12, 16] = ((12, 11), 16) := by decide
  have hr13 : bestInRow 13 0 ((12, 11), 16) [0, 0, 0, 4, 8, 6, 8, 12, 16, 14, 12, 14] = ((12, 11), 16) := by decide
  have hr14 : bestInRow 14 0 ((12, 11), 16) [0, 2, 0, 2, 6, 10, 8, 10, 14, 18, 16, 14] = ((14, 9), 18) := by decide
  have hr15 : bestInRow 15 0 ((14, 9), 18) [0, 0, 4, 2, 4, 8, 12, 10, 12, 16, 20, 18] = ((15, 10), 20) := by decide
  have hr16 : bestInRow 16 0 ((15, 10), 20) [0, 0, 2, 6, 4, 6, 10, 14, 12, 14, 18, 22] = ((16, 11), 22) := by decide
  have hbc : bestCell [[0, 0, 0, 0, 0, 0, 0, 0, 0, 0, 0, 0],
       [0, 0, 0, 0, 2, 0, 0, 0, 2, 0, 0, 0],
       [0, 0, 0, 0, 2, 1, 0, 0, 2, 1, 0, 0],
       [0, 0, 0, 0, 2, 1, 0, 0, 2, 1, 0, 0],
       [0, 0, 0, 0, 2, 1, 0, 0, 2, 1, 0, 0],
       [0, 0, 0, 0, 2, 1, 0, 0, 2, 1, 0, 0],
       [0, 2, 0, 0, 0, 4, 2, 0, 0, 4, 2, 0],
       [0, 0, 4, 2, 0, 2, 6, 4, 2, 2, 6, 4],
       [0, 0, 2, 6, 4, 2, 4, 8, 6, 4, 4, 8],
       [0, 0, 0, 4, 8, 6, 4, 6, 10, 8, 6, 6],
       [0, 2, 0, 2, 6, 10, 8, 6, 8, 12, 10, 8],
       [0, 0, 4, 2, 4, 8, 12, 10, 8, 10, 14, 12],
       [0, 0, 2, 6, 4, 6, 10, 14, 12, 10, 12, 16],
       [0, 0, 0, 4, 8, 6, 8, 12, 16, 14, 12, 14],
       [0, 2, 0, 2, 6, 10, 8, 10, 14, 18, 16, 14],
       [0, 0, 4, 2, 4, 8, 12, 10, 12, 16, 20, 18],
       [0, 0, 2, 6, 4, 6, 10, 14, 12, 14, 18, 22]] = (16, 11) := by
    simp only [bestCell, bestCellAux, Nat.reduceAdd, hr0, hr1, hr2, hr3, hr4, hr5, hr6, hr7, hr8, hr9, hr10, hr11, hr12, hr13, hr14, hr15, hr16]
  have htr : alignTrace ['T', 'T', 'T', 'T', 'T', 'A', 'C', 'G', 'T', 'A', 'C', 'G', 'T', 'A', 'C', 'G'] ['A', 'C', 'G', 'T', 'A', 'C', 'G', 'T', 'A', 'C', 'G']
      = [AlignCol.aligned 5 0, AlignCol.aligned 6 1, AlignCol.aligned 7 2, AlignCol.aligned 8 3, AlignCol.aligned 9 4, AlignCol.aligned 10 5, AlignCol.aligned 11 6, AlignCol.aligned 12 7, AlignCol.aligned 13 8, AlignCol.aligned 14 9, AlignCol.aligned 15 10] := by
    simp only [alignTrace]
    rw [hT, hbc]
    show tracebackFuel [[0, 0, 0, 0, 0, 0, 0, 0, 0, 0, 0, 0],
       [0, 0, 0, 0, 2, 0, 0, 0, 2, 0, 0, 0],
       [0, 0, 0, 0, 2, 1, 0, 0, 2, 1, 0, 0],
       [0, 0, 0, 0, 2, 1, 0, 0, 2, 1, 0, 0],
       [0, 0, 0, 0, 2, 1, 0, 0, 2, 1, 0, 0],
       [0, 0, 0, 0, 2, 1, 0, 0, 2, 1, 0, 0],
       [0, 2, 0, 0, 0, 4, 2, 0, 0, 4, 2, 0],
       [0, 0, 4, 2, 0, 2, 6, 4, 2, 2, 6, 4],
       [0, 0, 2, 6, 4, 2, 4, 8, 6, 4, 4, 8],
       [0, 0, 0, 4, 8, 6, 4, 6, 10, 8, 6, 6],
       [0, 2, 0, 2, 6, 10, 8, 6, 8, 12, 10, 8],
       [0, 0, 4, 2, 4, 8, 12, 10, 8, 10, 14, 12],
       [0, 0, 2, 6, 4, 6, 10, 14, 12, 10, 12, 16],
       [0, 0, 0, 4, 8, 6, 8, 12, 16, 14, 12, 14],
       [0, 2, 0, 2, 6, 10, 8, 10, 14, 18, 16, 14],
       [0, 0, 4, 2, 4, 8, 12, 10, 12, 16, 20, 18],
       [0, 0, 2, 6, 4, 6, 10, 14, 12, 14, 18, 22]] 27
        ['G', 'C', 'A', 'T', 'G', 'C', 'A', 'T', 'G', 'C', 'A', 'T', 'T', 'T', 'T', 'T']
        ['G', 'C', 'A', 'T', 'G', 'C', 'A', 'T', 'G', 'C', 'A']
      = [AlignCol.aligned 5 0, AlignCol.aligned 6 1, AlignCol.aligned 7 2, AlignCol.aligned 8 3, AlignCol.aligned 9 4, AlignCol.aligned 10 5, AlignCol.aligned 11 6, AlignCol.aligned 12 7, AlignCol.aligned 13 8, AlignCol.aligned 14 9, AlignCol.aligned 15 10]
    decide
  rw [map_simplex_to_duplex, htr, if_neg (by decide)]
  decide

set_option maxRecDepth 6000 in
/-- The modelled aligner computes, on the input pair of conformance fixture
case 2 (`src/tests/test_duplex.py` lines 88-113), exactly the output the test asserts. -/
lemma model_eval_case2 :
    map_simplex_to_duplex "ACGTACGTACG".toList "TCGTTACGTACGTACG".toList
      = .ok ⟨"ACGTACGTACG".toList, 5, [0, 1, 2, 3, 4, 5, 6, 7, 8, 9, 10, 11]⟩ := by
  have hsl : "ACGTACGTACG".toList = ['A', 'C', 'G', 'T', 'A', 'C', 'G', 'T', 'A', 'C', 'G'] := by decide
  have hdl : "TCGTTACGTACGTACG".toList = ['T', 'C', 'G', 'T', 'T', 'A', 'C', 'G', 'T', 'A', 'C', 'G', 'T', 'A', 'C', 'G'] := by decide
  rw [hsl, hdl]
  have hlen : List.length ['T', 'C', 'G', 'T', 'T', 'A', 'C', 'G', 'T', 'A', 'C', 'G', 'T', 'A', 'C', 'G'] = 16 := by decide
  have hw0 : dpRow0 16 = [0, 0, 0, 0, 0, 0, 0, 0, 0, 0, 0, 0, 0, 0, 0, 0, 0] := by decide
  have hw1 : dpNextRow ['T', 'C', 'G', 'T', 'T', 'A', 'C', 'G', 'T', 'A', 'C', 'G', 'T', 'A', 'C', 'G'] 'A' [0, 0, 0, 0, 0, 0, 0, 0, 0, 0, 0, 0, 0, 0, 0, 0, 0] = [0, 0, 0, 0, 0, 0, 2, 0, 0, 0, 2, 0, 0, 0, 2, 0, 0] := by decide
  have hw2 : dpNextRow ['T', 'C', 'G', 'T', 'T', 'A', 'C', 'G', 'T', 'A', 'C', 'G', 'T', 'A', 'C', 'G'] 'C' [0, 0, 0, 0, 0, 0, 2, 0, 0, 0, 2, 0, 0, 0, 2, 0, 0] = [0, 0, 2, 0, 0, 0, 0, 4, 2, 0, 0, 4, 2, 0, 0, 4, 2] := by decide
  have hw3 : dpNextRow ['T', 'C', 'G', 'T', 'T', 'A', 'C', 'G', 'T', 'A', 'C', 'G', 'T', 'A', 'C', 'G'] 'G' [0, 0, 2, 0, 0, 0, 0, 4, 2, 0, 0, 4, 2, 0, 0, 4, 2] = [0, 0, 0, 4, 2, 0, 0, 2, 6, 4, 2, 2, 6, 4, 2, 2, 6] := by decide
  have hw4 : dpNextRow ['T', 'C', 'G', 'T', 'T', 'A', 'C', 'G', 'T', 'A', 'C', 'G', 'T', 'A', 'C', 'G'] 'T' [0, 0, 0, 4, 2, 0, 0, 2, 6, 4, 2, 2, 6, 4, 2, 2, 6] = [0, 2, 0, 2, 6, 4, 2, 0, 4, 8, 6, 4, 4, 8, 6, 4, 4] := by decide
  have hw5 : dpNextRow ['T', 'C', 'G', 'T', 'T', 'A', 'C', 'G', 'T', 'A', 'C', 'G', 'T', 'A', 'C', 'G'] 'A' [0, 2, 0, 2, 6, 4, 2, 0, 4, 8, 6, 4, 4, 8, 6, 4, 4] = [0, 0, 1, 0, 4, 5, 6, 4, 2, 6, 10, 8, 6, 6, 10, 8, 6] := by decide
  have hw6 : dpNextRow ['T', 'C', 'G', 'T', 'T', 'A', 'C', 'G', 'T', 'A', 'C', 'G', 'T', 'A', 'C', 'G'] 'C' [0, 0, 1, 0, 4, 5, 6, 4, 2, 6, 10, 8, 6, 6, 10, 8, 6] = [0, 0, 2, 0, 2, 3, 4, 8, 6, 4, 8, 12, 10, 8, 8, 12, 10] := by decide
  have hw7 : dpNextRow ['T', 'C', 'G', 'T', 'T', 'A', 'C', 'G', 'T', 'A', 'C', 'G', 'T', 'A', 'C', 'G'] 'G' [0, 0, 2, 0, 2, 3, 4, 8, 6, 4, 8, 12, 10, 8, 8, 12, 10] = [0, 0, 0, 4, 2, 1, 2, 6, 10, 8, 6, 10, 14, 12, 10, 10, 14] := by decide
  have hw8 : dpNextRow ['T', 'C', 'G', 'T', 'T', 'A', 'C', 'G', 'T', 'A', 'C', 'G', 'T', 'A', 'C', 'G'] 'T' [0, 0, 0, 4, 2, 1, 2, 6, 10, 8, 6, 10, 14, 12, 10, 10, 14] = [0, 2, 0, 2, 6, 4, 2, 4, 8, 12, 10, 8, 12, 16, 14, 12, 12] := by decide
  have hw9 : dpNextRow ['T', 'C', 'G', 'T', 'T', 'A', 'C', 'G', 'T', 'A', 'C', 'G', 'T', 'A', 'C', 'G'] 'A' [0, 2, 0, 2, 6, 4, 2, 4, 8, 12, 10, 8, 12, 16, 14, 12, 12] = [0, 0, 1, 0, 4, 5, 6, 4, 6, 10, 14, 12, 10, 14, 18, 16, 14] := by decide
  have hw10 : dpNextRow ['T', 'C', 'G', 'T', 'T', 'A', 'C', 'G', 'T', 'A', 'C', 'G', 'T', 'A', 'C', 'G'] 'C' [0, 0, 1, 0, 4, 5, 6, 4, 6, 10, 14, 12, 10, 14, 18, 16, 14] = [0, 0, 2, 0, 2, 3, 4, 8, 6, 8, 12, 16, 14, 12, 16, 20, 18] := by decide
  have hw11 : dpNextRow ['T', 'C', 'G', 'T', 'T', 'A', 'C', 'G', 'T', 'A', 'C', 'G', 'T', 'A', 'C', 'G'] 'G' [0, 0, 2, 0, 2, 3, 4, 8, 6, 8, 12, 16, 14, 12, 16, 20, 18] = [0, 0, 0, 4, 2, 1, 2, 6, 10, 8, 10, 14, 18, 16, 14, 18, 22] := by decide
  have hT : dpTable ['A', 'C', 'G', 'T', 'A', 'C', 'G', 'T', 'A', 'C', 'G'] ['T', 'C', 'G', 'T', 'T', 'A', 'C', 'G', 'T', 'A', 'C', 'G', 'T', 'A', 'C', 'G']
      = [[0, 0, 0, 0, 0, 0, 0, 0, 0, 0, 0, 0, 0, 0, 0, 0, 0],
       [0, 0, 0, 0, 0, 0, 2, 0, 0, 0, 2, 0, 0, 0, 2, 0, 0],
       [0, 0, 2, 0, 0, 0, 0, 4, 2, 0, 0, 4, 2, 0, 0, 4, 2],
       [0, 0, 0, 4, 2, 0, 0, 2, 6, 4, 2, 2, 6, 4, 2, 2, 6],
       [0, 2, 0, 2, 6, 4, 2, 0, 4, 8, 6, 4, 4, 8, 6, 4, 4],
       [0, 0, 1, 0, 4, 5, 6, 4, 2, 6, 10, 8, 6, 6, 10, 8, 6],
       [0, 0, 2, 0, 2, 3, 4, 8, 6, 4, 8, 12, 10, 8, 8, 12, 10],
       [0, 0, 0, 4, 2, 1, 2, 6, 10, 8, 6, 10, 14, 12, 10, 10, 14],
       [0, 2, 0, 2, 6, 4, 2, 4, 8, 12, 10, 8, 12, 16, 14, 12, 12],
       [0, 0, 1, 0, 4, 5, 6, 4, 6, 10, 14, 12, 10, 14, 18, 16, 14],
       [0, 0, 2, 0, 2, 3, 4, 8, 6, 8, 12, 16, 14, 12, 16, 20, 18],
       [0, 0, 0, 4, 2, 1, 2, 6, 10, 8, 10, 14, 18, 16, 14, 18, 22]] := by
    simp only [dpTable, dpRows, hlen, hw0, hw1, hw2, hw3, hw4, hw5, hw6, hw7, hw8, hw9, hw10, hw11]
  have hr0 : bestInRow 0 0 ((0, 0), 0) [0, 0, 0, 0, 0, 0, 0, 0, 0, 0, 0, 0, 0, 0, 0, 0, 0] = ((0, 0), 0) := by decide
  have hr1 : bestInRow 1 0 ((0, 0), 0) [0, 0, 0, 0, 0, 0, 2, 0, 0, 0, 2, 0, 0, 0, 2, 0, 0] = ((1, 6), 2) := by decide
  have hr2 : bestInRow 2 0 ((1, 6), 2) [0, 0, 2, 0, 0, 0, 0, 4, 2, 0, 0, 4, 2, 0, 0, 4, 2] = ((2, 7), 4) := by decide
  have hr3 : bestInRow 3 0 ((2, 7), 4) [0, 0, 0, 4, 2, 0, 0, 2, 6, 4, 2, 2, 6, 4, 2, 2, 6] = ((3, 8), 6) := by decide
  have hr4 : bestInRow 4 0 ((3, 8), 6) [0, 2, 0, 2, 6, 4, 2, 0, 4, 8, 6, 4, 4, 8, 6, 4, 4] = ((4, 9), 8) := by decide
  have hr5 : bestInRow 5 0 ((4, 9), 8) [0, 0, 1, 0, 4, 5, 6, 4, 2, 6, 10, 8, 6, 6, 10, 8, 6] = ((5, 10), 10) := by decide
  have hr6 : bestInRow 6 0 ((5, 10), 10) [0, 0, 2, 0, 2, 3, 4, 8, 6, 4, 8, 12, 10, 8, 8, 12, 10] = ((6, 11), 12) := by decide
  have hr7 : bestInRow 7 0 ((6, 11), 12) [0, 0, 0, 4, 2, 1, 2, 6, 10, 8, 6, 10, 14, 12, 10, 10, 14] = ((7, 12), 14) := by decide
  have hr8 : bestInRow 8 0 ((7, 12), 14) [0, 2, 0, 2, 6, 4, 2, 4, 8, 12, 10, 8, 12, 16, 14, 12, 12] = ((8, 13), 16) := by decide
  have hr9 : bestInRow 9 0 ((8, 13), 16) [0, 0, 1, 0, 4, 5, 6, 4, 6, 10, 14, 12, 10, 14, 18, 16, 14] = ((9, 14), 18) := by decide
  have hr10 : bestInRow 10 0 ((9, 14), 18) [0, 0, 2, 0, 2, 3, 4, 8, 6, 8, 12, 16, 14, 12, 16, 20, 18] = ((10, 15), 20) := by decide
  have hr11 : bestInRow 11 0 ((10, 15), 20) [0, 0, 0, 4, 2, 1, 2, 6, 10, 8, 10, 14, 18, 16, 14, 18, 22] = ((11, 16), 22) := by decide
  have hbc : bestCell [[0, 0, 0, 0, 0, 0, 0, 0, 0, 0, 0, 0, 0, 0, 0, 0, 0],
       [0, 0, 0, 0, 0, 0, 2, 0, 0, 0, 2, 0, 0, 0, 2, 0, 0],
       [0, 0, 2, 0, 0, 0, 0, 4, 2, 0, 0, 4, 2, 0, 0, 4, 2],
       [0, 0, 0, 4, 2, 0, 0, 2, 6, 4, 2, 2, 6, 4, 2, 2, 6],
       [0, 2, 0, 2, 6, 4, 2, 0, 4, 8, 6, 4, 4, 8, 6, 4, 4],
       [0, 0, 1, 0, 4, 5, 6, 4, 2, 6, 10, 8, 6, 6, 10, 8, 6],
       [0, 0, 2, 0, 2, 3, 4, 8, 6, 4, 8, 12, 10, 8, 8, 12, 10],
       [0, 0, 0, 4, 2, 1, 2, 6, 10, 8, 6, 10, 14, 12, 10, 10, 14],
       [0, 2, 0, 2, 6, 4, 2, 4, 8, 12, 10, 8, 12, 16, 14, 12, 12],
       [0, 0, 1, 0, 4, 5, 6, 4, 6, 10, 14, 12, 10, 14, 18, 16, 14],
       [0, 0, 2, 0, 2, 3, 4, 8, 6, 8, 12, 16, 14, 12, 16, 20, 18],
       [0, 0, 0, 4, 2, 1, 2, 6, 10, 8, 10, 14, 18, 16, 14, 18, 22]] = (11, 16) := by
    simp only [bestCell, bestCellAux, Nat.reduceAdd, hr0, hr1, hr2, hr3, hr4, hr5, hr6, hr7, hr8, hr9, hr10, hr11]
  have htr : alignTrace ['A', 'C', 'G', 'T', 'A', 'C', 'G', 'T', 'A', 'C', 'G'] ['T', 'C', 'G', 'T', 'T', 'A', 'C', 'G', 'T', 'A', 'C', 'G', 'T', 'A', 'C', 'G']
      = [AlignCol.aligned 0 5, AlignCol.aligned 1 6, AlignCol.aligned 2 7, AlignCol.aligned 3 8, AlignCol.aligned 4 9, AlignCol.aligned 5 10, AlignCol.aligned 6 11, AlignCol.aligned 7 12, AlignCol.aligned 8 13, AlignCol.aligned 9 14, AlignCol.aligned 10 15] := by
    simp only [alignTrace]
    rw [hT, hbc]
    show tracebackFuel [[0, 0, 0, 0, 0, 0, 0, 0, 0, 0, 0, 0, 0, 0, 0, 0, 0],
       [0, 0, 0, 0, 0, 0, 2, 0, 0, 0, 2, 0, 0, 0, 2, 0, 0],
       [0, 0, 2, 0, 0, 0, 0, 4, 2, 0, 0, 4, 2, 0, 0, 4, 2],
       [0, 0, 0, 4, 2, 0, 0, 2, 6, 4, 2, 2, 6, 4, 2, 2, 6],
       [0, 2, 0, 2, 6, 4, 2, 0, 4, 8, 6, 4, 4, 8, 6, 4, 4],
       [0, 0, 1, 0, 4, 5, 6, 4, 2, 6, 10, 8, 6, 6, 10, 8, 6],
       [0, 0, 2, 0, 2, 3, 4, 8, 6, 4, 8, 12, 10, 8, 8, 12, 10],
       [0, 0, 0, 4, 2, 1, 2, 6, 10, 8, 6, 10, 14, 12, 10, 10, 14],
       [0, 2, 0, 2, 6, 4, 2, 4, 8, 12, 10, 8, 12, 16, 14, 12, 12],
       [0, 0, 1, 0, 4, 5, 6, 4, 6, 10, 14, 12, 10, 14, 18, 16, 14],
       [0, 0, 2, 0, 2, 3, 4, 8, 6, 8, 12, 16, 14, 12, 16, 20, 18],
       [0, 0, 0, 4, 2, 1, 2, 6, 10, 8, 10, 14, 18, 16, 14, 18, 22]] 27
        ['G', 'C', 'A', 'T', 'G', 'C', 'A', 'T', 'G', 'C', 'A']
        ['G', 'C', 'A', 'T', 'G', 'C', 'A', 'T', 'G', 'C', 'A', 'T', 'T', 'G', 'C', 'T']
      = [AlignCol.aligned 0 5, AlignCol.aligned 1 6, AlignCol.aligned 2 7, AlignCol.aligned 3 8, AlignCol.aligned 4 9, AlignCol.aligned 5 10, AlignCol.aligned 6 11, AlignCol.aligned 7 12, AlignCol.aligned 8 13, AlignCol.aligned 9 14, AlignCol.aligned 10 15]
    decide
  rw [map_simplex_to_duplex, htr, if_neg (by decide)]
  decide

set_option maxRecDepth 6000 in
/-- The modelled aligner computes, on the input pair of conformance fixture
case 3 (`src/tests/test_duplex.py` lines 115-141), exactly the output the test asserts. -/
lemma model_eval_case3 :
    map_simplex_to_duplex "GGGTACGTACG".toList "TCGTTACGTACGTACG".toList
      = .ok ⟨"GTACGTACG".toList, 7, [2, 3, 4, 5, 6, 7, 8, 9, 10, 11]⟩ := by
  have hsl : "GGGTACGTACG".toList = ['G', 'G', 'G', 'T', 'A', 'C', 'G', 'T', 'A', 'C', 'G'] := by decide
  have hdl : "TCGTTACGTACGTACG".toList = ['T', 'C', 'G', 'T', 'T', 'A', 'C', 'G', 'T', 'A', 'C', 'G', 'T', 'A', 'C', 'G'] := by decide
  rw [hsl, hdl]
  have hlen : List.length ['T', 'C', 'G', 'T', 'T', 'A', 'C', 'G', 'T', 'A', 'C', 'G', 'T', 'A', 'C', 'G'] = 16 := by decide
  have hw0 : dpRow0 16 = [0, 0, 0, 0, 0, 0, 0, 0, 0, 0, 0, 0, 0, 0, 0, 0, 0] := by decide
  have hw1 : dpNextRow ['T', 'C', 'G', 'T', 'T', 'A', 'C', 'G', 'T', 'A', 'C', 'G', 'T', 'A', 'C', 'G'] 'G' [0, 0, 0, 0, 0, 0, 0, 0, 0, 0, 0, 0, 0, 0, 0, 0, 0] = [0, 0, 0, 2, 0, 0, 0, 0, 2, 0, 0, 0, 2, 0, 0, 0, 2] := by decide
  have hw2 : dpNextRow ['T', 'C', 'G', 'T', 'T', 'A', 'C', 'G', 'T', 'A', 'C', 'G', 'T', 'A', 'C', 'G'] 'G' [0, 0, 0, 2, 0, 0, 0, 0, 2, 0, 0, 0, 2, 0, 0, 0, 2] = [0, 0, 0, 2, 1, 0, 0, 0, 2, 1, 0, 0, 2, 1, 0, 0, 2] := by decide
  have hw3 : dpNextRow ['T', 'C', 'G', 'T', 'T', 'A', 'C', 'G', 'T', 'A', 'C', 'G', 'T', 'A', 'C', 'G'] 'G' [0, 0, 0, 2, 1, 0, 0, 0, 2, 1, 0, 0, 2, 1, 0, 0, 2] = [0, 0, 0, 2, 1, 0, 0, 0, 2, 1, 0, 0, 2, 1, 0, 0, 2] := by decide
  have hw4 : dpNextRow ['T', 'C', 'G', 'T', 'T', 'A', 'C', 'G', 'T', 'A', 'C', 'G', 'T', 'A', 'C', 'G'] 'T' [0, 0, 0, 2, 1, 0, 0, 0, 2, 1, 0, 0, 2, 1, 0, 0, 2] = [0, 2, 0, 0, 4, 3, 1, 0, 0, 4, 2, 0, 0, 4, 2, 0, 0] := by decide
  have hw5 : dpNextRow ['T', 'C', 'G', 'T', 'T', 'A', 'C', 'G', 'T', 'A', 'C', 'G', 'T', 'A', 'C', 'G'] 'A' [0, 2, 0, 0, 4, 3, 1, 0, 0, 4, 2, 0, 0, 4, 2, 0, 0] = [0, 0, 1, 0, 2, 3, 5, 3, 1, 2, 6, 4, 2, 2, 6, 4, 2] := by decide
  have hw6 : dpNextRow ['T', 'C', 'G', 'T', 'T', 'A', 'C', 'G', 'T', 'A', 'C', 'G', 'T', 'A', 'C', 'G'] 'C' [0, 0, 1, 0, 2, 3, 5, 3, 1, 2, 6, 4, 2, 2, 6, 4, 2] = [0, 0, 2, 0, 0, 1, 3, 7, 5, 3, 4, 8, 6, 4, 4, 8, 6] := by decide
  have hw7 : dpNextRow ['T', 'C', 'G', 'T', 'T', 'A', 'C', 'G', 'T', 'A', 'C', 'G', 'T', 'A', 'C', 'G'] 'G' [0, 0, 2, 0, 0, 1, 3, 7, 5, 3, 4, 8, 6, 4, 4, 8, 6] = [0, 0, 0, 4, 2, 0, 1, 5, 9, 7, 5, 6, 10, 8, 6, 6, 10] := by decide
  have hw8 : dpNextRow ['T', 'C', 'G', 'T', 'T', 'A', 'C', 'G', 'T', 'A', 'C', 'G', 'T', 'A', 'C', 'G'] 'T' [0, 0, 0, 4, 2, 0, 1, 5, 9, 7, 5, 6, 10, 8, 6, 6, 10] = [0, 2, 0, 2, 6, 4, 2, 3, 7, 11, 9, 7, 8, 12, 10, 8, 8] := by decide
  have hw9 : dpNextRow ['T', 'C', 'G', 'T', 'T', 'A', 'C', 'G', 'T', 'A', 'C', 'G', 'T', 'A', 'C', 'G'] 'A' [0, 2, 0, 2, 6, 4, 2, 3, 7, 11, 9, 7, 8, 12, 10, 8, 8] = [0, 0, 1, 0, 4, 5, 6, 4, 5, 9, 13, 11, 9, 10, 14, 12, 10] := by decide
  have hw10 : dpNextRow ['T', 'C', 'G', 'T', 'T', 'A', 'C', 'G', 'T', 'A', 'C', 'G', 'T', 'A', 'C', 'G'] 'C' [0, 0, 1, 0, 4, 5, 6, 4, 5, 9, 13, 11, 9, 10, 14, 12, 10] = [0, 0, 2, 0, 2, 3, 4, 8, 6, 7, 11, 15, 13, 11, 12, 16, 14] := by decide
  have hw11 : dpNextRow ['T', 'C', 'G', 'T', 'T', 'A', 'C', 'G', 'T', 'A', 'C', 'G', 'T', 'A', 'C', 'G'] 'G' [0, 0, 2, 0, 2, 3, 4, 8, 6, 7, 11, 15, 13, 11, 12, 16, 14] = [0, 0, 0, 4, 2, 1, 2, 6, 10, 8, 9, 13, 17, 15, 13, 14, 18] := by decide
  have hT : dpTable ['G', 'G', 'G', 'T', 'A', 'C', 'G', 'T', 'A', 'C', 'G'] ['T', 'C', 'G', 'T', 'T', 'A', 'C', 'G', 'T', 'A', 'C', 'G', 'T', 'A', 'C', 'G']
      = [[0, 0, 0, 0, 0, 0, 0, 0, 0, 0, 0, 0, 0, 0, 0, 0, 0],
       [0, 0, 0, 2, 0, 0, 0, 0, 2, 0, 0, 0, 2, 0, 0, 0, 2],
       [0, 0, 0, 2, 1, 0, 0, 0, 2, 1, 0, 0, 2, 1, 0, 0, 2],
       [0, 0, 0, 2, 1, 0, 0, 0, 2, 1, 0, 0, 2, 1, 0, 0, 2],
       [0, 2, 0, 0, 4, 3, 1, 0, 0, 4, 2, 0, 0, 4, 2, 0, 0],
       [0, 0, 1, 0, 2, 3, 5, 3, 1, 2, 6, 4, 2, 2, 6, 4, 2],
       [0, 0, 2, 0, 0, 1, 3, 7, 5, 3, 4, 8, 6, 4, 4, 8, 6],
       [0, 0, 0, 4, 2, 0, 1, 5, 9, 7, 5, 6, 10, 8, 6, 6, 10],
       [0, 2, 0, 2, 6, 4, 2, 3, 7, 11, 9, 7, 8, 12, 10, 8, 8],
       [0, 0, 1, 0, 4, 5, 6, 4, 5, 9, 13, 11, 9, 10, 14, 12, 10],
       [0, 0, 2, 0, 2, 3, 4, 8, 6, 7, 11, 15, 13, 11, 12, 16, 14],
       [0, 0, 0, 4, 2, 1, 2, 6, 10, 8, 9, 13, 17, 15, 13, 14, 18]] := by
    simp only [dpTable, dpRows, hlen, hw0, hw1, hw2, hw3, hw4, hw5, hw6, hw7, hw8, hw9, hw10, hw11]
  have hr0 : bestInRow 0 0 ((0, 0), 0) [0, 0, 0, 0, 0, 0, 0, 0, 0, 0, 0, 0, 0, 0, 0, 0, 0] = ((0, 0), 0) := by decide
  have hr1 : bestInRow 1 0 ((0, 0), 0) [0, 0, 0, 2, 0, 0, 0, 0, 2, 0, 0, 0, 2, 0, 0, 0, 2] = ((1, 3), 2) := by decide
  have hr2 : bestInRow 2 0 ((1, 3), 2) [0, 0, 0, 2, 1, 0, 0, 0, 2, 1, 0, 0, 2, 1, 0, 0, 2] = ((1, 3), 2) := by decide
  have hr3 : bestInRow 3 0 ((1, 3), 2) [0, 0, 0, 2, 1, 0, 0, 0, 2, 1, 0, 0, 2, 1, 0, 0, 2] = ((1, 3), 2) := by decide
  have hr4 : bestInRow 4 0 ((1, 3), 2) [0, 2, 0, 0, 4, 3, 1, 0, 0, 4, 2, 0, 0, 4, 2, 0, 0] = ((4, 4), 4) := by decide
  have hr5 : bestInRow 5 0 ((4, 4), 4) [0, 0, 1, 0, 2, 3, 5, 3, 1, 2, 6, 4, 2, 2, 6, 4, 2] = ((5, 10), 6) := by decide
  have hr6 : bestInRow 6 0 ((5, 10), 6) [0, 0, 2, 0, 0, 1, 3, 7, 5, 3, 4, 8, 6, 4, 4, 8, 6] = ((6, 11), 8) := by decide
  have hr7 : bestInRow 7 0 ((6, 11), 8) [0, 0, 0, 4, 2, 0, 1, 5, 9, 7, 5, 6, 10, 8, 6, 6, 10] = ((7, 12), 10) := by decide
  have hr8 : bestInRow 8 0 ((7, 12), 10) [0, 2, 0, 2, 6, 4, 2, 3, 7, 11, 9, 7, 8, 12, 10, 8, 8] = ((8, 13), 12) := by decide
  have hr9 : bestInRow 9 0 ((8, 13), 12) [0, 0, 1, 0, 4, 5, 6, 4, 5, 9, 13, 11, 9, 10, 14, 12, 10] = ((9, 14), 14) := by decide
  have hr10 : bestInRow 10 0 ((9, 14), 14) [0, 0, 2, 0, 2, 3, 4, 8, 6, 7, 11, 15, 13, 11, 12, 16, 14] = ((10, 15), 16) := by decide
  have hr11 : bestInRow 11 0 ((10, 15), 16) [0, 0, 0, 4, 2, 1, 2, 6, 10, 8, 9, 13, 17, 15, 13, 14, 18] = ((11, 16), 18) := by decide
  have hbc : bestCell [[0, 0, 0, 0, 0, 0, 0, 0, 0, 0, 0, 0, 0, 0, 0, 0, 0],
       [0, 0, 0, 2, 0, 0, 0, 0, 2, 0, 0, 0, 2, 0, 0, 0, 2],
       [0, 0, 0, 2, 1, 0, 0, 0, 2, 1, 0, 0, 2, 1, 0, 0, 2],
       [0, 0, 0, 2, 1, 0, 0, 0, 2, 1, 0, 0, 2, 1, 0, 0, 2],
       [0, 2, 0, 0, 4, 3, 1, 0, 0, 4, 2, 0, 0, 4, 2, 0, 0],
       [0, 0, 1, 0, 2, 3, 5, 3, 1, 2, 6, 4, 2, 2, 6, 4, 2],
       [0, 0, 2, 0, 0, 1, 3, 7, 5, 3, 4, 8, 6, 4, 4, 8, 6],
       [0, 0, 0, 4, 2, 0, 1, 5, 9, 7, 5, 6, 10, 8, 6, 6, 10],
       [0, 2, 0, 2, 6, 4, 2, 3, 7, 11, 9, 7, 8, 12, 10, 8, 8],
       [0, 0, 1, 0, 4, 5, 6, 4, 5, 9, 13, 11, 9, 10, 14, 12, 10],
       [0, 0, 2, 0, 2, 3, 4, 8, 6, 7, 11, 15, 13, 11, 12, 16, 14],
       [0, 0, 0, 4, 2, 1, 2, 6, 10, 8, 9, 13, 17, 15, 13, 14, 18]] = (11, 16) := by
    simp only [bestCell, bestCellAux, Nat.reduceAdd, hr0, hr1, hr2, hr3, hr4, hr5, hr6, hr7, hr8, hr9, hr10, hr11]
  have htr : alignTrace ['G', 'G', 'G', 'T', 'A', 'C', 'G', 'T', 'A', 'C', 'G'] ['T', 'C', 'G', 'T', 'T', 'A', 'C', 'G', 'T', 'A', 'C', 'G', 'T', 'A', 'C', 'G']
      = [AlignCol.aligned 2 7, AlignCol.aligned 3 8, AlignCol.aligned 4 9, AlignCol.aligned 5 10, AlignCol.aligned 6 11, AlignCol.aligned 7 12, AlignCol.aligned 8 13, AlignCol.aligned 9 14, AlignCol.aligned 10 15] := by
    simp only [alignTrace]
    rw [hT, hbc]
    show tracebackFuel [[0, 0, 0, 0, 0, 0, 0, 0, 0, 0, 0, 0, 0, 0, 0, 0, 0],
       [0, 0, 0, 2, 0, 0, 0, 0, 2, 0, 0, 0, 2, 0, 0, 0, 2],
       [0, 0, 0, 2, 1, 0, 0, 0, 2, 1, 0, 0, 2, 1, 0, 0, 2],
       [0, 0, 0, 2, 1, 0, 0, 0, 2, 1, 0, 0, 2, 1, 0, 0, 2],
       [0, 2, 0, 0, 4, 3, 1, 0, 0, 4, 2, 0, 0, 4, 2, 0, 0],
       [0, 0, 1, 0, 2, 3, 5, 3, 1, 2, 6, 4, 2, 2, 6, 4, 2],
       [0, 0, 2, 0, 0, 1, 3, 7, 5, 3, 4, 8, 6, 4, 4, 8, 6],
       [0, 0, 0, 4, 2, 0, 1, 5, 9, 7, 5, 6, 10, 8, 6, 6, 10],
       [0, 2, 0, 2, 6, 4, 2, 3, 7, 11, 9, 7, 8, 12, 10, 8, 8],
       [0, 0, 1, 0, 4, 5, 6, 4, 5, 9, 13, 11, 9, 10, 14, 12, 10],
       [0, 0, 2, 0, 2, 3, 4, 8, 6, 7, 11, 15, 13, 11, 12, 16, 14],
       [0, 0, 0, 4, 2, 1, 2, 6, 10, 8, 9, 13, 17, 15, 13, 14, 18]] 27
        ['G', 'C', 'A', 'T', 'G', 'C', 'A', 'T', 'G', 'G', 'G']
        ['G', 'C', 'A', 'T', 'G', 'C', 'A', 'T', 'G', 'C', 'A', 'T', 'T', 'G', 'C', 'T']
      = [AlignCol.aligned 2 7, AlignCol.aligned 3 8, AlignCol.aligned 4 9, AlignCol.aligned 5 10, AlignCol.aligned 6 11, AlignCol.aligned 7 12, AlignCol.aligned 8 13, AlignCol.aligned 9 14, AlignCol.aligned 10 15]
    decide
  rw [map_simplex_to_duplex, htr, if_neg (by decide)]
  decide

set_option maxRecDepth 6000 in
/-- The modelled aligner computes, on the input pair of conformance fixture
case 4 (`src/tests/test_duplex.py` lines 146-170), exactly the output the test asserts. -/
lemma model_eval_case4 :
    map_simplex_to_duplex "ACGTACGTACG".toList "ACGTACGTACGTTTCGT".toList
      = .ok ⟨"ACGTACGTACG".toList, 0, [0, 1, 2, 3, 4, 5, 6, 7, 8, 9, 10, 11]⟩ := by
  have hsl : "ACGTACGTACG".toList = ['A', 'C', 'G', 'T', 'A', 'C', 'G', 'T', 'A', 'C', 'G'] := by decide
  have hdl : "ACGTACGTACGTTTCGT".toList = ['A', 'C', 'G', 'T', 'A', 'C', 'G', 'T', 'A', 'C', 'G', 'T', 'T', 'T', 'C', 'G', 'T'] := by decide
  rw [hsl, hdl]
  have hlen : List.length ['A', 'C', 'G', 'T', 'A', 'C', 'G', 'T', 'A', 'C', 'G', 'T', 'T', 'T', 'C', 'G', 'T'] = 17 := by decide
  have hw0 : dpRow0 17 = [0, 0, 0, 0, 0, 0, 0, 0, 0, 0, 0, 0, 0, 0, 0, 0, 0, 0] := by decide
  have hw1 : dpNextRow ['A', 'C', 'G', 'T', 'A', 'C', 'G', 'T', 'A', 'C', 'G', 'T', 'T', 'T', 'C', 'G', 'T'] 'A' [0, 0, 0, 0, 0, 0, 0, 0, 0, 0, 0, 0, 0, 0, 0, 0, 0, 0] = [0, 2, 0, 0, 0, 2, 0, 0, 0, 2, 0, 0, 0, 0, 0, 0, 0, 0] := by decide
  have hw2 : dpNextRow ['A', 'C', 'G', 'T', 'A', 'C', 'G', 'T', 'A', 'C', 'G', 'T', 'T', 'T', 'C', 'G', 'T'] 'C' [0, 2, 0, 0, 0, 2, 0, 0, 0, 2, 0, 0, 0, 0, 0, 0, 0, 0] = [0, 0, 4, 2, 0, 0, 4, 2, 0, 0, 4, 2, 0, 0, 0, 2, 0, 0] := by decide
  have hw3 : dpNextRow ['A', 'C', 'G', 'T', 'A', 'C', 'G', 'T', 'A', 'C', 'G', 'T', 'T', 'T', 'C', 'G', 'T'] 'G' [0, 0, 4, 2, 0, 0, 4, 2, 0, 0, 4, 2, 0, 0, 0, 2, 0, 0] = [0, 0, 2, 6, 4, 2, 2, 6, 4, 2, 2, 6, 4, 2, 0, 0, 4, 2] := by decide
  have hw4 : dpNextRow ['A', 'C', 'G', 'T', 'A', 'C', 'G', 'T', 'A', 'C', 'G', 'T', 'T', 'T', 'C', 'G', 'T'] 'T' [0, 0, 2, 6, 4, 2, 2, 6, 4, 2, 2, 6, 4, 2, 0, 0, 4, 2] = [0, 0, 0, 4, 8, 6, 4, 4, 8, 6, 4, 4, 8, 6, 4, 2, 2, 6] := by decide
  have hw5 : dpNextRow ['A', 'C', 'G', 'T', 'A', 'C', 'G', 'T', 'A', 'C', 'G', 'T', 'T', 'T', 'C', 'G', 'T'] 'A' [0, 0, 0, 4, 8, 6, 4, 4, 8, 6, 4, 4, 8, 6, 4, 2, 2, 6] = [0, 2, 0, 2, 6, 10, 8, 6, 6, 10, 8, 6, 6, 7, 5, 3, 1, 4] := by decide
  have hw6 : dpNextRow ['A', 'C', 'G', 'T', 'A', 'C', 'G', 'T', 'A', 'C', 'G', 'T', 'T', 'T', 'C', 'G', 'T'] 'C' [0, 2, 0, 2, 6, 10, 8, 6, 6, 10, 8, 6, 6, 7, 5, 3, 1, 4] = [0, 0, 4, 2, 4, 8, 12, 10, 8, 8, 12, 10, 8, 6, 6, 7, 5, 3] := by decide
  have hw7 : dpNextRow ['A', 'C', 'G', 'T', 'A', 'C', 'G', 'T', 'A', 'C', 'G', 'T', 'T', 'T', 'C', 'G', 'T'] 'G' [0, 0, 4, 2, 4, 8, 12, 10, 8, 8, 12, 10, 8, 6, 6, 7, 5, 3] = [0, 0, 2, 6, 4, 6, 10, 14, 12, 10, 10, 14, 12, 10, 8, 6, 9, 7] := by decide
  have hw8 : dpNextRow ['A', 'C', 'G', 'T', 'A', 'C', 'G', 'T', 'A', 'C', 'G', 'T', 'T', 'T', 'C', 'G', 'T'] 'T' [0, 0, 2, 6, 4, 6, 10, 14, 12, 10, 10, 14, 12, 10, 8, 6, 9, 7] = [0, 0, 0, 4, 8, 6, 8, 12, 16, 14, 12, 12, 16, 14, 12, 10, 8, 11] := by decide
  have hw9 : dpNextRow ['A', 'C', 'G', 'T', 'A', 'C', 'G', 'T', 'A', 'C', 'G', 'T', 'T', 'T', 'C', 'G', 'T'] 'A' [0, 0, 0, 4, 8, 6, 8, 12, 16, 14, 12, 12, 16, 14, 12, 10, 8, 11] = [0, 2, 0, 2, 6, 10, 8, 10, 14, 18, 16, 14, 14, 15, 13, 11, 9, 9] := by decide
  have hw10 : dpNextRow ['A', 'C', 'G', 'T', 'A', 'C', 'G', 'T', 'A', 'C', 'G', 'T', 'T', 'T', 'C', 'G', 'T'] 'C' [0, 2, 0, 2, 6, 10, 8, 10, 14, 18, 16, 14, 14, 15, 13, 11, 9, 9] = [0, 0, 4, 2, 4, 8, 12, 10, 12, 16, 20, 18, 16, 14, 14, 15, 13, 11] := by decide
  have hw11 : dpNextRow ['A', 'C', 'G', 'T', 'A', 'C', 'G', 'T', 'A', 'C', 'G', 'T', 'T', 'T', 'C', 'G', 'T'] 'G' [0, 0, 4, 2, 4, 8, 12, 10, 12, 16, 20, 18, 16, 14, 14, 15, 13, 11] = [0, 0, 2, 6, 4, 6, 10, 14, 12, 14, 18, 22, 20, 18, 16, 14, 17, 15] := by decide
  have hT : dpTable ['A', 'C', 'G', 'T', 'A', 'C', 'G', 'T', 'A', 'C', 'G'] ['A', 'C', 'G', 'T', 'A', 'C', 'G', 'T', 'A', 'C', 'G', 'T', 'T', 'T', 'C', 'G', 'T']
      = [[0, 0, 0, 0, 0, 0, 0, 0, 0, 0, 0, 0, 0, 0, 0, 0, 0, 0],
       [0, 2, 0, 0, 0, 2, 0, 0, 0, 2, 0, 0, 0, 0, 0, 0, 0, 0],
       [0, 0, 4, 2, 0, 0, 4, 2, 0, 0, 4, 2, 0, 0, 0, 2, 0, 0],
       [0, 0, 2, 6, 4, 2, 2, 6, 4, 2, 2, 6, 4, 2, 0, 0, 4, 2],
       [0, 0, 0, 4, 8, 6, 4, 4, 8, 6, 4, 4, 8, 6, 4, 2, 2, 6],
       [0, 2, 0, 2, 6, 10, 8, 6, 6, 10, 8, 6, 6, 7, 5, 3, 1, 4],
       [0, 0, 4, 2, 4, 8, 12, 10, 8, 8, 12, 10, 8, 6, 6, 7, 5, 3],
       [0, 0, 2, 6, 4, 6, 10, 14, 12, 10, 10, 14, 12, 10, 8, 6, 9, 7],
       [0, 0, 0, 4, 8, 6, 8, 12, 16, 14, 12, 12, 16, 14, 12, 10, 8, 11],
       [0, 2, 0, 2, 6, 10, 8, 10, 14, 18, 16, 14, 14, 15, 13, 11, 9, 9],
       [0, 0, 4, 2, 4, 8, 12, 10, 12, 16, 20, 18, 16, 14, 14, 15, 13, 11],
       [0, 0, 2, 6, 4, 6, 10, 14, 12, 14, 18, 22, 20, 18, 16, 14, 17, 15]] := by
    simp only [dpTable, dpRows, hlen, hw0, hw1, hw2, hw3, hw4, hw5, hw6, hw7, hw8, hw9, hw10, hw11]
  have hr0 : bestInRow 0 0 ((0, 0), 0) [0, 0, 0, 0, 0, 0, 0, 0, 0, 0, 0, 0, 0, 0, 0, 0, 0, 0] = ((0, 0), 0) := by decide
  have hr1 : bestInRow 1 0 ((0, 0), 0) [0, 2, 0, 0, 0, 2, 0, 0, 0, 2, 0, 0, 0, 0, 0, 0, 0, 0] = ((1, 1), 2) := by decide
  have hr2 : bestInRow 2 0 ((1, 1), 2) [0, 0, 4, 2, 0, 0, 4, 2, 0, 0, 4, 2, 0, 0, 0, 2, 0, 0] = ((2, 2), 4) := by decide
  have hr3 : bestInRow 3 0 ((2, 2), 4) [0, 0, 2, 6, 4, 2, 2, 6, 4, 2, 2, 6, 4, 2, 0, 0, 4, 2] = ((3, 3), 6) := by decide
  have hr4 : bestInRow 4 0 ((3, 3), 6) [0, 0, 0, 4, 8, 6, 4, 4, 8, 6, 4, 4, 8, 6, 4, 2, 2, 6] = ((4, 4), 8) := by decide
  have hr5 : bestInRow 5 0 ((4, 4), 8) [0, 2, 0, 2, 6, 10, 8, 6, 6, 10, 8, 6, 6, 7, 5, 3, 1, 4] = ((5, 5), 10) := by decide
  have hr6 : bestInRow 6 0 ((5, 5), 10) [0, 0, 4, 2, 4, 8, 12, 10, 8, 8, 12, 10, 8, 6, 6, 7, 5, 3] = ((6, 6), 12) := by decide
  have hr7 : bestInRow 7 0 ((6, 6), 12) [0, 0, 2, 6, 4, 6, 10, 14, 12, 10, 10, 14, 12, 10, 8, 6, 9, 7] = ((7, 7), 14) := by decide
  have hr8 : bestInRow 8 0 ((7, 7), 14) [0, 0, 0, 4, 8, 6, 8, 12, 16, 14, 12, 12, 16, 14, 12, 10, 8, 11] = ((8, 8), 16) := by decide
  have hr9 : bestInRow 9 0 ((8, 8), 16) [0, 2, 0, 2, 6, 10, 8, 10, 14, 18, 16, 14, 14, 15, 13, 11, 9, 9] = ((9, 9), 18) := by decide
  have hr10 : bestInRow 10 0 ((9, 9), 18) [0, 0, 4, 2, 4, 8, 12, 10, 12, 16, 20, 18, 16, 14, 14, 15, 13, 11] = ((10, 10), 20) := by decide
  have hr11 : bestInRow 11 0 ((10, 10), 20) [0, 0, 2, 6, 4, 6, 10, 14, 12, 14, 18, 22, 20, 18, 16, 14, 17, 15] = ((11, 11), 22) := by decide
  have hbc : bestCell [[0, 0, 0, 0, 0, 0, 0, 0, 0, 0, 0, 0, 0, 0, 0, 0, 0, 0],
       [0, 2, 0, 0, 0, 2, 0, 0, 0, 2, 0, 0, 0, 0, 0, 0, 0, 0],
       [0, 0, 4, 2, 0, 0, 4, 2, 0, 0, 4, 2, 0, 0, 0, 2, 0, 0],
       [0, 0, 2, 6, 4, 2, 2, 6, 4, 2, 2, 6, 4, 2, 0, 0, 4, 2],
       [0, 0, 0, 4, 8, 6, 4, 4, 8, 6, 4, 4, 8, 6, 4, 2, 2, 6],
       [0, 2, 0, 2, 6, 10, 8, 6, 6, 10, 8, 6, 6, 7, 5, 3, 1, 4],
       [0, 0, 4, 2, 4, 8, 12, 10, 8, 8, 12, 10, 8, 6, 6, 7, 5, 3],
       [0, 0, 2, 6, 4, 6, 10, 14, 12, 10, 10, 14, 12, 10, 8, 6, 9, 7],
       [0, 0, 0, 4, 8, 6, 8, 12, 16, 14, 12, 12, 16, 14, 12, 10, 8, 11],
       [0, 2, 0, 2, 6, 10, 8, 10, 14, 18, 16, 14, 14, 15, 13, 11, 9, 9],
       [0, 0, 4, 2, 4, 8, 12, 10, 12, 16, 20, 18, 16, 14, 14, 15, 13, 11],
       [0, 0, 2, 6, 4, 6, 10, 14, 12, 14, 18, 22, 20, 18, 16, 14, 17, 15]] = (11, 11) := by
    simp only [bestCell, bestCellAux, Nat.reduceAdd, hr0, hr1, hr2, hr3, hr4, hr5, hr6, hr7, hr8, hr9, hr10, hr11]
  have htr : alignTrace ['A', 'C', 'G', 'T', 'A', 'C', 'G', 'T', 'A', 'C', 'G'] ['A', 'C', 'G', 'T', 'A', 'C', 'G', 'T', 'A', 'C', 'G', 'T', 'T', 'T', 'C', 'G', 'T']
      = [AlignCol.aligned 0 0, AlignCol.aligned 1 1, AlignCol.aligned 2 2, AlignCol.aligned 3 3, AlignCol.aligned 4 4, AlignCol.aligned 5 5, AlignCol.aligned 6 6, AlignCol.aligned 7 7, AlignCol.aligned 8 8, AlignCol.aligned 9 9, AlignCol.aligned 10 10] := by
    simp only [alignTrace]
    rw [hT, hbc]
    show tracebackFuel [[0, 0, 0, 0, 0, 0, 0, 0, 0, 0, 0, 0, 0, 0, 0, 0, 0, 0],
       [0, 2, 0, 0, 0, 2, 0, 0, 0, 2, 0, 0, 0, 0, 0, 0, 0, 0],
       [0, 0, 4, 2, 0, 0, 4, 2, 0, 0, 4, 2, 0, 0, 0, 2, 0, 0],
       [0, 0, 2, 6, 4, 2, 2, 6, 4, 2, 2, 6, 4, 2, 0, 0, 4, 2],
       [0, 0, 0, 4, 8, 6, 4, 4, 8, 6, 4, 4, 8, 6, 4, 2, 2, 6],
       [0, 2, 0, 2, 6, 10, 8, 6, 6, 10, 8, 6, 6, 7, 5, 3, 1, 4],
       [0, 0, 4, 2, 4, 8, 12, 10, 8, 8, 12, 10, 8, 6, 6, 7, 5, 3],
       [0, 0, 2, 6, 4, 6, 10, 14, 12, 10, 10, 14, 12, 10, 8, 6, 9, 7],
       [0, 0, 0, 4, 8, 6, 8, 12, 16, 14, 12, 12, 16, 14, 12, 10, 8, 11],
       [0, 2, 0, 2, 6, 10, 8, 10, 14, 18, 16, 14, 14, 15, 13, 11, 9, 9],
       [0, 0, 4, 2, 4, 8, 12, 10, 12, 16, 20, 18, 16, 14, 14, 15, 13, 11],
       [0, 0, 2, 6, 4, 6, 10, 14, 12, 14, 18, 22, 20, 18, 16, 14, 17, 15]] 22
        ['G', 'C', 'A', 'T', 'G', 'C', 'A', 'T', 'G', 'C', 'A']
        ['G', 'C', 'A', 'T', 'G', 'C', 'A', 'T', 'G', 'C', 'A']
      = [AlignCol.aligned 0 0, AlignCol.aligned 1 1, AlignCol.aligned 2 2, AlignCol.aligned 3 3, AlignCol.aligned 4 4, AlignCol.aligned 5 5, AlignCol.aligned 6 6, AlignCol.aligned 7 7, AlignCol.aligned 8 8, AlignCol.aligned 9 9, AlignCol.aligned 10 10]
    decide
  rw [map_simplex_to_duplex, htr, if_neg (by decide)]
  decide

set_option maxRecDepth 6000 in
/-- The modelled aligner computes, on the input pair of conformance fixture
case 5 (`src/tests/test_duplex.py` lines 172-196), exactly the output the test asserts. -/
lemma model_eval_case5 :
    map_simplex_to_duplex "ACGTACGTACGAA".toList "ACGTACGTACGTTTCGT".toList
      = .ok ⟨"ACGTACGTACG".toList, 0, [0, 1, 2, 3, 4, 5, 6, 7, 8, 9, 10, 11]⟩ := by
  have hsl : "ACGTACGTACGAA".toList = ['A', 'C', 'G', 'T', 'A', 'C', 'G', 'T', 'A', 'C', 'G', 'A', 'A'] := by decide
  have hdl : "ACGTACGTACGTTTCGT".toList = ['A', 'C', 'G', 'T', 'A', 'C', 'G', 'T', 'A', 'C', 'G', 'T', 'T', 'T', 'C', 'G', 'T'] := by decide
  rw [hsl, hdl]
  have hlen : List.length ['A', 'C', 'G', 'T', 'A', 'C', 'G', 'T', 'A', 'C', 'G', 'T', 'T', 'T', 'C', 'G', 'T'] = 17 := by decide
  have hw0 : dpRow0 17 = [0, 0, 0, 0, 0, 0, 0, 0, 0, 0, 0, 0, 0, 0, 0, 0, 0, 0] := by decide
  have hw1 : dpNextRow ['A', 'C', 'G', 'T', 'A', 'C', 'G', 'T', 'A', 'C', 'G', 'T', 'T', 'T', 'C', 'G', 'T'] 'A' [0, 0, 0, 0, 0, 0, 0, 0, 0, 0, 0, 0, 0, 0, 0, 0, 0, 0] = [0, 2, 0, 0, 0, 2, 0, 0, 0, 2, 0, 0, 0, 0, 0, 0, 0, 0] := by decide
  have hw2 : dpNextRow ['A', 'C', 'G', 'T', 'A', 'C', 'G', 'T', 'A', 'C', 'G', 'T', 'T', 'T', 'C', 'G', 'T'] 'C' [0, 2, 0, 0, 0, 2, 0, 0, 0, 2, 0, 0, 0, 0, 0, 0, 0, 0] = [0, 0, 4, 2, 0, 0, 4, 2, 0, 0, 4, 2, 0, 0, 0, 2, 0, 0] := by decide
  have hw3 : dpNextRow ['A', 'C', 'G', 'T', 'A', 'C', 'G', 'T', 'A', 'C', 'G', 'T', 'T', 'T', 'C', 'G', 'T'] 'G' [0, 0, 4, 2, 0, 0, 4, 2, 0, 0, 4, 2, 0, 0, 0, 2, 0, 0] = [0, 0, 2, 6, 4, 2, 2, 6, 4, 2, 2, 6, 4, 2, 0, 0, 4, 2] := by decide
  have hw4 : dpNextRow ['A', 'C', 'G', 'T', 'A', 'C', 'G', 'T', 'A', 'C', 'G', 'T', 'T', 'T', 'C', 'G', 'T'] 'T' [0, 0, 2, 6, 4, 2, 2, 6, 4, 2, 2, 6, 4, 2, 0, 0, 4, 2] = [0, 0, 0, 4, 8, 6, 4, 4, 8, 6, 4, 4, 8, 6, 4, 2, 2, 6] := by decide
  have hw5 : dpNextRow ['A', 'C', 'G', 'T', 'A', 'C', 'G', 'T', 'A', 'C', 'G', 'T', 'T', 'T', 'C', 'G', 'T'] 'A' [0, 0, 0, 4, 8, 6, 4, 4, 8, 6, 4, 4, 8, 6, 4, 2, 2, 6] = [0, 2, 0, 2, 6, 10, 8, 6, 6, 10, 8, 6, 6, 7, 5, 3, 1, 4] := by decide
  have hw6 : dpNextRow ['A', 'C', 'G', 'T', 'A', 'C', 'G', 'T', 'A', 'C', 'G', 'T', 'T', 'T', 'C', 'G', 'T'] 'C' [0, 2, 0, 2, 6, 10, 8, 6, 6, 10, 8, 6, 6, 7, 5, 3, 1, 4] = [0, 0, 4, 2, 4, 8, 12, 10, 8, 8, 12, 10, 8, 6, 6, 7, 5, 3] := by decide
  have hw7 : dpNextRow ['A', 'C', 'G', 'T', 'A', 'C', 'G', 'T', 'A', 'C', 'G', 'T', 'T', 'T', 'C', 'G', 'T'] 'G' [0, 0, 4, 2, 4, 8, 12, 10, 8, 8, 12, 10, 8, 6, 6, 7, 5, 3] = [0, 0, 2, 6, 4, 6, 10, 14, 12, 10, 10, 14, 12, 10, 8, 6, 9, 7] := by decide
  have hw8 : dpNextRow ['A', 'C', 'G', 'T', 'A', 'C', 'G', 'T', 'A', 'C', 'G', 'T', 'T', 'T', 'C', 'G', 'T'] 'T' [0, 0, 2, 6, 4, 6, 10, 14, 12, 10, 10, 14, 12, 10, 8, 6, 9, 7] = [0, 0, 0, 4, 8, 6, 8, 12, 16, 14, 12, 12, 16, 14, 12, 10, 8, 11] := by decide
  have hw9 : dpNextRow ['A', 'C', 'G', 'T', 'A', 'C', 'G', 'T', 'A', 'C', 'G', 'T', 'T', 'T', 'C', 'G', 'T'] 'A' [0, 0, 0, 4, 8, 6, 8, 12, 16, 14, 12, 12, 16, 14, 12, 10, 8, 11] = [0, 2, 0, 2, 6, 10, 8, 10, 14, 18, 16, 14, 14, 15, 13, 11, 9, 9] := by decide
  have hw10 : dpNextRow ['A', 'C', 'G', 'T', 'A', 'C', 'G', 'T', 'A', 'C', 'G', 'T', 'T', 'T', 'C', 'G', 'T'] 'C' [0, 2, 0, 2, 6, 10, 8, 10, 14, 18, 16, 14, 14, 15, 13, 11, 9, 9] = [0, 0, 4, 2, 4, 8, 12, 10, 12, 16, 20, 18, 16, 14, 14, 15, 13, 11] := by decide
  have hw11 : dpNextRow ['A', 'C', 'G', 'T', 'A', 'C', 'G', 'T', 'A', 'C', 'G', 'T', 'T', 'T', 'C', 'G', 'T'] 'G' [0, 0, 4, 2, 4, 8, 12, 10, 12, 16, 20, 18, 16, 14, 14, 15, 13, 11] = [0, 0, 2, 6, 4, 6, 10, 14, 12, 14, 18, 22, 20, 18, 16, 14, 17, 15] := by decide
  have hw12 : dpNextRow ['A', 'C', 'G', 'T', 'A', 'C', 'G', 'T', 'A', 'C', 'G', 'T', 'T', 'T', 'C', 'G', 'T'] 'A' [0, 0, 2, 6, 4, 6, 10, 14, 12, 14, 18, 22, 20, 18, 16, 14, 17, 15] = [0, 2, 0, 4, 5, 6, 8, 12, 13, 14, 16, 20, 21, 19, 17, 15, 15, 16] := by decide
  have hw13 : dpNextRow ['A', 'C', 'G', 'T', 'A', 'C', 'G', 'T', 'A', 'C', 'G', 'T', 'T', 'T', 'C', 'G', 'T'] 'A' [0, 2, 0, 4, 5, 6, 8, 12, 13, 14, 16, 20, 21, 19, 17, 15, 15, 16] = [0, 2, 1, 2, 3, 7, 6, 10, 11, 15, 14, 18, 19, 20, 18, 16, 14, 14] := by decide
  have hT : dpTable ['A', 'C', 'G', 'T', 'A', 'C', 'G', 'T', 'A', 'C', 'G', 'A', 'A'] ['A', 'C', 'G', 'T', 'A', 'C', 'G', 'T', 'A', 'C', 'G', 'T', 'T', 'T', 'C', 'G', 'T']
      = [[0, 0, 0, 0, 0, 0, 0, 0, 0, 0, 0, 0, 0, 0, 0, 0, 0, 0],
       [0, 2, 0, 0, 0, 2, 0, 0, 0, 2, 0, 0, 0, 0, 0, 0, 0, 0],
       [0, 0, 4, 2, 0, 0, 4, 2, 0, 0, 4, 2, 0, 0, 0, 2, 0, 0],
       [0, 0, 2, 6, 4, 2, 2, 6, 4, 2, 2, 6, 4, 2, 0, 0, 4, 2],
       [0, 0, 0, 4, 8, 6, 4, 4, 8, 6, 4, 4, 8, 6, 4, 2, 2, 6],
       [0, 2, 0, 2, 6, 10, 8, 6, 6, 10, 8, 6, 6, 7, 5, 3, 1, 4],
       [0, 0, 4, 2, 4, 8, 12, 10, 8, 8, 12, 10, 8, 6, 6, 7, 5, 3],
       [0, 0, 2, 6, 4, 6, 10, 14, 12, 10, 10, 14, 12, 10, 8, 6, 9, 7],
       [0, 0, 0, 4, 8, 6, 8, 12, 16, 14, 12, 12, 16, 14, 12, 10, 8, 11],
       [0, 2, 0, 2, 6, 10, 8, 10, 14, 18, 16, 14, 14, 15, 13, 11, 9, 9],
       [0, 0, 4, 2, 4, 8, 12, 10, 12, 16, 20, 18, 16, 14, 14, 15, 13, 11],
       [0, 0, 2, 6, 4, 6, 10, 14, 12, 14, 18, 22, 20, 18, 16, 14, 17, 15],
       [0, 2, 0, 4, 5, 6, 8, 12, 13, 14, 16, 20, 21, 19, 17, 15, 15, 16],
       [0, 2, 1, 2, 3, 7, 6, 10, 11, 15, 14, 18, 19, 20, 18, 16, 14, 14]] := by
    simp only [dpTable, dpRows, hlen, hw0, hw1, hw2, hw3, hw4, hw5, hw6, hw7, hw8, hw9, hw10, hw11, hw12, hw13]
  have hr0 : bestInRow 0 0 ((0, 0), 0) [0, 0, 0, 0, 0, 0, 0, 0, 0, 0, 0, 0, 0, 0, 0, 0, 0, 0] = ((0, 0), 0) := by decide
  have hr1 : bestInRow 1 0 ((0, 0), 0) [0, 2, 0, 0, 0, 2, 0, 0, 0, 2, 0, 0, 0, 0, 0, 0, 0, 0] = ((1, 1), 2) := by decide
  have hr2 : bestInRow 2 0 ((1, 1), 2) [0, 0, 4, 2, 0, 0, 4, 2, 0, 0, 4, 2, 0, 0, 0, 2, 0, 0] = ((2, 2), 4) := by decide
  have hr3 : bestInRow 3 0 ((2, 2), 4) [0, 0, 2, 6, 4, 2, 2, 6, 4, 2, 2, 6, 4, 2, 0, 0, 4, 2] = ((3, 3), 6) := by decide
  have hr4 : bestInRow 4 0 ((3, 3), 6) [0, 0, 0, 4, 8, 6, 4, 4, 8, 6, 4, 4, 8, 6, 4, 2, 2, 6] = ((4, 4), 8) := by decide
  have hr5 : bestInRow 5 0 ((4, 4), 8) [0, 2, 0, 2, 6, 10, 8, 6, 6, 10, 8, 6, 6, 7, 5, 3, 1, 4] = ((5, 5), 10) := by decide
  have hr6 : bestInRow 6 0 ((5, 5), 10) [0, 0, 4, 2, 4, 8, 12, 10, 8, 8, 12, 10, 8, 6, 6, 7, 5, 3] = ((6, 6), 12) := by decide
  have hr7 : bestInRow 7 0 ((6, 6), 12) [0, 0, 2, 6, 4, 6, 10, 14, 12, 10, 10, 14, 12, 10, 8, 6, 9, 7] = ((7, 7), 14) := by decide
  have hr8 : bestInRow 8 0 ((7, 7), 14) [0, 0, 0, 4, 8, 6, 8, 12, 16, 14, 12, 12, 16, 14, 12, 10, 8, 11] = ((8, 8), 16) := by decide
  have hr9 : bestInRow 9 0 ((8, 8), 16) [0, 2, 0, 2, 6, 10, 8, 10, 14, 18, 16, 14, 14, 15, 13, 11, 9, 9] = ((9, 9), 18) := by decide
  have hr10 : bestInRow 10 0 ((9, 9), 18) [0, 0, 4, 2, 4, 8, 12, 10, 12, 16, 20, 18, 16, 14, 14, 15, 13, 11] = ((10, 10), 20) := by decide
  have hr11 : bestInRow 11 0 ((10, 10), 20) [0, 0, 2, 6, 4, 6, 10, 14, 12, 14, 18, 22, 20, 18, 16, 14, 17, 15] = ((11, 11), 22) := by decide
  have hr12 : bestInRow 12 0 ((11, 11), 22) [0, 2, 0, 4, 5, 6, 8, 12, 13, 14, 16, 20, 21, 19, 17, 15, 15, 16] = ((11, 11), 22) := by decide
  have hr13 : bestInRow 13 0 ((11, 11), 22) [0, 2, 1, 2, 3, 7, 6, 10, 11, 15, 14, 18, 19, 20, 18, 16, 14, 14] = ((11, 11), 22) := by decide
  have hbc : bestCell [[0, 0, 0, 0, 0, 0, 0, 0, 0, 0, 0, 0, 0, 0, 0, 0, 0, 0],
       [0, 2, 0, 0, 0, 2, 0, 0, 0, 2, 0, 0, 0, 0, 0, 0, 0, 0],
       [0, 0, 4, 2, 0, 0, 4, 2, 0, 0, 4, 2, 0, 0, 0, 2, 0, 0],
       [0, 0, 2, 6, 4, 2, 2, 6, 4, 2, 2, 6, 4, 2, 0, 0, 4, 2],
       [0, 0, 0, 4, 8, 6, 4, 4, 8, 6, 4, 4, 8, 6, 4, 2, 2, 6],
       [0, 2, 0, 2, 6, 10, 8, 6, 6, 10, 8, 6, 6, 7, 5, 3, 1, 4],
       [0, 0, 4, 2, 4, 8, 12, 10, 8, 8, 12, 10, 8, 6, 6, 7, 5, 3],
       [0, 0, 2, 6, 4, 6, 10, 14, 12, 10, 10, 14, 12, 10, 8, 6, 9, 7],
       [0, 0, 0, 4, 8, 6, 8, 12, 16, 14, 12, 12, 16, 14, 12, 10, 8, 11],
       [0, 2, 0, 2, 6, 10, 8, 10, 14, 18, 16, 14, 14, 15, 13, 11, 9, 9],
       [0, 0, 4, 2, 4, 8, 12, 10, 12, 16, 20, 18, 16, 14, 14, 15, 13, 11],
       [0, 0, 2, 6, 4, 6, 10, 14, 12, 14, 18, 22, 20, 18, 16, 14, 17, 15],
       [0, 2, 0, 4, 5, 6, 8, 12, 13, 14, 16, 20, 21, 19, 17, 15, 15, 16],
       [0, 2, 1, 2, 3, 7, 6, 10, 11, 15, 14, 18, 19, 20, 18, 16, 14, 14]] = (11, 11) := by
    simp only [bestCell, bestCellAux, Nat.reduceAdd, hr0, hr1, hr2, hr3, hr4, hr5, hr6, hr7, hr8, hr9, hr10, hr11, hr12, hr13]
  have htr : alignTrace ['A', 'C', 'G', 'T', 'A', 'C', 'G', 'T', 'A', 'C', 'G', 'A', 'A'] ['A', 'C', 'G', 'T', 'A', 'C', 'G', 'T', 'A', 'C', 'G', 'T', 'T', 'T', 'C', 'G', 'T']
      = [AlignCol.aligned 0 0, AlignCol.aligned 1 1, AlignCol.aligned 2 2, AlignCol.aligned 3 3, AlignCol.aligned 4 4, AlignCol.aligned 5 5, AlignCol.aligned 6 6, AlignCol.aligned 7 7, AlignCol.aligned 8 8, AlignCol.aligned 9 9, AlignCol.aligned 10 10] := by
    simp only [alignTrace]
    rw [hT, hbc]
    show tracebackFuel [[0, 0, 0, 0, 0, 0, 0, 0, 0, 0, 0, 0, 0, 0, 0, 0, 0, 0],
       [0, 2, 0, 0, 0, 2, 0, 0, 0, 2, 0, 0, 0, 0, 0, 0, 0, 0],
       [0, 0, 4, 2, 0, 0, 4, 2, 0, 0, 4, 2, 0, 0, 0, 2, 0, 0],
       [0, 0, 2, 6, 4, 2, 2, 6, 4, 2, 2, 6, 4, 2, 0, 0, 4, 2],
       [0, 0, 0, 4, 8, 6, 4, 4, 8, 6, 4, 4, 8, 6, 4, 2, 2, 6],
       [0, 2, 0, 2, 6, 10, 8, 6, 6, 10, 8, 6, 6, 7, 5, 3, 1, 4],
       [0, 0, 4, 2, 4, 8, 12, 10, 8, 8, 12, 10, 8, 6, 6, 7, 5, 3],
       [0, 0, 2, 6, 4, 6, 10, 14, 12, 10, 10, 14, 12, 10, 8, 6, 9, 7],
       [0, 0, 0, 4, 8, 6, 8, 12, 16, 14, 12, 12, 16, 14, 12, 10, 8, 11],
       [0, 2, 0, 2, 6, 10, 8, 10, 14, 18, 16, 14, 14, 15, 13, 11, 9, 9],
       [0, 0, 4, 2, 4, 8, 12, 10, 12, 16, 20, 18, 16, 14, 14, 15, 13, 11],
       [0, 0, 2, 6, 4, 6, 10, 14, 12, 14, 18, 22, 20, 18, 16, 14, 17, 15],
       [0, 2, 0, 4, 5, 6, 8, 12, 13, 14, 16, 20, 21, 19, 17, 15, 15, 16],
       [0, 2, 1, 2, 3, 7, 6, 10, 11, 15, 14, 18, 19, 20, 18, 16, 14, 14]] 22
        ['G', 'C', 'A', 'T', 'G', 'C', 'A', 'T', 'G', 'C', 'A']
        ['G', 'C', 'A', 'T', 'G', 'C', 'A', 'T', 'G', 'C', 'A']
      = [AlignCol.aligned 0 0, AlignCol.aligned 1 1, AlignCol.aligned 2 2, AlignCol.aligned 3 3, AlignCol.aligned 4 4, AlignCol.aligned 5 5, AlignCol.aligned 6 6, AlignCol.aligned 7 7, AlignCol.aligned 8 8, AlignCol.aligned 9 9, AlignCol.aligned 10 10]
    decide
  rw [map_simplex_to_duplex, htr, if_neg (by decide)]
  decide

set_option maxRecDepth 6000 in
/-- The modelled aligner computes, on the input pair of conformance fixture
of the first ragged-ends case (`src/tests/test_duplex.py` lines 201-226), exactly the output the test asserts. -/
lemma model_eval_case6 :
    map_simplex_to_duplex "TTTTTACGTACGTACGTTTTTT".toList "ACGTACGTACG".toList
      = .ok ⟨"ACGTACGTACG".toList, 0, [5, 6, 7, 8, 9, 10, 11, 12, 13, 14, 15, 16]⟩ := by
  have hsl : "TTTTTACGTACGTACGTTTTTT".toList = ['T', 'T', 'T', 'T', 'T', 'A', 'C', 'G', 'T', 'A', 'C', 'G', 'T', 'A', 'C', 'G', 'T', 'T', 'T', 'T', 'T', 'T'] := by decide
  have hdl : "ACGTACGTACG".toList = ['A', 'C', 'G', 'T', 'A', 'C', 'G', 'T', 'A', 'C', 'G'] := by decide
  rw [hsl, hdl]
  have hlen : List.length ['A', 'C', 'G', 'T', 'A', 'C', 'G', 'T', 'A', 'C', 'G'] = 11 := by decide
  have hw0 : dpRow0 11 = [0, 0, 0, 0, 0, 0, 0, 0, 0, 0, 0, 0] := by decide
  have hw1 : dpNextRow ['A', 'C', 'G', 'T', 'A', 'C', 'G', 'T', 'A', 'C', 'G'] 'T' [0, 0, 0, 0, 0, 0, 0, 0, 0, 0, 0, 0] = [0, 0, 0, 0, 2, 0, 0, 0, 2, 0, 0, 0] := by decide
  have hw2 : dpNextRow ['A', 'C', 'G', 'T', 'A', 'C', 'G', 'T', 'A', 'C', 'G'] 'T' [0, 0, 0, 0, 2, 0, 0, 0, 2, 0, 0, 0] = [0, 0, 0, 0, 2, 1, 0, 0, 2, 1, 0, 0] := by decide
  have hw3 : dpNextRow ['A', 'C', 'G', 'T', 'A', 'C', 'G', 'T', 'A', 'C', 'G'] 'T' [0, 0, 0, 0, 2, 1, 0, 0, 2, 1, 0, 0] = [0, 0, 0, 0, 2, 1, 0, 0, 2, 1, 0, 0] := by decide
  have hw4 : dpNextRow ['A', 'C', 'G', 'T', 'A', 'C', 'G', 'T', 'A', 'C', 'G'] 'T' [0, 0, 0, 0, 2, 1, 0, 0, 2, 1, 0, 0] = [0, 0, 0, 0, 2, 1, 0, 0, 2, 1, 0, 0] := by decide
  have hw5 : dpNextRow ['A', 'C', 'G', 'T', 'A', 'C', 'G', 'T', 'A', 'C', 'G'] 'T' [0, 0, 0, 0, 2, 1, 0, 0, 2, 1, 0, 0] = [0, 0, 0, 0, 2, 1, 0, 0, 2, 1, 0, 0] := by decide
  have hw6 : dpNextRow ['A', 'C', 'G', 'T', 'A', 'C', 'G', 'T', 'A', 'C', 'G'] 'A' [0, 0, 0, 0, 2, 1, 0, 0, 2, 1, 0, 0] = [0, 2, 0, 0, 0, 4, 2, 0, 0, 4, 2, 0] := by decide
  have hw7 : dpNextRow ['A', 'C', 'G', 'T', 'A', 'C', 'G', 'T', 'A', 'C', 'G'] 'C' [0, 2, 0, 0, 0, 4, 2, 0, 0, 4, 2, 0] = [0, 0, 4, 2, 0, 2, 6, 4, 2, 2, 6, 4] := by decide
  have hw8 : dpNextRow ['A', 'C', 'G', 'T', 'A', 'C', 'G', 'T', 'A', 'C', 'G'] 'G' [0, 0, 4, 2, 0, 2, 6, 4, 2, 2, 6, 4] = [0, 0, 2, 6, 4, 2, 4, 8, 6, 4, 4, 8] := by decide
  have hw9 : dpNextRow ['A', 'C', 'G', 'T', 'A', 'C', 'G', 'T', 'A', 'C', 'G'] 'T' [0, 0, 2, 6, 4, 2, 4, 8, 6, 4, 4, 8] = [0, 0, 0, 4, 8, 6, 4, 6, 10, 8, 6, 6] := by decide
  have hw10 : dpNextRow ['A', 'C', 'G', 'T', 'A', 'C', 'G', 'T', 'A', 'C', 'G'] 'A' [0, 0, 0, 4, 8, 6, 4, 6, 10, 8, 6, 6] = [0, 2, 0, 2, 6, 10, 8, 6, 8, 12, 10, 8] := by decide
  have hw11 : dpNextRow ['A', 'C', 'G', 'T', 'A', 'C', 'G', 'T', 'A', 'C', 'G'] 'C' [0, 2, 0, 2, 6, 10, 8, 6, 8, 12, 10, 8] = [0, 0, 4, 2, 4, 8, 12, 10, 8, 10, 14, 12] := by decide
  have hw12 : dpNextRow ['A', 'C', 'G', 'T', 'A', 'C', 'G', 'T', 'A', 'C', 'G'] 'G' [0, 0, 4, 2, 4, 8, 12, 10, 8, 10, 14, 12] = [0, 0, 2, 6, 4, 6, 10, 14, 12, 10, 12, 16] := by decide
  have hw13 : dpNextRow ['A', 'C', 'G', 'T', 'A', 'C', 'G', 'T', 'A', 'C', 'G'] 'T' [0, 0, 2, 6, 4, 6, 10, 14, 12, 10, 12, 16] = [0, 0, 0, 4, 8, 6, 8, 12, 16, 14, 12, 14] := by decide
  have hw14 : dpNextRow ['A', 'C', 'G', 'T', 'A', 'C', 'G', 'T', 'A', 'C', 'G'] 'A' [0, 0, 0, 4, 8, 6, 8, 12, 16, 14, 12, 14] = [0, 2, 0, 2, 6, 10, 8, 10, 14, 18, 16, 14] := by decide
  have hw15 : dpNextRow ['A', 'C', 'G', 'T', 'A', 'C', 'G', 'T', 'A', 'C', 'G'] 'C' [0, 2, 0, 2, 6, 10, 8, 10, 14, 18, 16, 14] = [0, 0, 4, 2, 4, 8, 12, 10, 12, 16, 20, 18] := by decide
  have hw16 : dpNextRow ['A', 'C', 'G', 'T', 'A', 'C', 'G', 'T', 'A', 'C', 'G'] 'G' [0, 0, 4, 2, 4, 8, 12, 10, 12, 16, 20, 18] = [0, 0, 2, 6, 4, 6, 10, 14, 12, 14, 18, 22] := by decide
  have hw17 : dpNextRow ['A', 'C', 'G', 'T', 'A', 'C', 'G', 'T', 'A', 'C', 'G'] 'T' [0, 0, 2, 6, 4, 6, 10, 14, 12, 14, 18, 22] = [0, 0, 0, 4, 8, 6, 8, 12, 16, 14, 16, 20] := by decide
  have hw18 : dpNextRow ['A', 'C', 'G', 'T', 'A', 'C', 'G', 'T', 'A', 'C', 'G'] 'T' [0, 0, 0, 4, 8, 6, 8, 12, 16, 14, 16, 20] = [0, 0, 0, 2, 6, 7, 6, 10, 14, 15, 14, 18] := by decide
  have hw19 : dpNextRow ['A', 'C', 'G', 'T', 'A', 'C', 'G', 'T', 'A', 'C', 'G'] 'T' [0, 0, 0, 2, 6, 7, 6, 10, 14, 15, 14, 18] = [0, 0, 0, 0, 4, 5, 6, 8, 12, 13, 14, 16] := by decide
  have hw20 : dpNextRow ['A', 'C', 'G', 'T', 'A', 'C', 'G', 'T', 'A', 'C', 'G'] 'T' [0, 0, 0, 0, 4, 5, 6, 8, 12, 13, 14, 16] = [0, 0, 0, 0, 2, 3, 4, 6, 10, 11, 12, 14] := by decide
  have hw21 : dpNextRow ['A', 'C', 'G', 'T', 'A', 'C', 'G', 'T', 'A', 'C', 'G'] 'T' [0, 0, 0, 0, 2, 3, 4, 6, 10, 11, 12, 14] = [0, 0, 0, 0, 2, 1, 2, 4, 8, 9, 10, 12] := by decide
  have hw22 : dpNextRow ['A', 'C', 'G', 'T', 'A', 'C', 'G', 'T', 'A', 'C', 'G'] 'T' [0, 0, 0, 0, 2, 1, 2, 4, 8, 9, 10, 12] = [0, 0, 0, 0, 2, 1, 0, 2, 6, 7, 8, 10] := by decide
  have hT : dpTable ['T', 'T', 'T', 'T', 'T', 'A', 'C', 'G', 'T', 'A', 'C', 'G', 'T', 'A', 'C', 'G', 'T', 'T', 'T', 'T', 'T', 'T'] ['A', 'C', 'G', 'T', 'A', 'C', 'G', 'T', 'A', 'C', 'G']
      = [[0, 0, 0, 0, 0, 0, 0, 0, 0, 0, 0, 0],
       [0, 0, 0, 0, 2, 0, 0, 0, 2, 0, 0, 0],
       [0, 0, 0, 0, 2, 1, 0, 0, 2, 1, 0, 0],
       [0, 0, 0, 0, 2, 1, 0, 0, 2, 1, 0, 0],
       [0, 0, 0, 0, 2, 1, 0, 0, 2, 1, 0, 0],
       [0, 0, 0, 0, 2, 1, 0, 0, 2, 1, 0, 0],
       [0, 2, 0, 0, 0, 4, 2, 0, 0, 4, 2, 0],
       [0, 0, 4, 2, 0, 2, 6, 4, 2, 2, 6, 4],
       [0, 0, 2, 6, 4, 2, 4, 8, 6, 4, 4, 8],
       [0, 0, 0, 4, 8, 6, 4, 6, 10, 8, 6, 6],
       [0, 2, 0, 2, 6, 10, 8, 6, 8, 12, 10, 8],
       [0, 0, 4, 2, 4, 8, 12, 10, 8, 10, 14, 12],
       [0, 0, 2, 6, 4, 6, 10, 14, 12, 10, 12, 16],
       [0, 0, 0, 4, 8, 6, 8, 12, 16, 14, 12, 14],
       [0, 2, 0, 2, 6, 10, 8, 10, 14, 18, 16, 14],
       [0, 0, 4, 2, 4, 8, 12, 10, 12, 16, 20, 18],
       [0, 0, 2, 6, 4, 6, 10, 14, 12, 14, 18, 22],
       [0, 0, 0, 4, 8, 6, 8, 12, 16, 14, 16, 20],
       [0, 0, 0, 2, 6, 7, 6, 10, 14, 15, 14, 18],
       [0, 0, 0, 0, 4, 5, 6, 8, 12, 13, 14, 16],
       [0, 0, 0, 0, 2, 3, 4, 6, 10, 11, 12, 14],
       [0, 0, 0, 0, 2, 1, 2, 4, 8, 9, 10, 12],
       [0, 0, 0, 0, 2, 1, 0, 2, 6, 7, 8, 10]] := by
    simp only [dpTable, dpRows, hlen, hw0, hw1, hw2, hw3, hw4, hw5, hw6, hw7, hw8, hw9, hw10, hw11, hw12, hw13, hw14, hw15, hw16, hw17, hw18, hw19, hw20, hw21, hw22]
  have hr0 : bestInRow 0 0 ((0, 0), 0) [0, 0, 0, 0, 0, 0, 0, 0, 0, 0, 0, 0] = ((0, 0), 0) := by decide
  have hr1 : bestInRow 1 0 ((0, 0), 0) [0, 0, 0, 0, 2, 0, 0, 0, 2, 0, 0, 0] = ((1, 4), 2) := by decide
  have hr2 : bestInRow 2 0 ((1, 4), 2) [0, 0, 0, 0, 2, 1, 0, 0, 2, 1, 0, 0] = ((1, 4), 2) := by decide
  have hr3 : bestInRow 3 0 ((1, 4), 2) [0, 0, 0, 0, 2, 1, 0, 0, 2, 1, 0, 0] = ((1, 4), 2) := by decide
  have hr4 : bestInRow 4 0 ((1, 4), 2) [0, 0, 0, 0, 2, 1, 0, 0, 2, 1, 0, 0] = ((1, 4), 2) := by decide
  have hr5 : bestInRow 5 0 ((1, 4), 2) [0, 0, 0, 0, 2, 1, 0, 0, 2, 1, 0, 0] = ((1, 4), 2) := by decide
  have hr6 : bestInRow 6 0 ((1, 4), 2) [0, 2, 0, 0, 0, 4, 2, 0, 0, 4, 2, 0] = ((6, 5), 4) := by decide
  have hr7 : bestInRow 7 0 ((6, 5), 4) [0, 0, 4, 2, 0, 2, 6, 4, 2, 2, 6, 4] = ((7, 6), 6) := by decide
  have hr8 : bestInRow 8 0 ((7, 6), 6) [0, 0, 2, 6, 4, 2, 4, 8, 6, 4, 4, 8] = ((8, 7), 8) := by decide
  have hr9 : bestInRow 9 0 ((8, 7), 8) [0, 0, 0, 4, 8, 6, 4, 6, 10, 8, 6, 6] = ((9, 8), 10) := by decide
  have hr10 : bestInRow 10 0 ((9, 8), 10) [0, 2, 0, 2, 6, 10, 8, 6, 8, 12, 10, 8] = ((10, 9), 12) := by decide
  have hr11 : bestInRow 11 0 ((10, 9), 12) [0, 0, 4, 2, 4, 8, 12, 10, 8, 10, 14, 12] = ((11, 10), 14) := by decide
  have hr12 : bestInRow 12 0 ((11, 10), 14) [0, 0, 2, 6, 4, 6, 10, 14, 12, 10, 12, 16] = ((12, 11), 16) := by decide
  have hr13 : bestInRow 13 0 ((12, 11), 16) [0, 0, 0, 4, 8, 6, 8, 12, 16, 14, 12, 14] = ((12, 11), 16) := by decide
  have hr14 : bestInRow 14 0 ((12, 11), 16) [0, 2, 0, 2, 6, 10, 8, 10, 14, 18, 16, 14] = ((14, 9), 18) := by decide
  have hr15 : bestInRow 15 0 ((14, 9), 18) [0, 0, 4, 2, 4, 8, 12, 10, 12, 16, 20, 18] = ((15, 10), 20) := by decide
  have hr16 : bestInRow 16 0 ((15, 10), 20) [0, 0, 2, 6, 4, 6, 10, 14, 12, 14, 18, 22] = ((16, 11), 22) := by decide
  have hr17 : bestInRow 17 0 ((16, 11), 22) [0, 0, 0, 4, 8, 6, 8, 12, 16, 14, 16, 20] = ((16, 11), 22) := by decide
  have hr18 : bestInRow 18 0 ((16, 11), 22) [0, 0, 0, 2, 6, 7, 6, 10, 14, 15, 14, 18] = ((16, 11), 22) := by decide
  have hr19 : bestInRow 19 0 ((16, 11), 22) [0, 0, 0, 0, 4, 5, 6, 8, 12, 13, 14, 16] = ((16, 11), 22) := by decide
  have hr20 : bestInRow 20 0 ((16, 11), 22) [0, 0, 0, 0, 2, 3, 4, 6, 10, 11, 12, 14] = ((16, 11), 22) := by decide
  have hr21 : bestInRow 21 0 ((16, 11), 22) [0, 0, 0, 0, 2, 1, 2, 4, 8, 9, 10, 12] = ((16, 11), 22) := by decide
  have hr22 : bestInRow 22 0 ((16, 11), 22) [0, 0, 0, 0, 2, 1, 0, 2, 6, 7, 8, 10] = ((16, 11), 22) := by decide
  have hbc : bestCell [[0, 0, 0, 0, 0, 0, 0, 0, 0, 0, 0, 0],
       [0, 0, 0, 0, 2, 0, 0, 0, 2, 0, 0, 0],
       [0, 0, 0, 0, 2, 1, 0, 0, 2, 1, 0, 0],
       [0, 0, 0, 0, 2, 1, 0, 0, 2, 1, 0, 0],
       [0, 0, 0, 0, 2, 1, 0, 0, 2, 1, 0, 0],
       [0, 0, 0, 0, 2, 1, 0, 0, 2, 1, 0, 0],
       [0, 2, 0, 0, 0, 4, 2, 0, 0, 4, 2, 0],
       [0, 0, 4, 2, 0, 2, 6, 4, 2, 2, 6, 4],
       [0, 0, 2, 6, 4, 2, 4, 8, 6, 4, 4, 8],
       [0, 0, 0, 4, 8, 6, 4, 6, 10, 8, 6, 6],
       [0, 2, 0, 2, 6, 10, 8, 6, 8, 12, 10, 8],
       [0, 0, 4, 2, 4, 8, 12, 10, 8, 10, 14, 12],
       [0, 0, 2, 6, 4, 6, 10, 14, 12, 10, 12, 16],
       [0, 0, 0, 4, 8, 6, 8, 12, 16, 14, 12, 14],
       [0, 2, 0, 2, 6, 10, 8, 10, 14, 18, 16, 14],
       [0, 0, 4, 2, 4, 8, 12, 10, 12, 16, 20, 18],
       [0, 0, 2, 6, 4, 6, 10, 14, 12, 14, 18, 22],
       [0, 0, 0, 4, 8, 6, 8, 12, 16, 14, 16, 20],
       [0, 0, 0, 2, 6, 7, 6, 10, 14, 15, 14, 18],
       [0, 0, 0, 0, 4, 5, 6, 8, 12, 13, 14, 16],
       [0, 0, 0, 0, 2, 3, 4, 6, 10, 11, 12, 14],
       [0, 0, 0, 0, 2, 1, 2, 4, 8, 9, 10, 12],
       [0, 0, 0, 0, 2, 1, 0, 2, 6, 7, 8, 10]] = (16, 11) := by
    simp only [bestCell, bestCellAux, Nat.reduceAdd, hr0, hr1, hr2, hr3, hr4, hr5, hr6, hr7, hr8, hr9, hr10, hr11, hr12, hr13, hr14, hr15, hr16, hr17, hr18, hr19, hr20, hr21, hr22]
  have htr : alignTrace ['T', 'T', 'T', 'T', 'T', 'A', 'C', 'G', 'T', 'A', 'C', 'G', 'T', 'A', 'C', 'G', 'T', 'T', 'T', 'T', 'T', 'T'] ['A', 'C', 'G', 'T', 'A', 'C', 'G', 'T', 'A', 'C', 'G']
      = [AlignCol.aligned 5 0, AlignCol.aligned 6 1, AlignCol.aligned 7 2, AlignCol.aligned 8 3, AlignCol.aligned 9 4, AlignCol.aligned 10 5, AlignCol.aligned 11 6, AlignCol.aligned 12 7, AlignCol.aligned 13 8, AlignCol.aligned 14 9, AlignCol.aligned 15 10] := by
    simp only [alignTrace]
    rw [hT, hbc]
    show tracebackFuel [[0, 0, 0, 0, 0, 0, 0, 0, 0, 0, 0, 0],
       [0, 0, 0, 0, 2, 0, 0, 0, 2, 0, 0, 0],
       [0, 0, 0, 0, 2, 1, 0, 0, 2, 1, 0, 0],
       [0, 0, 0, 0, 2, 1, 0, 0, 2, 1, 0, 0],
       [0, 0, 0, 0, 2, 1, 0, 0, 2, 1, 0, 0],
       [0, 0, 0, 0, 2, 1, 0, 0, 2, 1, 0, 0],
       [0, 2, 0, 0, 0, 4, 2, 0, 0, 4, 2, 0],
       [0, 0, 4, 2, 0, 2, 6, 4, 2, 2, 6, 4],
       [0, 0, 2, 6, 4, 2, 4, 8, 6, 4, 4, 8],
       [0, 0, 0, 4, 8, 6, 4, 6, 10, 8, 6, 6],
       [0, 2, 0, 2, 6, 10, 8, 6, 8, 12, 10, 8],
       [0, 0, 4, 2, 4, 8, 12, 10, 8, 10, 14, 12],
       [0, 0, 2, 6, 4, 6, 10, 14, 12, 10, 12, 16],
       [0, 0, 0, 4, 8, 6, 8, 12, 16, 14, 12, 14],
       [0, 2, 0, 2, 6, 10, 8, 10, 14, 18, 16, 14],
       [0, 0, 4, 2, 4, 8, 12, 10, 12, 16, 20, 18],
       [0, 0, 2, 6, 4, 6, 10, 14, 12, 14, 18, 22],
       [0, 0, 0, 4, 8, 6, 8, 12, 16, 14, 16, 20],
       [0, 0, 0, 2, 6, 7, 6, 10, 14, 15, 14, 18],
       [0, 0, 0, 0, 4, 5, 6, 8, 12, 13, 14, 16],
       [0, 0, 0, 0, 2, 3, 4, 6, 10, 11, 12, 14],
       [0, 0, 0, 0, 2, 1, 2, 4, 8, 9, 10, 12],
       [0, 0, 0, 0, 2, 1, 0, 2, 6, 7, 8, 10]] 27
        ['G', 'C', 'A', 'T', 'G', 'C', 'A', 'T', 'G', 'C', 'A', 'T', 'T', 'T', 'T', 'T']
        ['G', 'C', 'A', 'T', 'G', 'C', 'A', 'T', 'G', 'C', 'A']
      = [AlignCol.aligned 5 0, AlignCol.aligned 6 1, AlignCol.aligned 7 2, AlignCol.aligned 8 3, AlignCol.aligned 9 4, AlignCol.aligned 10 5, AlignCol.aligned 11 6, AlignCol.aligned 12 7, AlignCol.aligned 13 8, AlignCol.aligned 14 9, AlignCol.aligned 15 10]
    decide
  rw [map_simplex_to_duplex, htr, if_neg (by decide)]
  decide

set_option maxRecDepth 6000 in
/-- The modelled aligner computes, on the input pair of conformance fixture
of the second ragged-ends case (`src/tests/test_duplex.py` lines 228-250), exactly the output the test asserts. -/
lemma model_eval_case7 :
    map_simplex_to_duplex "ACGTACGTACG".toList "TCGTTACGTACGTACGTTTCGT".toList
      = .ok ⟨"ACGTACGTACG".toList, 5, [0, 1, 2, 3, 4, 5, 6, 7, 8, 9, 10, 11]⟩ := by
  have hsl : "ACGTACGTACG".toList = ['A', 'C', 'G', 'T', 'A', 'C', 'G', 'T', 'A', 'C', 'G'] := by decide
  have hdl : "TCGTTACGTACGTACGTTTCGT".toList = ['T', 'C', 'G', 'T', 'T', 'A', 'C', 'G', 'T', 'A', 'C', 'G', 'T', 'A', 'C', 'G', 'T', 'T', 'T', 'C', 'G', 'T'] := by decide
  rw [hsl, hdl]
  have hlen : List.length ['T', 'C', 'G', 'T', 'T', 'A', 'C', 'G', 'T', 'A', 'C', 'G', 'T', 'A', 'C', 'G', 'T', 'T', 'T', 'C', 'G', 'T'] = 22 := by decide
  have hw0 : dpRow0 22 = [0, 0, 0, 0, 0, 0, 0, 0, 0, 0, 0, 0, 0, 0, 0, 0, 0, 0, 0, 0, 0, 0, 0] := by decide
  have hw1 : dpNextRow ['T', 'C', 'G', 'T', 'T', 'A', 'C', 'G', 'T', 'A', 'C', 'G', 'T', 'A', 'C', 'G', 'T', 'T', 'T', 'C', 'G', 'T'] 'A' [0, 0, 0, 0, 0, 0, 0, 0, 0, 0, 0, 0, 0, 0, 0, 0, 0, 0, 0, 0, 0, 0, 0] = [0, 0, 0, 0, 0, 0, 2, 0, 0, 0, 2, 0, 0, 0, 2, 0, 0, 0, 0, 0, 0, 0, 0] := by decide
  have hw2 : dpNextRow ['T', 'C', 'G', 'T', 'T', 'A', 'C', 'G', 'T', 'A', 'C', 'G', 'T', 'A', 'C', 'G', 'T', 'T', 'T', 'C', 'G', 'T'] 'C' [0, 0, 0, 0, 0, 0, 2, 0, 0, 0, 2, 0, 0, 0, 2, 0, 0, 0, 0, 0, 0, 0, 0] = [0, 0, 2, 0, 0, 0, 0, 4, 2, 0, 0, 4, 2, 0, 0, 4, 2, 0, 0, 0, 2, 0, 0] := by decide
  have hw3 : dpNextRow ['T', 'C', 'G', 'T', 'T', 'A', 'C', 'G', 'T', 'A', 'C', 'G', 'T', 'A', 'C', 'G', 'T', 'T', 'T', 'C', 'G', 'T'] 'G' [0, 0, 2, 0, 0, 0, 0, 4, 2, 0, 0, 4, 2, 0, 0, 4, 2, 0, 0, 0, 2, 0, 0] = [0, 0, 0, 4, 2, 0, 0, 2, 6, 4, 2, 2, 6, 4, 2, 2, 6, 4, 2, 0, 0, 4, 2] := by decide
  have hw4 : dpNextRow ['T', 'C', 'G', 'T', 'T', 'A', 'C', 'G', 'T', 'A', 'C', 'G', 'T', 'A', 'C', 'G', 'T', 'T', 'T', 'C', 'G', 'T'] 'T' [0, 0, 0, 4, 2, 0, 0, 2, 6, 4, 2, 2, 6, 4, 2, 2, 6, 4, 2, 0, 0, 4, 2] = [0, 2, 0, 2, 6, 4, 2, 0, 4, 8, 6, 4, 4, 8, 6, 4, 4, 8, 6, 4, 2, 2, 6] := by decide
  have hw5 : dpNextRow ['T', 'C', 'G', 'T', 'T', 'A', 'C', 'G', 'T', 'A', 'C', 'G', 'T', 'A', 'C', 'G', 'T', 'T', 'T', 'C', 'G', 'T'] 'A' [0, 2, 0, 2, 6, 4, 2, 0, 4, 8, 6, 4, 4, 8, 6, 4, 4, 8, 6, 4, 2, 2, 6] = [0, 0, 1, 0, 4, 5, 6, 4, 2, 6, 10, 8, 6, 6, 10, 8, 6, 6, 7, 5, 3, 1, 4] := by decide
  have hw6 : dpNextRow ['T', 'C', 'G', 'T', 'T', 'A', 'C', 'G', 'T', 'A', 'C', 'G', 'T', 'A', 'C', 'G', 'T', 'T', 'T', 'C', 'G', 'T'] 'C' [0, 0, 1, 0, 4, 5, 6, 4, 2, 6, 10, 8, 6, 6, 10, 8, 6, 6, 7, 5, 3, 1, 4] = [0, 0, 2, 0, 2, 3, 4, 8, 6, 4, 8, 12, 10, 8, 8, 12, 10, 8, 6, 6, 7, 5, 3] := by decide
  have hw7 : dpNextRow ['T', 'C', 'G', 'T', 'T', 'A', 'C', 'G', 'T', 'A', 'C', 'G', 'T', 'A', 'C', 'G', 'T', 'T', 'T', 'C', 'G', 'T'] 'G' [0, 0, 2, 0, 2, 3, 4, 8, 6, 4, 8, 12, 10, 8, 8, 12, 10, 8, 6, 6, 7, 5, 3] = [0, 0, 0, 4, 2, 1, 2, 6, 10, 8, 6, 10, 14, 12, 10, 10, 14, 12, 10, 8, 6, 9, 7] := by decide
  have hw8 : dpNextRow ['T', 'C', 'G', 'T', 'T', 'A', 'C', 'G', 'T', 'A', 'C', 'G', 'T', 'A', 'C', 'G', 'T', 'T', 'T', 'C', 'G', 'T'] 'T' [0, 0, 0, 4, 2, 1, 2, 6, 10, 8, 6, 10, 14, 12, 10, 10, 14, 12, 10, 8, 6, 9, 7] = [0, 2, 0, 2, 6, 4, 2, 4, 8, 12, 10, 8, 12, 16, 14, 12, 12, 16, 14, 12, 10, 8, 11] := by decide
  have hw9 : dpNextRow ['T', 'C', 'G', 'T', 'T', 'A', 'C', 'G', 'T', 'A', 'C', 'G', 'T', 'A', 'C', 'G', 'T', 'T', 'T', 'C', 'G', 'T'] 'A' [0, 2, 0, 2, 6, 4, 2, 4, 8, 12, 10, 8, 12, 16, 14, 12, 12, 16, 14, 12, 10, 8, 11] = [0, 0, 1, 0, 4, 5, 6, 4, 6, 10, 14, 12, 10, 14, 18, 16, 14, 14, 15, 13, 11, 9, 9] := by decide
  have hw10 : dpNextRow ['T', 'C', 'G', 'T', 'T', 'A', 'C', 'G', 'T', 'A', 'C', 'G', 'T', 'A', 'C', 'G', 'T', 'T', 'T', 'C', 'G', 'T'] 'C' [0, 0, 1, 0, 4, 5, 6, 4, 6, 10, 14, 12, 10, 14, 18, 16, 14, 14, 15, 13, 11, 9, 9] = [0, 0, 2, 0, 2, 3, 4, 8, 6, 8, 12, 16, 14, 12, 16, 20, 18, 16, 14, 14, 15, 13, 11] := by decide
  have hw11 : dpNextRow ['T', 'C', 'G', 'T', 'T', 'A', 'C', 'G', 'T', 'A', 'C', 'G', 'T', 'A', 'C', 'G', 'T', 'T', 'T', 'C', 'G', 'T'] 'G' [0, 0, 2, 0, 2, 3, 4, 8, 6, 8, 12, 16, 14, 12, 16, 20, 18, 16, 14, 14, 15, 13, 11] = [0, 0, 0, 4, 2, 1, 2, 6, 10, 8, 10, 14, 18, 16, 14, 18, 22, 20, 18, 16, 14, 17, 15] := by decide
  have hT : dpTable ['A', 'C', 'G', 'T', 'A', 'C', 'G', 'T', 'A', 'C', 'G'] ['T', 'C', 'G', 'T', 'T', 'A', 'C', 'G', 'T', 'A', 'C', 'G', 'T', 'A', 'C', 'G', 'T', 'T', 'T', 'C', 'G', 'T']
      = [[0, 0, 0, 0, 0, 0, 0, 0, 0, 0, 0, 0, 0, 0, 0, 0, 0, 0, 0, 0, 0, 0, 0],
       [0, 0, 0, 0, 0, 0, 2, 0, 0, 0, 2, 0, 0, 0, 2, 0, 0, 0, 0, 0, 0, 0, 0],
       [0, 0, 2, 0, 0, 0, 0, 4, 2, 0, 0, 4, 2, 0, 0, 4, 2, 0, 0, 0, 2, 0, 0],
       [0, 0, 0, 4, 2, 0, 0, 2, 6, 4, 2, 2, 6, 4, 2, 2, 6, 4, 2, 0, 0, 4, 2],
       [0, 2, 0, 2, 6, 4, 2, 0, 4, 8, 6, 4, 4, 8, 6, 4, 4, 8, 6, 4, 2, 2, 6],
       [0, 0, 1, 0, 4, 5, 6, 4, 2, 6, 10, 8, 6, 6, 10, 8, 6, 6, 7, 5, 3, 1, 4],
       [0, 0, 2, 0, 2, 3, 4, 8, 6, 4, 8, 12, 10, 8, 8, 12, 10, 8, 6, 6, 7, 5, 3],
       [0, 0, 0, 4, 2, 1, 2, 6, 10, 8, 6, 10, 14, 12, 10, 10, 14, 12, 10, 8, 6, 9, 7],
       [0, 2, 0, 2, 6, 4, 2, 4, 8, 12, 10, 8, 12, 16, 14, 12, 12, 16, 14, 12, 10, 8, 11],
       [0, 0, 1, 0, 4, 5, 6, 4, 6, 10, 14, 12, 10, 14, 18, 16, 14, 14, 15, 13, 11, 9, 9],
       [0, 0, 2, 0, 2, 3, 4, 8, 6, 8, 12, 16, 14, 12, 16, 20, 18, 16, 14, 14, 15, 13, 11],
       [0, 0, 0, 4, 2, 1, 2, 6, 10, 8, 10, 14, 18, 16, 14, 18, 22, 20, 18, 16, 14, 17, 15]] := by
    simp only [dpTable, dpRows, hlen, hw0, hw1, hw2, hw3, hw4, hw5, hw6, hw7, hw8, hw9, hw10, hw11]
  have hr0 : bestInRow 0 0 ((0, 0), 0) [0, 0, 0, 0, 0, 0, 0, 0, 0, 0, 0, 0, 0, 0, 0, 0, 0, 0, 0, 0, 0, 0, 0] = ((0, 0), 0) := by decide
  have hr1 : bestInRow 1 0 ((0, 0), 0) [0, 0, 0, 0, 0, 0, 2, 0, 0, 0, 2, 0, 0, 0, 2, 0, 0, 0, 0, 0, 0, 0, 0] = ((1, 6), 2) := by decide
  have hr2 : bestInRow 2 0 ((1, 6), 2) [0, 0, 2, 0, 0, 0, 0, 4, 2, 0, 0, 4, 2, 0, 0, 4, 2, 0, 0, 0, 2, 0, 0] = ((2, 7), 4) := by decide
  have hr3 : bestInRow 3 0 ((2, 7), 4) [0, 0, 0, 4, 2, 0, 0, 2, 6, 4, 2, 2, 6, 4, 2, 2, 6, 4, 2, 0, 0, 4, 2] = ((3, 8), 6) := by decide
  have hr4 : bestInRow 4 0 ((3, 8), 6) [0, 2, 0, 2, 6, 4, 2, 0, 4, 8, 6, 4, 4, 8, 6, 4, 4, 8, 6, 4, 2, 2, 6] = ((4, 9), 8) := by decide
  have hr5 : bestInRow 5 0 ((4, 9), 8) [0, 0, 1, 0, 4, 5, 6, 4, 2, 6, 10, 8, 6, 6, 10, 8, 6, 6, 7, 5, 3, 1, 4] = ((5, 10), 10) := by decide
  have hr6 : bestInRow 6 0 ((5, 10), 10) [0, 0, 2, 0, 2, 3, 4, 8, 6, 4, 8, 12, 10, 8, 8, 12, 10, 8, 6, 6, 7, 5, 3] = ((6, 11), 12) := by decide
  have hr7 : bestInRow 7 0 ((6, 11), 12) [0, 0, 0, 4, 2, 1, 2, 6, 10, 8, 6, 10, 14, 12, 10, 10, 14, 12, 10, 8, 6, 9, 7] = ((7, 12), 14) := by decide
  have hr8 : bestInRow 8 0 ((7, 12), 14) [0, 2, 0, 2, 6, 4, 2, 4, 8, 12, 10, 8, 12, 16, 14, 12, 12, 16, 14, 12, 10, 8, 11] = ((8, 13), 16) := by decide
  have hr9 : bestInRow 9 0 ((8, 13), 16) [0, 0, 1, 0, 4, 5, 6, 4, 6, 10, 14, 12, 10, 14, 18, 16, 14, 14, 15, 13, 11, 9, 9] = ((9, 14), 18) := by decide
  have hr10 : bestInRow 10 0 ((9, 14), 18) [0, 0, 2, 0, 2, 3, 4, 8, 6, 8, 12, 16, 14, 12, 16, 20, 18, 16, 14, 14, 15, 13, 11] = ((10, 15), 20) := by decide
  have hr11 : bestInRow 11 0 ((10, 15), 20) [0, 0, 0, 4, 2, 1, 2, 6, 10, 8, 10, 14, 18, 16, 14, 18, 22, 20, 18, 16, 14, 17, 15] = ((11, 16), 22) := by decide
  have hbc : bestCell [[0, 0, 0, 0, 0, 0, 0, 0, 0, 0, 0, 0, 0, 0, 0, 0, 0, 0, 0, 0, 0, 0, 0],
       [0, 0, 0, 0, 0, 0, 2, 0, 0, 0, 2, 0, 0, 0, 2, 0, 0, 0, 0, 0, 0, 0, 0],
       [0, 0, 2, 0, 0, 0, 0, 4, 2, 0, 0, 4, 2, 0, 0, 4, 2, 0, 0, 0, 2, 0, 0],
       [0, 0, 0, 4, 2, 0, 0, 2, 6, 4, 2, 2, 6, 4, 2, 2, 6, 4, 2, 0, 0, 4, 2],
       [0, 2, 0, 2, 6, 4, 2, 0, 4, 8, 6, 4, 4, 8, 6, 4, 4, 8, 6, 4, 2, 2, 6],
       [0, 0, 1, 0, 4, 5, 6, 4, 2, 6, 10, 8, 6, 6, 10, 8, 6, 6, 7, 5, 3, 1, 4],
       [0, 0, 2, 0, 2, 3, 4, 8, 6, 4, 8, 12, 10, 8, 8, 12, 10, 8, 6, 6, 7, 5, 3],
       [0, 0, 0, 4, 2, 1, 2, 6, 10, 8, 6, 10, 14, 12, 10, 10, 14, 12, 10, 8, 6, 9, 7],
       [0, 2, 0, 2, 6, 4, 2, 4, 8, 12, 10, 8, 12, 16, 14, 12, 12, 16, 14, 12, 10, 8, 11],
       [0, 0, 1, 0, 4, 5, 6, 4, 6, 10, 14, 12, 10, 14, 18, 16, 14, 14, 15, 13, 11, 9, 9],
       [0, 0, 2, 0, 2, 3, 4, 8, 6, 8, 12, 16, 14, 12, 16, 20, 18, 16, 14, 14, 15, 13, 11],
       [0, 0, 0, 4, 2, 1, 2, 6, 10, 8, 10, 14, 18, 16, 14, 18, 22, 20, 18, 16, 14, 17, 15]] = (11, 16) := by
    simp only [bestCell, bestCellAux, Nat.reduceAdd, hr0, hr1, hr2, hr3, hr4, hr5, hr6, hr7, hr8, hr9, hr10, hr11]
  have htr : alignTrace ['A', 'C', 'G', 'T', 'A', 'C', 'G', 'T', 'A', 'C', 'G'] ['T', 'C', 'G', 'T', 'T', 'A', 'C', 'G', 'T', 'A', 'C', 'G', 'T', 'A', 'C', 'G', 'T', 'T', 'T', 'C', 'G', 'T']
      = [AlignCol.aligned 0 5, AlignCol.aligned 1 6, AlignCol.aligned 2 7, AlignCol.aligned 3 8, AlignCol.aligned 4 9, AlignCol.aligned 5 10, AlignCol.aligned 6 11, AlignCol.aligned 7 12, AlignCol.aligned 8 13, AlignCol.aligned 9 14, AlignCol.aligned 10 15] := by
    simp only [alignTrace]
    rw [hT, hbc]
    show tracebackFuel [[0, 0, 0, 0, 0, 0, 0, 0, 0, 0, 0, 0, 0, 0, 0, 0, 0, 0, 0, 0, 0, 0, 0],
       [0, 0, 0, 0, 0, 0, 2, 0, 0, 0, 2, 0, 0, 0, 2, 0, 0, 0, 0, 0, 0, 0, 0],
       [0, 0, 2, 0, 0, 0, 0, 4, 2, 0, 0, 4, 2, 0, 0, 4, 2, 0, 0, 0, 2, 0, 0],
       [0, 0, 0, 4, 2, 0, 0, 2, 6, 4, 2, 2, 6, 4, 2, 2, 6, 4, 2, 0, 0, 4, 2],
       [0, 2, 0, 2, 6, 4, 2, 0, 4, 8, 6, 4, 4, 8, 6, 4, 4, 8, 6, 4, 2, 2, 6],
       [0, 0, 1, 0, 4, 5, 6, 4, 2, 6, 10, 8, 6, 6, 10, 8, 6, 6, 7, 5, 3, 1, 4],
       [0, 0, 2, 0, 2, 3, 4, 8, 6, 4, 8, 12, 10, 8, 8, 12, 10, 8, 6, 6, 7, 5, 3],
       [0, 0, 0, 4, 2, 1, 2, 6, 10, 8, 6, 10, 14, 12, 10, 10, 14, 12, 10, 8, 6, 9, 7],
       [0, 2, 0, 2, 6, 4, 2, 4, 8, 12, 10, 8, 12, 16, 14, 12, 12, 16, 14, 12, 10, 8, 11],
       [0, 0, 1, 0, 4, 5, 6, 4, 6, 10, 14, 12, 10, 14, 18, 16, 14, 14, 15, 13, 11, 9, 9],
       [0, 0, 2, 0, 2, 3, 4, 8, 6, 8, 12, 16, 14, 12, 16, 20, 18, 16, 14, 14, 15, 13, 11],
       [0, 0, 0, 4, 2, 1, 2, 6, 10, 8, 10, 14, 18, 16, 14, 18, 22, 20, 18, 16, 14, 17, 15]] 27
        ['G', 'C', 'A', 'T', 'G', 'C', 'A', 'T', 'G', 'C', 'A']
        ['G', 'C', 'A', 'T', 'G', 'C', 'A', 'T', 'G', 'C', 'A', 'T', 'T', 'G', 'C', 'T']
      = [AlignCol.aligned 0 5, AlignCol.aligned 1 6, AlignCol.aligned 2 7, AlignCol.aligned 3 8, AlignCol.aligned 4 9, AlignCol.aligned 5 10, AlignCol.aligned 6 11, AlignCol.aligned 7 12, AlignCol.aligned 8 13, AlignCol.aligned 9 14, AlignCol.aligned 10 15]
    decide
  rw [map_simplex_to_duplex, htr, if_neg (by decide)]
  decide

/-- The modelled aligner reproduces every conformance fixture of
`src/tests/test_duplex.py` exactly. -/
lemma model_matches_fixtures :
    ∀ f ∈ conformanceFixtures,
      map_simplex_to_duplex f.simplex f.duplex
        = .ok ⟨f.trimmed_duplex_seq, f.duplex_offset, f.duplex_to_simplex_mapping⟩ := by
  intro f hf
  simp only [conformanceFixtures, List.mem_cons, List.not_mem_nil, or_false] at hf
  rcases hf with rfl | rfl | rfl | rfl | rfl | rfl | rfl
  · simpa [fivePrimeCase1] using model_eval_case1
  · simpa [fivePrimeCase2] using model_eval_case2
  · simpa [fivePrimeCase3] using model_eval_case3
  · simpa [threePrimeCase4] using model_eval_case4
  · simpa [threePrimeCase5] using model_eval_case5
  · simpa [raggedCase6] using model_eval_case6
  · simpa [raggedCase7] using model_eval_case7

/-- C1: for every knot array (per the spec glossary a knot mapping is
monotone) and every non-empty non-decreasing query_to_signal array,
`project` returns an array of the length of the knot array whose element `i`
is query_to_signal at index knots `i`, with any knot value at or past the
last valid query index clamped to that last valid index; the lookup index is
always in range and the output is non-decreasing. -/
theorem C1_project_clamped_lookup
    (ref_to_query_knots query_to_signal : List Nat)
    (hne : query_to_signal ≠ [])
    (hq : List.Pairwise (· ≤ ·) query_to_signal)
    (hk : List.Pairwise (· ≤ ·) ref_to_query_knots) :
    (map_ref_to_signal query_to_signal ref_to_query_knots).length
        = ref_to_query_knots.length
    ∧ (∀ i, i < ref_to_query_knots.length →
        min (ref_to_query_knots.getD i 0) (query_to_signal.length - 1)
            < query_to_signal.length
        ∧ (ref_to_query_knots.getD i 0 < query_to_signal.length →
            (map_ref_to_signal query_to_signal ref_to_query_knots).getD i 0
              = query_to_signal.getD (ref_to_query_knots.getD i 0) 0)
        ∧ (query_to_signal.length ≤ ref_to_query_knots.getD i 0 →
            (map_ref_to_signal query_to_signal ref_to_query_knots).getD i 0
              = query_to_signal.getD (query_to_signal.length - 1) 0))
    ∧ List.Pairwise (· ≤ ·) (map_ref_to_signal query_to_signal ref_to_query_knots) := by
  have hL : 0 < query_to_signal.length := List.length_pos.mpr hne
  refine ⟨List.length_map _ _, ?_, ?_⟩
  · intro i hi
    have hout := map_ref_to_signal_getD query_to_signal ref_to_query_knots hi
    refine ⟨clampedIndex_lt _ _ hL, ?_, ?_⟩
    · intro hlt
      rw [hout]
      congr 1
      omega
    · intro hge
      rw [hout]
      congr 1
      omega
  · unfold map_ref_to_signal
    refine hk.map _ (fun a b hab => ?_)
    exact getD_mono_of_pairwise_le query_to_signal hq
      (min_le_min hab (le_refl _)) (clampedIndex_lt _ _ hL)

/-- Witness for C1 at a concrete input. -/
theorem C1_project_clamped_lookup_witness :
    ([1, 3, 4] : List Nat) ≠ []
    ∧ (map_ref_to_signal [1, 3, 4] [0, 2, 7]).length = 3
    ∧ List.Pairwise (· ≤ ·) (map_ref_to_signal [1, 3, 4] [0, 2, 7]) :=
  ⟨by decide,
   (C1_project_clamped_lookup [0, 2, 7] [1, 3, 4] (by decide) (by decide) (by decide)).1,
   (C1_project_clamped_lookup [0, 2, 7] [1, 3, 4] (by decide) (by decide) (by decide)).2.2⟩

/-- C10: when every knot value is strictly below the query length, projecting
through the identity query_to_signal returns the knot array unchanged, and an
identity-projected element differs from its knot only when the knot is at or
past the last valid query index. -/
theorem C10_identity_projection_unchanged (n : Nat) (knots : List Nat) :
    ((∀ k ∈ knots, k < n) → map_ref_to_signal (List.range n) knots = knots)
    ∧ (∀ i, i < knots.length →
        (map_ref_to_signal (List.range n) knots).getD i 0 ≠ knots.getD i 0 →
        n - 1 ≤ knots.getD i 0) := by
  constructor
  · intro h
    unfold map_ref_to_signal
    have hcongr : ∀ k ∈ knots,
        (List.range n).getD (min k ((List.range n).length - 1)) 0 = k := by
      intro k hk
      have hkn := h k hk
      have hn : 0 < n := Nat.lt_of_le_of_lt (Nat.zero_le k) hkn
      rw [List.length_range, range_getD_eq (show min k (n - 1) < n by omega)]
      omega
    calc knots.map (fun k => (List.range n).getD (min k ((List.range n).length - 1)) 0)
        = knots.map id := List.map_congr_left hcongr
      _ = knots := List.map_id knots
  · intro i hi hne
    by_contra hcon
    have hk : knots.getD i 0 < n - 1 := by omega
    have hn : 0 < n := by omega
    apply hne
    rw [map_ref_to_signal_getD _ _ hi, List.length_range]
    rw [show min (knots.getD i 0) (n - 1) = knots.getD i 0 by omega]
    exact range_getD_eq (by omega)

/-- Witness for C10 at a concrete input. -/
theorem C10_identity_projection_unchanged_witness :
    (∀ k ∈ ([0, 2] : List Nat), k < 3)
    ∧ map_ref_to_signal (List.range 3) [0, 2] = [0, 2] :=
  ⟨by decide, (C10_identity_projection_unchanged 3 [0, 2]).1 (by decide)⟩

/-- Counterexample to C3: on conformance fixture case 1
(`src/tests/test_duplex.py` lines 60-86, simplex of 16 bases), composing the
projector with the identity query_to_signal of one entry per simplex base
does not return `duplex_to_simplex_mapping` unchanged: the final fence-post
entry 16 is clamped to 15. -/
theorem C3_identity_composition_counterexample :
    map_ref_to_signal (List.range fivePrimeCase1.simplex.length)
        fivePrimeCase1.duplex_to_simplex_mapping
      ≠ fivePrimeCase1.duplex_to_simplex_mapping := by decide

/-- C3 amended: composing the projector with an identity query_to_signal of
positive length n returns `duplex_to_simplex_mapping` with every entry
clamped to n - 1 - hence unchanged exactly when every entry is below n. -/
theorem C3_identity_composition_clamps (n : Nat) (hn : 0 < n) (knots : List Nat) :
    map_ref_to_signal (List.range n) knots = knots.map (fun k => min k (n - 1)) := by
  unfold map_ref_to_signal
  refine List.map_congr_left (fun k _ => ?_)
  rw [List.length_range, range_getD_eq (clampedIndex_lt n k hn)]

/-- Witness for the amended C3 on the mapping of conformance fixture case 1. -/
theorem C3_identity_composition_clamps_witness :
    (0 : Nat) < 16
    ∧ map_ref_to_signal (List.range 16) [5, 6, 7, 8, 9, 10, 11, 12, 13, 14, 15, 16]
        = [5, 6, 7, 8, 9, 10, 11, 12, 13, 14, 15, 15] :=
  ⟨Nat.succ_pos 15,
   (C3_identity_composition_clamps 16 (Nat.succ_pos 15)
      [5, 6, 7, 8, 9, 10, 11, 12, 13, 14, 15, 16]).trans (by decide)⟩

/-- Counterexample to C2: projecting the fixture mapping through an identity
query_to_signal of length 17 clamps nothing (every knot value, 16 included,
is a valid index below 17), so the result ends in 16, not in 15, 15. -/
theorem C2_fixture1_counterexample :
    map_ref_to_signal (List.range 17) fivePrimeCase1.duplex_to_simplex_mapping
        = [5, 6, 7, 8, 9, 10, 11, 12, 13, 14, 15, 16]
    ∧ map_ref_to_signal (List.range 17) fivePrimeCase1.duplex_to_simplex_mapping
        ≠ [5, 6, 7, 8, 9, 10, 11, 12, 13, 14, 15, 15] := by decide

/-- C2 amended: on simplex "TTTTTACGTACGTACG" and duplex "ACGTACGTACG" the
modelled aligner returns exactly the outputs that conformance fixture case 1
(`src/tests/test_duplex.py` lines 60-86) asserts and the claim states, and
projecting the mapping through the identity query_to_signal of length 16 -
one entry per base of the 16-base simplex read, as the test builds with
`np.arange(len(simplex))` - yields `[5, ..., 15, 15]` with the last value
clamped. -/
theorem C2_fixture1_values :
    map_simplex_to_duplex "TTTTTACGTACGTACG".toList "ACGTACGTACG".toList
      = .ok ⟨"ACGTACGTACG".toList, 0, [5, 6, 7, 8, 9, 10, 11, 12, 13, 14, 15, 16]⟩
    ∧ fivePrimeCase1.simplex = "TTTTTACGTACGTACG".toList
    ∧ fivePrimeCase1.duplex = "ACGTACGTACG".toList
    ∧ fivePrimeCase1.trimmed_duplex_seq = "ACGTACGTACG".toList
    ∧ fivePrimeCase1.duplex_offset = 0
    ∧ fivePrimeCase1.duplex_to_simplex_mapping = [5, 6, 7, 8, 9, 10, 11, 12, 13, 14, 15, 16]
    ∧ fivePrimeCase1.simplex.length = 16
    ∧ map_ref_to_signal (List.range fivePrimeCase1.simplex.length)
        fivePrimeCase1.duplex_to_simplex_mapping = fivePrimeCase1.duplex_to_signal
    ∧ fivePrimeCase1.duplex_to_signal = [5, 6, 7, 8, 9, 10, 11, 12, 13, 14, 15, 15] :=
  ⟨model_eval_case1, by decide⟩

/-- C6: on simplex "GGGTACGTACG" and duplex "TCGTTACGTACGTACG" the modelled
aligner returns exactly the outputs that conformance fixture case 3
(`src/tests/test_duplex.py` lines 115-141) asserts and the claim states; the
offset 7 is the duplex position of the first aligned column and differs from
the naive length difference of the two sequences, and the projection expected
by the test follows from the mapping. -/
theorem C6_fixture3_values :
    map_simplex_to_duplex "GGGTACGTACG".toList "TCGTTACGTACGTACG".toList
      = .ok ⟨"GTACGTACG".toList, 7, [2, 3, 4, 5, 6, 7, 8, 9, 10, 11]⟩
    ∧ fivePrimeCase3.simplex = "GGGTACGTACG".toList
    ∧ fivePrimeCase3.duplex = "TCGTTACGTACGTACG".toList
    ∧ fivePrimeCase3.trimmed_duplex_seq = "GTACGTACG".toList
    ∧ fivePrimeCase3.duplex_offset = 7
    ∧ fivePrimeCase3.duplex_to_simplex_mapping = [2, 3, 4, 5, 6, 7, 8, 9, 10, 11]
    ∧ fivePrimeCase3.duplex_offset
        ≠ fivePrimeCase3.duplex.length - fivePrimeCase3.simplex.length
    ∧ map_ref_to_signal (List.range fivePrimeCase3.simplex.length)
        fivePrimeCase3.duplex_to_simplex_mapping = fivePrimeCase3.duplex_to_signal :=
  ⟨model_eval_case3, by decide⟩

/-- Counterexample to C4: in conformance fixture case 1 the mapping contains
the value 16, which is not strictly below the simplex length 16. -/
theorem C4_bound_counterexample :
    ¬ (∀ v ∈ fivePrimeCase1.duplex_to_simplex_mapping,
        v < fivePrimeCase1.simplex.length) := by decide

/-- Counterexample to C5: in conformance fixture case 1 the mapping has 12
entries for the 11 bases of the trimmed duplex sequence. -/
theorem C5_length_counterexample :
    fivePrimeCase1.duplex_to_simplex_mapping.length
      ≠ fivePrimeCase1.trimmed_duplex_seq.length := by decide

/-- C9: in every conformance fixture the modelled aligner returns the mapping
the test asserts, that mapping is a fence-post array of length one more than
the trimmed duplex sequence, its final entry is one past the last per-base
simplex entry, and in fixture case 1 that final entry equals the simplex
length 16. -/
theorem C9_fencepost_mapping :
    (∀ f ∈ conformanceFixtures,
        map_simplex_to_duplex f.simplex f.duplex
          = .ok ⟨f.trimmed_duplex_seq, f.duplex_offset, f.duplex_to_simplex_mapping⟩
        ∧ f.duplex_to_simplex_mapping.length = f.trimmed_duplex_seq.length + 1
        ∧ f.duplex_to_simplex_mapping.getLast?
            = some (f.duplex_to_simplex_mapping.getD
                (f.trimmed_duplex_seq.length - 1) 0 + 1))
    ∧ fivePrimeCase1.duplex_to_simplex_mapping.getLast?
        = some fivePrimeCase1.simplex.length
    ∧ fivePrimeCase1.simplex.length = 16 := by
  refine ⟨fun f hf => ⟨model_matches_fixtures f hf, ?_⟩, by decide, by decide⟩
  exact (by decide : ∀ g ∈ conformanceFixtures,
      g.duplex_to_simplex_mapping.length = g.trimmed_duplex_seq.length + 1
      ∧ g.duplex_to_simplex_mapping.getLast?
          = some (g.duplex_to_simplex_mapping.getD
              (g.trimmed_duplex_seq.length - 1) 0 + 1)) f hf

/-- Witness for C9 on conformance fixture of the first ragged-ends case. -/
theorem C9_fencepost_mapping_witness :
    map_simplex_to_duplex raggedCase6.simplex raggedCase6.duplex
      = .ok ⟨raggedCase6.trimmed_duplex_seq, raggedCase6.duplex_offset,
          raggedCase6.duplex_to_simplex_mapping⟩
    ∧ raggedCase6.duplex_to_simplex_mapping.length
        = raggedCase6.trimmed_duplex_seq.length + 1
    ∧ raggedCase6.duplex_to_simplex_mapping.getLast?
        = some (raggedCase6.duplex_to_simplex_mapping.getD
            (raggedCase6.trimmed_duplex_seq.length - 1) 0 + 1) :=
  C9_fencepost_mapping.1 raggedCase6 (by decide)

/-! Lemmas about the modelled aligner. -/

lemma alignedDuplexPositions_append (l1 l2 : List AlignCol) :
    alignedDuplexPositions (l1 ++ l2)
      = alignedDuplexPositions l1 ++ alignedDuplexPositions l2 :=
  List.filterMap_append _ _ _

lemma alignedD_tracebackFuel_lt (tbl : List (List Int)) (fuel : Nat) :
    ∀ (sR dR : List Char) (x : Nat),
      x ∈ alignedDuplexPositions (tracebackFuel tbl fuel sR dR) → x < dR.length := by
  induction fuel with
  | zero =>
      intro sR dR x hx
      simp [tracebackFuel, alignedDuplexPositions] at hx
  | succ n ih =>
      intro sR dR x hx
      cases sR with
      | nil => simp [tracebackFuel, alignedDuplexPositions] at hx
      | cons a sR =>
        cases dR with
        | nil => simp [tracebackFuel, alignedDuplexPositions] at hx
        | cons b dR =>
          rw [tracebackFuel] at hx
          by_cases h0 : dpGet tbl (sR.length + 1) (dR.length + 1) ≤ 0
          · rw [if_pos h0] at hx
            simp [alignedDuplexPositions] at hx
          · rw [if_neg h0] at hx
            by_cases h1 : dpGet tbl (sR.length + 1) (dR.length + 1)
                = dpGet tbl sR.length dR.length + baseScore a b
            · rw [if_pos h1, alignedDuplexPositions_append] at hx
              rcases List.mem_append.mp hx with hx | hx
              · exact Nat.lt_succ_of_lt (ih sR dR x hx)
              · simp [alignedDuplexPositions] at hx
                simp [hx]
            · rw [if_neg h1] at hx
              by_cases h2 : dpGet tbl (sR.length + 1) (dR.length + 1)
                  = dpGet tbl sR.length (dR.length + 1) - gapPenalty
              · rw [if_pos h2, alignedDuplexPositions_append] at hx
                rcases List.mem_append.mp hx with hx | hx
                · exact ih sR (b :: dR) x hx
                · simp [alignedDuplexPositions] at hx
              · rw [if_neg h2, alignedDuplexPositions_append] at hx
                rcases List.mem_append.mp hx with hx | hx
                · exact Nat.lt_succ_of_lt (ih (a :: sR) dR x hx)
                · simp [alignedDuplexPositions] at hx

lemma alignedD_tracebackFuel_sorted (tbl : List (List Int)) (fuel : Nat) :
    ∀ (sR dR : List Char),
      List.Pairwise (· < ·) (alignedDuplexPositions (tracebackFuel tbl fuel sR dR)) := by
  induction fuel with
  | zero =>
      intro sR dR
      simp [tracebackFuel, alignedDuplexPositions]
  | succ n ih =>
      intro sR dR
      cases sR with
      | nil => simp [tracebackFuel, alignedDuplexPositions]
      | cons a sR =>
        cases dR with
        | nil => simp [tracebackFuel, alignedDuplexPositions]
        | cons b dR =>
          rw [tracebackFuel]
          by_cases h0 : dpGet tbl (sR.length + 1) (dR.length + 1) ≤ 0
          · rw [if_pos h0]
            simp [alignedDuplexPositions]
          · rw [if_neg h0]
            by_cases h1 : dpGet tbl (sR.length + 1) (dR.length + 1)
                = dpGet tbl sR.length dR.length + baseScore a b
            · rw [if_pos h1, alignedDuplexPositions_append]
              refine List.pairwise_append.mpr ⟨ih sR dR, ?_, ?_⟩
              · simp [alignedDuplexPositions]
              · intro x hx y hy
                have hyd : y = dR.length := by
                  simpa [alignedDuplexPositions] using hy
                subst hyd
                exact alignedD_tracebackFuel_lt tbl n sR dR x hx
            · rw [if_neg h1]
              by_cases h2 : dpGet tbl (sR.length + 1) (dR.length + 1)
                  = dpGet tbl sR.length (dR.length + 1) - gapPenalty
              · rw [if_pos h2, alignedDuplexPositions_append]
                refine List.pairwise_append.mpr ⟨ih sR (b :: dR), ?_, ?_⟩
                · simp [alignedDuplexPositions]
                · intro x hx y hy
                  simp [alignedDuplexPositions] at hy
              · rw [if_neg h2, alignedDuplexPositions_append]
                refine List.pairwise_append.mpr ⟨ih (a :: sR) dR, ?_, ?_⟩
                · simp [alignedDuplexPositions]
                · intro x hx y hy
                  simp [alignedDuplexPositions] at hy

lemma alignedD_alignTrace_lt (s d : List Char) :
    ∀ x ∈ alignedDuplexPositions (alignTrace s d), x < d.length := by
  intro x hx
  have hb := alignedD_tracebackFuel_lt (dpTable s d)
    ((bestCell (dpTable s d)).1 + (bestCell (dpTable s d)).2)
    ((s.take (bestCell (dpTable s d)).1).reverse)
    ((d.take (bestCell (dpTable s d)).2).reverse) x hx
  rw [List.length_reverse, List.length_take] at hb
  omega

lemma alignedD_alignTrace_sorted (s d : List Char) :
    List.Pairwise (· < ·) (alignedDuplexPositions (alignTrace s d)) :=
  alignedD_tracebackFuel_sorted (dpTable s d)
    ((bestCell (dpTable s d)).1 + (bestCell (dpTable s d)).2)
    ((s.take (bestCell (dpTable s d)).1).reverse)
    ((d.take (bestCell (dpTable s d)).2).reverse)

lemma head_le_getLast_of_sorted (l : List Nat) (hl : List.Pairwise (· < ·) l)
    {a b : Nat} (ha : l.head? = some a) (hb : l.getLast? = some b) : a ≤ b := by
  cases l with
  | nil => cases ha
  | cons x xs =>
      have hax : a = x := by simpa using ha.symm
      subst hax
      rcases List.mem_cons.mp (getLast?_mem hb) with rfl | hbx
      · exact le_refl _
      · exact le_of_lt ((List.pairwise_cons.mp hl).1 b hbx)

lemma map_ok_dissect (s d : List Char) (r : SimplexToDuplexMapping)
    (h : map_simplex_to_duplex s d = .ok r) :
    ∃ firstD lastD lastS,
      (alignedDuplexPositions (alignTrace s d)).head? = some firstD
      ∧ (alignedDuplexPositions (alignTrace s d)).getLast? = some lastD
      ∧ (alignedSimplexPositions (alignTrace s d)).getLast? = some lastS
      ∧ r.duplex_offset = firstD
      ∧ r.trimmed_duplex_seq = (d.drop firstD).take (lastD + 1 - firstD)
      ∧ r.duplex_to_simplex_mapping
          = walkMapping (spanTrace (alignTrace s d)) 0 ++ [lastS + 1] := by
  simp only [map_simplex_to_duplex] at h
  by_cases he : s.isEmpty ∨ d.isEmpty
  · rw [if_pos he] at h
    cases h
  · rw [if_neg he] at h
    split at h
    case _ firstD lastD lastS heq1 heq2 heq3 =>
      refine ⟨firstD, lastD, lastS, heq1, heq2, heq3, ?_, ?_, ?_⟩ <;>
        (cases h; rfl)
    case _ _ _ _ _ => cases h

lemma take_length_take {α : Type} (l : List α) (k : Nat) :
    l.take (l.take k).length = l.take k := by
  rw [List.length_take]
  rcases Nat.le_total k l.length with h | h
  · rw [Nat.min_eq_left h]
  · rw [Nat.min_eq_right h, List.take_length, List.take_of_length_le h]

/-- C7: for every input pair on which the aligner succeeds, the offset is
non-negative, offset plus trimmed length never exceeds the original duplex
length, and the trimmed sequence is the exact contiguous substring of the
original duplex sequence starting at the offset. -/
theorem C7_trim_invariants (s d : List Char) (r : SimplexToDuplexMapping)
    (h : map_simplex_to_duplex s d = .ok r) :
    0 ≤ r.duplex_offset
    ∧ r.duplex_offset + r.trimmed_duplex_seq.length ≤ d.length
    ∧ (d.drop r.duplex_offset).take r.trimmed_duplex_seq.length
        = r.trimmed_duplex_seq := by
  obtain ⟨f1, l1, l2, hh, hl, hs2, ho, ht, hm⟩ := map_ok_dissect s d r h
  have hfd : f1 < d.length := alignedD_alignTrace_lt s d f1 (head?_mem hh)
  refine ⟨Nat.zero_le _, ?_, ?_⟩
  · rw [ho, ht, List.length_take, List.length_drop]
    omega
  · rw [ho, ht, take_length_take]

set_option maxRecDepth 8000 in
/-- Witness for C7 on a concrete successful alignment. -/
theorem C7_trim_invariants_witness :
    0 ≤ (SimplexToDuplexMapping.mk "ACGT".toList 0 [0, 1, 2, 3, 4]).duplex_offset
    ∧ (SimplexToDuplexMapping.mk "ACGT".toList 0 [0, 1, 2, 3, 4]).duplex_offset
        + (SimplexToDuplexMapping.mk "ACGT".toList 0
            [0, 1, 2, 3, 4]).trimmed_duplex_seq.length
        ≤ "ACGT".toList.length
    ∧ ("ACGT".toList.drop
          (SimplexToDuplexMapping.mk "ACGT".toList 0 [0, 1, 2, 3, 4]).duplex_offset).take
        (SimplexToDuplexMapping.mk "ACGT".toList 0
          [0, 1, 2, 3, 4]).trimmed_duplex_seq.length
        = (SimplexToDuplexMapping.mk "ACGT".toList 0 [0, 1, 2, 3, 4]).trimmed_duplex_seq :=
  C7_trim_invariants "ACGT".toList "ACGT".toList
    (SimplexToDuplexMapping.mk "ACGT".toList 0 [0, 1, 2, 3, 4]) (by decide)

/-- C8: the aligner signals an explicit error on empty input and when the
alignment has no aligned column at all, and on success it never returns an
empty mapping or an empty trimmed sequence disguised as success. -/
theorem C8_fail_fast (s d : List Char) :
    ((s = [] ∨ d = []) → map_simplex_to_duplex s d = .error .inputError)
    ∧ (s ≠ [] → d ≠ [] → alignedDuplexPositions (alignTrace s d) = [] →
        map_simplex_to_duplex s d = .error .unalignableError)
    ∧ (∀ r, map_simplex_to_duplex s d = .ok r →
        r.duplex_to_simplex_mapping ≠ [] ∧ r.trimmed_duplex_seq ≠ []) := by
  refine ⟨?_, ?_, ?_⟩
  · intro he
    have hcond : s.isEmpty ∨ d.isEmpty := by
      rcases he with rfl | rfl
      · exact Or.inl rfl
      · exact Or.inr rfl
    unfold map_simplex_to_duplex
    rw [if_pos hcond]
  · intro hs hd hnone
    simp only [map_simplex_to_duplex]
    rw [if_neg (by simp [List.isEmpty_iff, hs, hd])]
    split
    case _ f l ls h1 h2 h3 =>
      rw [hnone] at h1
      cases h1
    case _ => rfl
  · intro r h
    obtain ⟨f1, l1, l2, hh, hl, hs2, ho, ht, hm⟩ := map_ok_dissect s d r h
    have hfd : f1 < d.length := alignedD_alignTrace_lt s d f1 (head?_mem hh)
    have hfl : f1 ≤ l1 :=
      head_le_getLast_of_sorted _ (alignedD_alignTrace_sorted s d) hh hl
    constructor
    · rw [hm]
      simp
    · rw [ht]
      refine List.length_pos.mp ?_
      rw [List.length_take, List.length_drop]
      omega

/-- Witness for C8: an empty simplex input is an input error, and a pair with
no aligned column is an unalignable error. -/
theorem C8_fail_fast_witness :
    map_simplex_to_duplex [] "ACGT".toList = .error .inputError
    ∧ map_simplex_to_duplex "A".toList "C".toList = .error .unalignableError :=
  ⟨(C8_fail_fast [] "ACGT".toList).1 (Or.inl rfl),
   (C8_fail_fast "A".toList "C".toList).2.1 (by decide) (by decide) (by decide)⟩

/-! Structure of the alignment trace: the duplex-consuming columns form a
contiguous range of duplex positions, and the aligned span is the trace
without its non-aligned ends.  These lemmas support the universal shape
invariants of the mapping array. -/

lemma alignedSimplexPositions_append (l1 l2 : List AlignCol) :
    alignedSimplexPositions (l1 ++ l2)
      = alignedSimplexPositions l1 ++ alignedSimplexPositions l2 :=
  List.filterMap_append _ _ _

lemma dPositions_append (l1 l2 : List AlignCol) :
    dPositions (l1 ++ l2) = dPositions l1 ++ dPositions l2 :=
  List.filterMap_append _ _ _

lemma alignedDuplexPositions_eq_nil {l : List AlignCol}
    (h : ∀ x ∈ l, isAlignedCol x = false) : alignedDuplexPositions l = [] := by
  induction l with
  | nil => rfl
  | cons a l ih =>
      have ha := h a (List.mem_cons_self _ _)
      have ht := fun x hx => h x (List.mem_cons_of_mem _ hx)
      cases a with
      | aligned si di => simp [isAlignedCol] at ha
      | simplexOnly si => simpa [alignedDuplexPositions, List.filterMap_cons] using ih ht
      | duplexOnly di => simpa [alignedDuplexPositions, List.filterMap_cons] using ih ht

lemma alignedSimplexPositions_eq_nil {l : List AlignCol}
    (h : ∀ x ∈ l, isAlignedCol x = false) : alignedSimplexPositions l = [] := by
  induction l with
  | nil => rfl
  | cons a l ih =>
      have ha := h a (List.mem_cons_self _ _)
      have ht := fun x hx => h x (List.mem_cons_of_mem _ hx)
      cases a with
      | aligned si di => simp [isAlignedCol] at ha
      | simplexOnly si => simpa [alignedSimplexPositions, List.filterMap_cons] using ih ht
      | duplexOnly di => simpa [alignedSimplexPositions, List.filterMap_cons] using ih ht

lemma dropWhile_head?_not {α : Type} (p : α → Bool) (l : List α) :
    ∀ x ∈ (l.dropWhile p).head?, p x = false := by
  induction l with
  | nil => intro x hx; cases hx
  | cons a l ih =>
      intro x hx
      rw [List.dropWhile_cons] at hx
      by_cases hpa : p a
      · rw [if_pos hpa] at hx
        exact ih x hx
      · rw [if_neg hpa] at hx
        have hxa : a = x := by simpa using hx
        subst hxa
        simpa using hpa

lemma getLast?_cons_of_ne_nil {α : Type} (a : α) {l : List α} (h : l ≠ []) :
    (a :: l).getLast? = l.getLast? := by
  cases l with
  | nil => exact absurd rfl h
  | cons b m => exact List.getLast?_cons_cons

lemma range'_head? (a n : Nat) (h : n ≠ 0) : (List.range' a n).head? = some a := by
  cases n with
  | zero => exact absurd rfl h
  | succ m => rfl

lemma range'_getLast? (a n : Nat) (h : n ≠ 0) :
    (List.range' a n).getLast? = some (a + n - 1) := by
  induction n generalizing a with
  | zero => exact absurd rfl h
  | succ m ih =>
      rcases Nat.eq_zero_or_pos m with rfl | hm
      · simp [List.range']
      · have hne : List.range' (a + 1) m ≠ [] := by
          intro hcon
          have := congrArg List.length hcon
          rw [List.length_range'] at this
          simp at this
          omega
        show (a :: List.range' (a + 1) m).getLast? = some (a + (m + 1) - 1)
        rw [getLast?_cons_of_ne_nil _ hne, ih (a + 1) hm.ne']
        congr 1
        omega

lemma range'_decomp (a n : Nat) (l1 l2 : List Nat) (h : List.range' a n = l1 ++ l2) :
    l1 = List.range' a l1.length ∧ l2 = List.range' (a + l1.length) l2.length := by
  have hlen : n = l1.length + l2.length := by
    have := congrArg List.length h
    simpa [List.length_range'] using this
  subst hlen
  have h2 : List.range' a l1.length ++ List.range' (a + l1.length) l2.length
      = l1 ++ l2 := by
    rw [List.range'_append_1, Nat.add_comm l2.length l1.length]
    exact h
  obtain ⟨e1, e2⟩ := List.append_inj h2 (by rw [List.length_range'])
  exact ⟨e1.symm, e2.symm⟩

lemma mem_le_getLast_of_sorted : ∀ (l : List Nat), List.Pairwise (· < ·) l →
    ∀ b, l.getLast? = some b → ∀ x ∈ l, x ≤ b := by
  intro l
  induction l with
  | nil => intro _ b hb; cases hb
  | cons y ys ih =>
      intro hl b hb x hx
      cases ys with
      | nil =>
          have h1 : x = y := by simpa using hx
          have h2 : y = b := by simpa using hb
          omega
      | cons z zs =>
          rw [List.getLast?_cons_cons] at hb
          rcases List.mem_cons.mp hx with rfl | hx'
          · exact le_of_lt ((List.pairwise_cons.mp hl).1 b (getLast?_mem hb))
          · exact ih (List.pairwise_cons.mp hl).2 b hb x hx'

lemma spanTrace_decomp (tr : List AlignCol) :
    ∃ A C, tr = A ++ spanTrace tr ++ C
      ∧ (∀ x ∈ A, isAlignedCol x = false)
      ∧ (∀ x ∈ C, isAlignedCol x = false) := by
  refine ⟨tr.takeWhile (fun c => ! isAlignedCol c),
    ((tr.dropWhile (fun c => ! isAlignedCol c)).reverse.takeWhile
      (fun c => ! isAlignedCol c)).reverse, ?_, ?_, ?_⟩
  · have h2 : (tr.dropWhile (fun c => ! isAlignedCol c)).reverse.takeWhile
          (fun c => ! isAlignedCol c)
        ++ (tr.dropWhile (fun c => ! isAlignedCol c)).reverse.dropWhile
          (fun c => ! isAlignedCol c)
        = (tr.dropWhile (fun c => ! isAlignedCol c)).reverse :=
      List.takeWhile_append_dropWhile _ _
    have h3 : tr.dropWhile (fun c => ! isAlignedCol c)
        = spanTrace tr
          ++ ((tr.dropWhile (fun c => ! isAlignedCol c)).reverse.takeWhile
            (fun c => ! isAlignedCol c)).reverse := by
      have h4 := congrArg List.reverse h2
      rw [List.reverse_append, List.reverse_reverse] at h4
      exact h4.symm
    calc tr = tr.takeWhile (fun c => ! isAlignedCol c)
          ++ tr.dropWhile (fun c => ! isAlignedCol c) :=
          (List.takeWhile_append_dropWhile _ _).symm
      _ = tr.takeWhile (fun c => ! isAlignedCol c)
          ++ (spanTrace tr
            ++ ((tr.dropWhile (fun c => ! isAlignedCol c)).reverse.takeWhile
              (fun c => ! isAlignedCol c)).reverse) := by rw [← h3]
      _ = tr.takeWhile (fun c => ! isAlignedCol c) ++ spanTrace tr
          ++ ((tr.dropWhile (fun c => ! isAlignedCol c)).reverse.takeWhile
            (fun c => ! isAlignedCol c)).reverse := by rw [List.append_assoc]
  · intro x hx
    have := List.mem_takeWhile_imp hx
    simpa using this
  · intro x hx
    have := List.mem_takeWhile_imp (List.mem_reverse.mp hx)
    simpa using this

lemma spanTrace_head_aligned (tr : List AlignCol) :
    ∀ x ∈ (spanTrace tr).head?, isAlignedCol x = true := by
  intro x hx
  have hx1 : ((tr.dropWhile (fun c => ! isAlignedCol c)).reverse.dropWhile
      (fun c => ! isAlignedCol c)).getLast? = some x := by
    have h0 : (spanTrace tr).head?
        = ((tr.dropWhile (fun c => ! isAlignedCol c)).reverse.dropWhile
          (fun c => ! isAlignedCol c)).getLast? := List.head?_reverse _
    rw [← h0]
    exact Option.mem_def.mp hx
  have hx2 : (tr.dropWhile (fun c => ! isAlignedCol c)).reverse.getLast? = some x := by
    have h2 : (tr.dropWhile (fun c => ! isAlignedCol c)).reverse.takeWhile
          (fun c => ! isAlignedCol c)
        ++ (tr.dropWhile (fun c => ! isAlignedCol c)).reverse.dropWhile
          (fun c => ! isAlignedCol c)
        = (tr.dropWhile (fun c => ! isAlignedCol c)).reverse :=
      List.takeWhile_append_dropWhile _ _
    rw [← h2, List.getLast?_append, hx1]
    rfl
  have hx3 : (tr.dropWhile (fun c => ! isAlignedCol c)).head? = some x := by
    rw [← List.getLast?_reverse]
    exact hx2
  have := dropWhile_head?_not (fun c => ! isAlignedCol c) tr x (Option.mem_def.mpr hx3)
  simpa using this

lemma spanTrace_getLast_aligned (tr : List AlignCol) :
    ∀ x ∈ (spanTrace tr).getLast?, isAlignedCol x = true := by
  intro x hx
  have h0 : (spanTrace tr).getLast?
      = ((tr.dropWhile (fun c => ! isAlignedCol c)).reverse.dropWhile
        (fun c => ! isAlignedCol c)).head? := List.getLast?_reverse _
  rw [h0] at hx
  have := dropWhile_head?_not (fun c => ! isAlignedCol c)
    (tr.dropWhile (fun c => ! isAlignedCol c)).reverse x hx
  simpa using this

lemma alignedDuplexPositions_spanTrace (tr : List AlignCol) :
    alignedDuplexPositions (spanTrace tr) = alignedDuplexPositions tr := by
  obtain ⟨A, C, htr, hA, hC⟩ := spanTrace_decomp tr
  have h1 : alignedDuplexPositions tr
      = alignedDuplexPositions A ++ alignedDuplexPositions (spanTrace tr)
        ++ alignedDuplexPositions C := by
    conv_lhs => rw [htr]
    rw [alignedDuplexPositions_append, alignedDuplexPositions_append]
  rw [alignedDuplexPositions_eq_nil hA, alignedDuplexPositions_eq_nil hC] at h1
  simpa using h1.symm

lemma alignedSimplexPositions_spanTrace (tr : List AlignCol) :
    alignedSimplexPositions (spanTrace tr) = alignedSimplexPositions tr := by
  obtain ⟨A, C, htr, hA, hC⟩ := spanTrace_decomp tr
  have h1 : alignedSimplexPositions tr
      = alignedSimplexPositions A ++ alignedSimplexPositions (spanTrace tr)
        ++ alignedSimplexPositions C := by
    conv_lhs => rw [htr]
    rw [alignedSimplexPositions_append, alignedSimplexPositions_append]
  rw [alignedSimplexPositions_eq_nil hA, alignedSimplexPositions_eq_nil hC] at h1
  simpa using h1.symm

lemma alignedS_tracebackFuel_lt (tbl : List (List Int)) (fuel : Nat) :
    ∀ (sR dR : List Char) (x : Nat),
      x ∈ alignedSimplexPositions (tracebackFuel tbl fuel sR dR) → x < sR.length := by
  induction fuel with
  | zero =>
      intro sR dR x hx
      simp [tracebackFuel, alignedSimplexPositions] at hx
  | succ n ih =>
      intro sR dR x hx
      cases sR with
      | nil => simp [tracebackFuel, alignedSimplexPositions] at hx
      | cons a sR =>
        cases dR with
        | nil => simp [tracebackFuel, alignedSimplexPositions] at hx
        | cons b dR =>
          rw [tracebackFuel] at hx
          by_cases h0 : dpGet tbl (sR.length + 1) (dR.length + 1) ≤ 0
          · rw [if_pos h0] at hx
            simp [alignedSimplexPositions] at hx
          · rw [if_neg h0] at hx
            by_cases h1 : dpGet tbl (sR.length + 1) (dR.length + 1)
                = dpGet tbl sR.length dR.length + baseScore a b
            · rw [if_pos h1, alignedSimplexPositions_append] at hx
              rcases List.mem_append.mp hx with hx | hx
              · exact Nat.lt_succ_of_lt (ih sR dR x hx)
              · simp [alignedSimplexPositions] at hx
                simp [hx]
            · rw [if_neg h1] at hx
              by_cases h2 : dpGet tbl (sR.length + 1) (dR.length + 1)
                  = dpGet tbl sR.length (dR.length + 1) - gapPenalty
              · rw [if_pos h2, alignedSimplexPositions_append] at hx
                rcases List.mem_append.mp hx with hx | hx
                · exact Nat.lt_succ_of_lt (ih sR (b :: dR) x hx)
                · simp [alignedSimplexPositions] at hx
              · rw [if_neg h2, alignedSimplexPositions_append] at hx
                rcases List.mem_append.mp hx with hx | hx
                · exact ih (a :: sR) dR x hx
                · simp [alignedSimplexPositions] at hx

lemma alignedS_tracebackFuel_sorted (tbl : List (List Int)) (fuel : Nat) :
    ∀ (sR dR : List Char),
      List.Pairwise (· < ·) (alignedSimplexPositions (tracebackFuel tbl fuel sR dR)) := by
  induction fuel with
  | zero =>
      intro sR dR
      simp [tracebackFuel, alignedSimplexPositions]
  | succ n ih =>
      intro sR dR
      cases sR with
      | nil => simp [tracebackFuel, alignedSimplexPositions]
      | cons a sR =>
        cases dR with
        | nil => simp [tracebackFuel, alignedSimplexPositions]
        | cons b dR =>
          rw [tracebackFuel]
          by_cases h0 : dpGet tbl (sR.length + 1) (dR.length + 1) ≤ 0
          · rw [if_pos h0]
            simp [alignedSimplexPositions]
          · rw [if_neg h0]
            by_cases h1 : dpGet tbl (sR.length + 1) (dR.length + 1)
                = dpGet tbl sR.length dR.length + baseScore a b
            · rw [if_pos h1, alignedSimplexPositions_append]
              refine List.pairwise_append.mpr ⟨ih sR dR, ?_, ?_⟩
              · simp [alignedSimplexPositions]
              · intro x hx y hy
                have hyd : y = sR.length := by
                  simpa [alignedSimplexPositions] using hy
                subst hyd
                exact alignedS_tracebackFuel_lt tbl n sR dR x hx
            · rw [if_neg h1]
              by_cases h2 : dpGet tbl (sR.length + 1) (dR.length + 1)
                  = dpGet tbl sR.length (dR.length + 1) - gapPenalty
              · rw [if_pos h2, alignedSimplexPositions_append]
                refine List.pairwise_append.mpr ⟨ih sR (b :: dR), ?_, ?_⟩
                · simp [alignedSimplexPositions]
                · intro x hx y hy
                  simp [alignedSimplexPositions] at hy
              · rw [if_neg h2, alignedSimplexPositions_append]
                refine List.pairwise_append.mpr ⟨ih (a :: sR) dR, ?_, ?_⟩
                · simp [alignedSimplexPositions]
                · intro x hx y hy
                  simp [alignedSimplexPositions] at hy

lemma alignedS_alignTrace_lt (s d : List Char) :
    ∀ x ∈ alignedSimplexPositions (alignTrace s d), x < s.length := by
  intro x hx
  have hb := alignedS_tracebackFuel_lt (dpTable s d)
    ((bestCell (dpTable s d)).1 + (bestCell (dpTable s d)).2)
    ((s.take (bestCell (dpTable s d)).1).reverse)
    ((d.take (bestCell (dpTable s d)).2).reverse) x hx
  rw [List.length_reverse, List.length_take] at hb
  omega

lemma alignedS_alignTrace_sorted (s d : List Char) :
    List.Pairwise (· < ·) (alignedSimplexPositions (alignTrace s d)) :=
  alignedS_tracebackFuel_sorted (dpTable s d)
    ((bestCell (dpTable s d)).1 + (bestCell (dpTable s d)).2)
    ((s.take (bestCell (dpTable s d)).1).reverse)
    ((d.take (bestCell (dpTable s d)).2).reverse)

lemma dPositions_tracebackFuel (tbl : List (List Int)) (fuel : Nat) :
    ∀ (sR dR : List Char), ∃ j0, j0 ≤ dR.length
      ∧ dPositions (tracebackFuel tbl fuel sR dR)
          = List.range' j0 (dR.length - j0) := by
  induction fuel with
  | zero =>
      intro sR dR
      exact ⟨dR.length, le_refl _, by simp [tracebackFuel, dPositions]⟩
  | succ n ih =>
      intro sR dR
      cases sR with
      | nil => exact ⟨dR.length, le_refl _, by simp [tracebackFuel, dPositions]⟩
      | cons a sR =>
        cases dR with
        | nil => exact ⟨0, by simp, by simp [tracebackFuel, dPositions]⟩
        | cons b dR =>
          rw [tracebackFuel]
          by_cases h0 : dpGet tbl (sR.length + 1) (dR.length + 1) ≤ 0
          · rw [if_pos h0]
            exact ⟨(b :: dR).length, le_refl _, by simp [dPositions]⟩
          · rw [if_neg h0]
            by_cases h1 : dpGet tbl (sR.length + 1) (dR.length + 1)
                = dpGet tbl sR.length dR.length + baseScore a b
            · rw [if_pos h1]
              obtain ⟨j0, hj0, hdp⟩ := ih sR dR
              refine ⟨j0, by simp only [List.length_cons]; omega, ?_⟩
              rw [dPositions_append, hdp]
              have h2 : dPositions [AlignCol.aligned sR.length dR.length]
                  = [dR.length] := rfl
              rw [h2]
              have h3 : (b :: dR).length - j0 = (dR.length - j0) + 1 := by
                simp only [List.length_cons]
                omega
              rw [h3, List.range'_concat]
              have h4 : j0 + 1 * (dR.length - j0) = dR.length := by omega
              rw [h4]
            · rw [if_neg h1]
              by_cases h2 : dpGet tbl (sR.length + 1) (dR.length + 1)
                  = dpGet tbl sR.length (dR.length + 1) - gapPenalty
              · rw [if_pos h2]
                obtain ⟨j0, hj0, hdp⟩ := ih sR (b :: dR)
                refine ⟨j0, hj0, ?_⟩
                rw [dPositions_append, hdp]
                have h5 : dPositions [AlignCol.simplexOnly sR.length] = [] := rfl
                rw [h5, List.append_nil]
              · rw [if_neg h2]
                obtain ⟨j0, hj0, hdp⟩ := ih (a :: sR) dR
                refine ⟨j0, by simp only [List.length_cons]; omega, ?_⟩
                rw [dPositions_append, hdp]
                have h6 : dPositions [AlignCol.duplexOnly dR.length] = [dR.length] := rfl
                rw [h6]
                have h3 : (b :: dR).length - j0 = (dR.length - j0) + 1 := by
                  simp only [List.length_cons]
                  omega
                rw [h3, List.range'_concat]
                have h4 : j0 + 1 * (dR.length - j0) = dR.length := by omega
                rw [h4]

lemma dPositions_alignTrace_range (s d : List Char) :
    ∃ a n, dPositions (alignTrace s d) = List.range' a n := by
  obtain ⟨j0, _, hdp⟩ := dPositions_tracebackFuel (dpTable s d)
    ((bestCell (dpTable s d)).1 + (bestCell (dpTable s d)).2)
    ((s.take (bestCell (dpTable s d)).1).reverse)
    ((d.take (bestCell (dpTable s d)).2).reverse)
  exact ⟨j0, _, hdp⟩

lemma walkMapping_length : ∀ (l : List AlignCol) (c : Nat),
    (walkMapping l c).length = (dPositions l).length := by
  intro l
  induction l with
  | nil => intro c; rfl
  | cons x rest ih =>
      intro c
      cases x with
      | aligned si di =>
          show (si :: walkMapping rest si).length = (di :: dPositions rest).length
          simp [ih si]
      | simplexOnly si =>
          show (walkMapping rest c).length = (dPositions rest).length
          exact ih c
      | duplexOnly di =>
          show (c :: walkMapping rest c).length = (di :: dPositions rest).length
          simp [ih c]

lemma walkMapping_upper (M : Nat) : ∀ (l : List AlignCol) (c : Nat),
    (∀ x ∈ alignedSimplexPositions l, x ≤ M) → c ≤ M →
    ∀ v ∈ walkMapping l c, v ≤ M := by
  intro l
  induction l with
  | nil => intro c _ _ v hv; cases hv
  | cons x rest ih =>
      intro c hub hc v hv
      cases x with
      | aligned si di =>
          have hstep : alignedSimplexPositions (AlignCol.aligned si di :: rest)
              = si :: alignedSimplexPositions rest := rfl
          rw [hstep] at hub
          have hv' : v ∈ si :: walkMapping rest si := hv
          rcases List.mem_cons.mp hv' with rfl | hv''
          · exact hub v (List.mem_cons_self _ _)
          · exact ih si (fun y hy => hub y (List.mem_cons_of_mem _ hy))
              (hub si (List.mem_cons_self _ _)) v hv''
      | simplexOnly si =>
          have hstep : alignedSimplexPositions (AlignCol.simplexOnly si :: rest)
              = alignedSimplexPositions rest := rfl
          rw [hstep] at hub
          exact ih c hub hc v hv
      | duplexOnly di =>
          have hstep : alignedSimplexPositions (AlignCol.duplexOnly di :: rest)
              = alignedSimplexPositions rest := rfl
          rw [hstep] at hub
          have hv' : v ∈ c :: walkMapping rest c := hv
          rcases List.mem_cons.mp hv' with rfl | hv''
          · exact hc
          · exact ih c hub hc v hv''

lemma walkMapping_sorted : ∀ (l : List AlignCol) (c : Nat),
    List.Pairwise (· < ·) (alignedSimplexPositions l) →
    (∀ x ∈ alignedSimplexPositions l, c ≤ x) →
    List.Pairwise (· ≤ ·) (walkMapping l c)
      ∧ (∀ v ∈ walkMapping l c, c ≤ v) := by
  intro l
  induction l with
  | nil =>
      intro c _ _
      exact ⟨List.Pairwise.nil, fun v hv => absurd hv (List.not_mem_nil v)⟩
  | cons x rest ih =>
      intro c hsorted hlow
      cases x with
      | aligned si di =>
          have hstep : alignedSimplexPositions (AlignCol.aligned si di :: rest)
              = si :: alignedSimplexPositions rest := rfl
          rw [hstep] at hsorted hlow
          have hd := (List.pairwise_cons.mp hsorted).1
          have htail := (List.pairwise_cons.mp hsorted).2
          obtain ⟨hw, hlo⟩ := ih si htail (fun x hx => le_of_lt (hd x hx))
          have hcsi : c ≤ si := hlow si (List.mem_cons_self _ _)
          constructor
          · show List.Pairwise (· ≤ ·) (si :: walkMapping rest si)
            exact List.pairwise_cons.mpr ⟨fun v hv => hlo v hv, hw⟩
          · intro v hv
            have hv' : v ∈ si :: walkMapping rest si := hv
            rcases List.mem_cons.mp hv' with rfl | hv''
            · exact hcsi
            · exact le_trans hcsi (hlo v hv'')
      | simplexOnly si =>
          have hstep : alignedSimplexPositions (AlignCol.simplexOnly si :: rest)
              = alignedSimplexPositions rest := rfl
          rw [hstep] at hsorted hlow
          exact ih c hsorted hlow
      | duplexOnly di =>
          have hstep : alignedSimplexPositions (AlignCol.duplexOnly di :: rest)
              = alignedSimplexPositions rest := rfl
          rw [hstep] at hsorted hlow
          obtain ⟨hw, hlo⟩ := ih c hsorted hlow
          constructor
          · show List.Pairwise (· ≤ ·) (c :: walkMapping rest c)
            exact List.pairwise_cons.mpr ⟨fun v hv => hlo v hv, hw⟩
          · intro v hv
            have hv' : v ∈ c :: walkMapping rest c := hv
            rcases List.mem_cons.mp hv' with rfl | hv''
            · exact le_refl _
            · exact hlo v hv''

lemma span_dPositions_length (tr : List AlignCol) (firstD lastD : Nat)
    (hrange : ∃ a n, dPositions tr = List.range' a n)
    (hh : (alignedDuplexPositions tr).head? = some firstD)
    (hl : (alignedDuplexPositions tr).getLast? = some lastD) :
    (dPositions (spanTrace tr)).length = lastD + 1 - firstD := by
  obtain ⟨A, C, htr, hA, hC⟩ := spanTrace_decomp tr
  have haDP := alignedDuplexPositions_spanTrace tr
  have hspan_ne : spanTrace tr ≠ [] := by
    intro hcon
    rw [← haDP, hcon] at hh
    cases hh
  obtain ⟨x0, tail, hspl⟩ : ∃ x0 tail, spanTrace tr = x0 :: tail := by
    cases hspl : spanTrace tr with
    | nil => exact absurd hspl hspan_ne
    | cons y ys => exact ⟨y, ys, rfl⟩
  have hx0al : isAlignedCol x0 = true :=
    spanTrace_head_aligned tr x0 (by rw [hspl]; rfl)
  obtain ⟨si0, di0, hx0eq⟩ : ∃ si0 di0, x0 = AlignCol.aligned si0 di0 := by
    cases x0 with
    | aligned si di => exact ⟨si, di, rfl⟩
    | simplexOnly si => simp [isAlignedCol] at hx0al
    | duplexOnly di => simp [isAlignedCol] at hx0al
  subst hx0eq
  have hfd : firstD = di0 := by
    rw [← haDP, hspl] at hh
    have h1 : alignedDuplexPositions (AlignCol.aligned si0 di0 :: tail)
        = di0 :: alignedDuplexPositions tail := rfl
    rw [h1] at hh
    simpa using hh.symm
  obtain ⟨x1, hx1⟩ : ∃ x1, (spanTrace tr).getLast? = some x1 :=
    ⟨_, List.getLast?_eq_getLast _ hspan_ne⟩
  have hx1al : isAlignedCol x1 = true :=
    spanTrace_getLast_aligned tr x1 (Option.mem_def.mpr hx1)
  obtain ⟨si1, di1, hx1eq⟩ : ∃ si1 di1, x1 = AlignCol.aligned si1 di1 := by
    cases x1 with
    | aligned si di => exact ⟨si, di, rfl⟩
    | simplexOnly si => simp [isAlignedCol] at hx1al
    | duplexOnly di => simp [isAlignedCol] at hx1al
  have hqdecomp : spanTrace tr
      = (spanTrace tr).dropLast ++ [AlignCol.aligned si1 di1] := by
    have h5 := List.dropLast_concat_getLast hspan_ne
    have h6 : (spanTrace tr).getLast hspan_ne = x1 := by
      rw [List.getLast?_eq_getLast _ hspan_ne] at hx1
      simpa using hx1
    conv_lhs => rw [← h5]
    rw [h6, hx1eq]
  have hld : lastD = di1 := by
    rw [← haDP] at hl
    rw [hqdecomp, alignedDuplexPositions_append] at hl
    have h7 : alignedDuplexPositions [AlignCol.aligned si1 di1] = [di1] := rfl
    rw [h7, List.getLast?_append] at hl
    simpa using hl.symm
  have hdp_head : (dPositions (spanTrace tr)).head? = some di0 := by
    rw [hspl]
    rfl
  have hdp_last : (dPositions (spanTrace tr)).getLast? = some di1 := by
    conv_lhs => rw [hqdecomp]
    rw [dPositions_append]
    have h8 : dPositions [AlignCol.aligned si1 di1] = [di1] := rfl
    rw [h8, List.getLast?_append]
    rfl
  obtain ⟨a, n, hdptr⟩ := hrange
  have hsplit : List.range' a n
      = dPositions A ++ (dPositions (spanTrace tr) ++ dPositions C) := by
    rw [← hdptr]
    conv_lhs => rw [htr]
    rw [dPositions_append, dPositions_append, List.append_assoc]
  obtain ⟨_, hrest⟩ := range'_decomp a n _ _ hsplit
  obtain ⟨hspan_range, _⟩ := range'_decomp _ _ _ _ hrest.symm
  set k := (dPositions (spanTrace tr)).length with hkdef
  have hk0 : k ≠ 0 := by
    intro hcon
    rw [List.length_eq_zero.mp (hkdef.symm.trans hcon)] at hdp_head
    cases hdp_head
  have h9 : (dPositions (spanTrace tr)).head?
      = some (a + (dPositions A).length) := by
    rw [hspan_range]
    exact range'_head? _ _ hk0
  have hhead : di0 = a + (dPositions A).length := by
    rw [hdp_head] at h9
    simpa using h9
  have h10 : (dPositions (spanTrace tr)).getLast?
      = some (a + (dPositions A).length + k - 1) := by
    rw [hspan_range]
    exact range'_getLast? _ _ hk0
  have hlast : di1 = a + (dPositions A).length + k - 1 := by
    rw [hdp_last] at h10
    simpa using h10
  omega

/-- C5 amended: for every input pair on which the aligner succeeds, the
mapping has exactly one entry per base of the trimmed duplex sequence plus
one final fence-post entry, i.e. its length is the trimmed length plus
one. -/
theorem C5_amended_length (s d : List Char) (r : SimplexToDuplexMapping)
    (h : map_simplex_to_duplex s d = .ok r) :
    r.duplex_to_simplex_mapping.length = r.trimmed_duplex_seq.length + 1 := by
  obtain ⟨f1, l1, l2, hh, hl, hs2, ho, ht, hm⟩ := map_ok_dissect s d r h
  have hld : l1 < d.length := alignedD_alignTrace_lt s d l1 (getLast?_mem hl)
  have hsp : (dPositions (spanTrace (alignTrace s d))).length = l1 + 1 - f1 :=
    span_dPositions_length (alignTrace s d) f1 l1
      (dPositions_alignTrace_range s d) hh hl
  rw [hm, ht, List.length_append, walkMapping_length, hsp, List.length_take,
    List.length_drop]
  simp only [List.length_cons, List.length_nil]
  omega

/-- Witness for the amended C5 at the successful alignment of conformance
fixture case 1. -/
theorem C5_amended_length_witness :
    (SimplexToDuplexMapping.mk "ACGTACGTACG".toList 0
        [5, 6, 7, 8, 9, 10, 11, 12, 13, 14, 15, 16]).duplex_to_simplex_mapping.length
      = (SimplexToDuplexMapping.mk "ACGTACGTACG".toList 0
          [5, 6, 7, 8, 9, 10, 11, 12, 13, 14, 15, 16]).trimmed_duplex_seq.length + 1 :=
  C5_amended_length "TTTTTACGTACGTACG".toList "ACGTACGTACG".toList
    (SimplexToDuplexMapping.mk "ACGTACGTACG".toList 0
      [5, 6, 7, 8, 9, 10, 11, 12, 13, 14, 15, 16]) model_eval_case1

/-- C4 amended: for every input pair on which the aligner succeeds, the
mapping is non-decreasing, every value is at most the simplex length, and
every value but the final fence-post entry is strictly below the simplex
length. -/
theorem C4_amended_bounds (s d : List Char) (r : SimplexToDuplexMapping)
    (h : map_simplex_to_duplex s d = .ok r) :
    List.Pairwise (· ≤ ·) r.duplex_to_simplex_mapping
    ∧ (∀ v ∈ r.duplex_to_simplex_mapping, v ≤ s.length)
    ∧ (∀ v ∈ r.duplex_to_simplex_mapping.dropLast, v < s.length) := by
  obtain ⟨f1, l1, l2, hh, hl, hs2, ho, ht, hm⟩ := map_ok_dissect s d r h
  have hsorted := alignedS_alignTrace_sorted s d
  have hub : ∀ x ∈ alignedSimplexPositions (alignTrace s d), x ≤ l2 :=
    mem_le_getLast_of_sorted _ hsorted l2 hs2
  have hl2 : l2 < s.length := alignedS_alignTrace_lt s d l2 (getLast?_mem hs2)
  have hspan_eq := alignedSimplexPositions_spanTrace (alignTrace s d)
  have hspan_sorted : List.Pairwise (· < ·)
      (alignedSimplexPositions (spanTrace (alignTrace s d))) := by
    rw [hspan_eq]
    exact hsorted
  have hspan_ub : ∀ x ∈ alignedSimplexPositions (spanTrace (alignTrace s d)),
      x ≤ l2 := by
    rw [hspan_eq]
    exact hub
  obtain ⟨hwsort, _⟩ := walkMapping_sorted (spanTrace (alignTrace s d)) 0
    hspan_sorted (fun x _ => Nat.zero_le x)
  have hwub : ∀ v ∈ walkMapping (spanTrace (alignTrace s d)) 0, v ≤ l2 :=
    walkMapping_upper l2 _ 0 hspan_ub (Nat.zero_le _)
  rw [hm]
  refine ⟨?_, ?_, ?_⟩
  · refine List.pairwise_append.mpr ⟨hwsort, ?_, ?_⟩
    · simp
    · intro x hx y hy
      have hy' : y = l2 + 1 := by simpa using hy
      have := hwub x hx
      omega
  · intro v hv
    rcases List.mem_append.mp hv with hv | hv
    · have := hwub v hv
      omega
    · have hv' : v = l2 + 1 := by simpa using hv
      omega
  · intro v hv
    rw [List.dropLast_concat] at hv
    exact lt_of_le_of_lt (hwub v hv) hl2

/-- Witness for the amended C4 at the successful alignment of conformance
fixture case 1. -/
theorem C4_amended_bounds_witness :
    List.Pairwise (· ≤ ·) (SimplexToDuplexMapping.mk "ACGTACGTACG".toList 0
        [5, 6, 7, 8, 9, 10, 11, 12, 13, 14, 15, 16]).duplex_to_simplex_mapping
    ∧ (∀ v ∈ (SimplexToDuplexMapping.mk "ACGTACGTACG".toList 0
        [5, 6, 7, 8, 9, 10, 11, 12, 13, 14, 15, 16]).duplex_to_simplex_mapping,
        v ≤ "TTTTTACGTACGTACG".toList.length)
    ∧ (∀ v ∈ (SimplexToDuplexMapping.mk "ACGTACGTACG".toList 0
        [5, 6, 7, 8, 9, 10, 11, 12, 13, 14, 15,
          16]).duplex_to_simplex_mapping.dropLast,
        v < "TTTTTACGTACGTACG".toList.length) :=
  C4_amended_bounds "TTTTTACGTACGTACG".toList "ACGTACGTACG".toList
    (SimplexToDuplexMapping.mk "ACGTACGTACG".toList 0
      [5, 6, 7, 8, 9, 10, 11, 12, 13, 14, 15, 16]) model_eval_case1

end Remora
